import Mathlib

/-!
Shallow embedding of the recipe persistence layer of `Finalproject.py`
(class `Validator`, class `Database`, and the admin user-removal flow of
`RecipeApp`).  The relational store is modelled as an explicit record of
table rows; `CURRENT_TIMESTAMP` is modelled as an explicit `now : Nat`
argument to every state-changing operation; MySQL auto-increment ids are
modelled by per-table `next…Id` counters starting at 1.
-/

set_option linter.unusedVariables false

/-- Errors raised by the source: `ValidationError` and `DatabaseError`,
each carrying its message string. -/
inductive Err where
  | validation (msg : String)
  | database (msg : String)
deriving DecidableEq, Repr

/-- Recipe status enum (`status ENUM('active','deleted')`). -/
inductive RStatus where
  | active
  | deleted
deriving DecidableEq, Repr

/-- Recipe event type enum (`event_type ENUM('view','edit','delete','create')`). -/
inductive EType where
  | view
  | edit
  | delete
  | create
deriving DecidableEq, Repr

/-- The non-ASCII codepoints that Python `str.isspace` (and hence the
no-argument `str.strip`) treats as whitespace: NEL, NBSP, ogham space mark,
the general punctuation spaces, line and paragraph separators, narrow and
medium mathematical spaces, and the ideographic space. -/
def pyNonAsciiSpace : List Nat :=
  [0x85, 0xa0, 0x1680, 0x2000, 0x2001, 0x2002, 0x2003, 0x2004,
   0x2005, 0x2006, 0x2007, 0x2008, 0x2009, 0x200a, 0x2028, 0x2029,
   0x202f, 0x205f, 0x3000]

/-- Models Python `str.isspace` per character — the characters the
no-argument `str.strip` removes: the ASCII whitespace characters
U+0009 to U+000D, U+001C to U+001F and the space, plus the non-ASCII
whitespace codepoints of `pyNonAsciiSpace`. -/
def isPySpace (c : Char) : Bool :=
  if c.toNat ≤ 0x7F then
    (9 ≤ c.toNat && c.toNat ≤ 13) || (28 ≤ c.toNat && c.toNat ≤ 31) || c.toNat = 32
  else pyNonAsciiSpace.contains c.toNat

/-- Models Python `str.strip()` with no arguments: drop leading and trailing
whitespace. -/
def pyStrip (s : String) : String :=
  String.mk (((s.data.dropWhile isPySpace).reverse.dropWhile isPySpace).reverse)

set_option maxHeartbeats 800000 in
/-- The codepoint ranges above U+007F on which Python `str.isalnum` returns
`true` — the Unicode letters, digits and numeric characters of CPython's
Unicode 14.0.0 tables (generated from `chr(c).isalnum()` over all
codepoints). -/
def pyAlnumRanges : List (Nat × Nat) :=
[
  (0xaa, 0xaa), (0xb2, 0xb3), (0xb5, 0xb5), (0xb9, 0xba), (0xbc, 0xbe),
  (0xc0, 0xd6), (0xd8, 0xf6), (0xf8, 0x2c1), (0x2c6, 0x2d1), (0x2e0, 0x2e4),
  (0x2ec, 0x2ec), (0x2ee, 0x2ee), (0x370, 0x374), (0x376, 0x377), (0x37a, 0x37d),
  (0x37f, 0x37f), (0x386, 0x386), (0x388, 0x38a), (0x38c, 0x38c), (0x38e, 0x3a1),
  (0x3a3, 0x3f5), (0x3f7, 0x481), (0x48a, 0x52f), (0x531, 0x556), (0x559, 0x559),
  (0x560, 0x588), (0x5d0, 0x5ea), (0x5ef, 0x5f2), (0x620, 0x64a), (0x660, 0x669),
  (0x66e, 0x66f), (0x671, 0x6d3), (0x6d5, 0x6d5), (0x6e5, 0x6e6), (0x6ee, 0x6fc),
  (0x6ff, 0x6ff), (0x710, 0x710), (0x712, 0x72f), (0x74d, 0x7a5), (0x7b1, 0x7b1),
  (0x7c0, 0x7ea), (0x7f4, 0x7f5), (0x7fa, 0x7fa), (0x800, 0x815), (0x81a, 0x81a),
  (0x824, 0x824), (0x828, 0x828), (0x840, 0x858), (0x860, 0x86a), (0x870, 0x887),
  (0x889, 0x88e), (0x8a0, 0x8c9), (0x904, 0x939), (0x93d, 0x93d), (0x950, 0x950),
  (0x958, 0x961), (0x966, 0x96f), (0x971, 0x980), (0x985, 0x98c), (0x98f, 0x990),
  (0x993, 0x9a8), (0x9aa, 0x9b0), (0x9b2, 0x9b2), (0x9b6, 0x9b9), (0x9bd, 0x9bd),
  (0x9ce, 0x9ce), (0x9dc, 0x9dd), (0x9df, 0x9e1), (0x9e6, 0x9f1), (0x9f4, 0x9f9),
  (0x9fc, 0x9fc), (0xa05, 0xa0a), (0xa0f, 0xa10), (0xa13, 0xa28), (0xa2a, 0xa30),
  (0xa32, 0xa33), (0xa35, 0xa36), (0xa38, 0xa39), (0xa59, 0xa5c), (0xa5e, 0xa5e),
  (0xa66, 0xa6f), (0xa72, 0xa74), (0xa85, 0xa8d), (0xa8f, 0xa91), (0xa93, 0xaa8),
  (0xaaa, 0xab0), (0xab2, 0xab3), (0xab5, 0xab9), (0xabd, 0xabd), (0xad0, 0xad0),
  (0xae0, 0xae1), (0xae6, 0xaef), (0xaf9, 0xaf9), (0xb05, 0xb0c), (0xb0f, 0xb10),
  (0xb13, 0xb28), (0xb2a, 0xb30), (0xb32, 0xb33), (0xb35, 0xb39), (0xb3d, 0xb3d),
  (0xb5c, 0xb5d), (0xb5f, 0xb61), (0xb66, 0xb6f), (0xb71, 0xb77), (0xb83, 0xb83),
  (0xb85, 0xb8a), (0xb8e, 0xb90), (0xb92, 0xb95), (0xb99, 0xb9a), (0xb9c, 0xb9c),
  (0xb9e, 0xb9f), (0xba3, 0xba4), (0xba8, 0xbaa), (0xbae, 0xbb9), (0xbd0, 0xbd0),
  (0xbe6, 0xbf2), (0xc05, 0xc0c), (0xc0e, 0xc10), (0xc12, 0xc28), (0xc2a, 0xc39),
  (0xc3d, 0xc3d), (0xc58, 0xc5a), (0xc5d, 0xc5d), (0xc60, 0xc61), (0xc66, 0xc6f),
  (0xc78, 0xc7e), (0xc80, 0xc80), (0xc85, 0xc8c), (0xc8e, 0xc90), (0xc92, 0xca8),
  (0xcaa, 0xcb3), (0xcb5, 0xcb9), (0xcbd, 0xcbd), (0xcdd, 0xcde), (0xce0, 0xce1),
  (0xce6, 0xcef), (0xcf1, 0xcf2), (0xd04, 0xd0c), (0xd0e, 0xd10), (0xd12, 0xd3a),
  (0xd3d, 0xd3d), (0xd4e, 0xd4e), (0xd54, 0xd56), (0xd58, 0xd61), (0xd66, 0xd78),
  (0xd7a, 0xd7f), (0xd85, 0xd96), (0xd9a, 0xdb1), (0xdb3, 0xdbb), (0xdbd, 0xdbd),
  (0xdc0, 0xdc6), (0xde6, 0xdef), (0xe01, 0xe30), (0xe32, 0xe33), (0xe40, 0xe46),
  (0xe50, 0xe59), (0xe81, 0xe82), (0xe84, 0xe84), (0xe86, 0xe8a), (0xe8c, 0xea3),
  (0xea5, 0xea5), (0xea7, 0xeb0), (0xeb2, 0xeb3), (0xebd, 0xebd), (0xec0, 0xec4),
  (0xec6, 0xec6), (0xed0, 0xed9), (0xedc, 0xedf), (0xf00, 0xf00), (0xf20, 0xf33),
  (0xf40, 0xf47), (0xf49, 0xf6c), (0xf88, 0xf8c), (0x1000, 0x102a), (0x103f, 0x1049),
  (0x1050, 0x1055), (0x105a, 0x105d), (0x1061, 0x1061), (0x1065, 0x1066), (0x106e, 0x1070),
  (0x1075, 0x1081), (0x108e, 0x108e), (0x1090, 0x1099), (0x10a0, 0x10c5), (0x10c7, 0x10c7),
  (0x10cd, 0x10cd), (0x10d0, 0x10fa), (0x10fc, 0x1248), (0x124a, 0x124d), (0x1250, 0x1256),
  (0x1258, 0x1258), (0x125a, 0x125d), (0x1260, 0x1288), (0x128a, 0x128d), (0x1290, 0x12b0),
  (0x12b2, 0x12b5), (0x12b8, 0x12be), (0x12c0, 0x12c0), (0x12c2, 0x12c5), (0x12c8, 0x12d6),
  (0x12d8, 0x1310), (0x1312, 0x1315), (0x1318, 0x135a), (0x1369, 0x137c), (0x1380, 0x138f),
  (0x13a0, 0x13f5), (0x13f8, 0x13fd), (0x1401, 0x166c), (0x166f, 0x167f), (0x1681, 0x169a),
  (0x16a0, 0x16ea), (0x16ee, 0x16f8), (0x1700, 0x1711), (0x171f, 0x1731), (0x1740, 0x1751),
  (0x1760, 0x176c), (0x176e, 0x1770), (0x1780, 0x17b3), (0x17d7, 0x17d7), (0x17dc, 0x17dc),
  (0x17e0, 0x17e9), (0x17f0, 0x17f9), (0x1810, 0x1819), (0x1820, 0x1878), (0x1880, 0x1884),
  (0x1887, 0x18a8), (0x18aa, 0x18aa), (0x18b0, 0x18f5), (0x1900, 0x191e), (0x1946, 0x196d),
  (0x1970, 0x1974), (0x1980, 0x19ab), (0x19b0, 0x19c9), (0x19d0, 0x19da), (0x1a00, 0x1a16),
  (0x1a20, 0x1a54), (0x1a80, 0x1a89), (0x1a90, 0x1a99), (0x1aa7, 0x1aa7), (0x1b05, 0x1b33),
  (0x1b45, 0x1b4c), (0x1b50, 0x1b59), (0x1b83, 0x1ba0), (0x1bae, 0x1be5), (0x1c00, 0x1c23),
  (0x1c40, 0x1c49), (0x1c4d, 0x1c7d), (0x1c80, 0x1c88), (0x1c90, 0x1cba), (0x1cbd, 0x1cbf),
  (0x1ce9, 0x1cec), (0x1cee, 0x1cf3), (0x1cf5, 0x1cf6), (0x1cfa, 0x1cfa), (0x1d00, 0x1dbf),
  (0x1e00, 0x1f15), (0x1f18, 0x1f1d), (0x1f20, 0x1f45), (0x1f48, 0x1f4d), (0x1f50, 0x1f57),
  (0x1f59, 0x1f59), (0x1f5b, 0x1f5b), (0x1f5d, 0x1f5d), (0x1f5f, 0x1f7d), (0x1f80, 0x1fb4),
  (0x1fb6, 0x1fbc), (0x1fbe, 0x1fbe), (0x1fc2, 0x1fc4), (0x1fc6, 0x1fcc), (0x1fd0, 0x1fd3),
  (0x1fd6, 0x1fdb), (0x1fe0, 0x1fec), (0x1ff2, 0x1ff4), (0x1ff6, 0x1ffc), (0x2070, 0x2071),
  (0x2074, 0x2079), (0x207f, 0x2089), (0x2090, 0x209c), (0x2102, 0x2102), (0x2107, 0x2107),
  (0x210a, 0x2113), (0x2115, 0x2115), (0x2119, 0x211d), (0x2124, 0x2124), (0x2126, 0x2126),
  (0x2128, 0x2128), (0x212a, 0x212d), (0x212f, 0x2139), (0x213c, 0x213f), (0x2145, 0x2149),
  (0x214e, 0x214e), (0x2150, 0x2189), (0x2460, 0x249b), (0x24ea, 0x24ff), (0x2776, 0x2793),
  (0x2c00, 0x2ce4), (0x2ceb, 0x2cee), (0x2cf2, 0x2cf3), (0x2cfd, 0x2cfd), (0x2d00, 0x2d25),
  (0x2d27, 0x2d27), (0x2d2d, 0x2d2d), (0x2d30, 0x2d67), (0x2d6f, 0x2d6f), (0x2d80, 0x2d96),
  (0x2da0, 0x2da6), (0x2da8, 0x2dae), (0x2db0, 0x2db6), (0x2db8, 0x2dbe), (0x2dc0, 0x2dc6),
  (0x2dc8, 0x2dce), (0x2dd0, 0x2dd6), (0x2dd8, 0x2dde), (0x2e2f, 0x2e2f), (0x3005, 0x3007),
  (0x3021, 0x3029), (0x3031, 0x3035), (0x3038, 0x303c), (0x3041, 0x3096), (0x309d, 0x309f),
  (0x30a1, 0x30fa), (0x30fc, 0x30ff), (0x3105, 0x312f), (0x3131, 0x318e), (0x3192, 0x3195),
  (0x31a0, 0x31bf), (0x31f0, 0x31ff), (0x3220, 0x3229), (0x3248, 0x324f), (0x3251, 0x325f),
  (0x3280, 0x3289), (0x32b1, 0x32bf), (0x3400, 0x4dbf), (0x4e00, 0xa48c), (0xa4d0, 0xa4fd),
  (0xa500, 0xa60c), (0xa610, 0xa62b), (0xa640, 0xa66e), (0xa67f, 0xa69d), (0xa6a0, 0xa6ef),
  (0xa717, 0xa71f), (0xa722, 0xa788), (0xa78b, 0xa7ca), (0xa7d0, 0xa7d1), (0xa7d3, 0xa7d3),
  (0xa7d5, 0xa7d9), (0xa7f2, 0xa801), (0xa803, 0xa805), (0xa807, 0xa80a), (0xa80c, 0xa822),
  (0xa830, 0xa835), (0xa840, 0xa873), (0xa882, 0xa8b3), (0xa8d0, 0xa8d9), (0xa8f2, 0xa8f7),
  (0xa8fb, 0xa8fb), (0xa8fd, 0xa8fe), (0xa900, 0xa925), (0xa930, 0xa946), (0xa960, 0xa97c),
  (0xa984, 0xa9b2), (0xa9cf, 0xa9d9), (0xa9e0, 0xa9e4), (0xa9e6, 0xa9fe), (0xaa00, 0xaa28),
  (0xaa40, 0xaa42), (0xaa44, 0xaa4b), (0xaa50, 0xaa59), (0xaa60, 0xaa76), (0xaa7a, 0xaa7a),
  (0xaa7e, 0xaaaf), (0xaab1, 0xaab1), (0xaab5, 0xaab6), (0xaab9, 0xaabd), (0xaac0, 0xaac0),
  (0xaac2, 0xaac2), (0xaadb, 0xaadd), (0xaae0, 0xaaea), (0xaaf2, 0xaaf4), (0xab01, 0xab06),
  (0xab09, 0xab0e), (0xab11, 0xab16), (0xab20, 0xab26), (0xab28, 0xab2e), (0xab30, 0xab5a),
  (0xab5c, 0xab69), (0xab70, 0xabe2), (0xabf0, 0xabf9), (0xac00, 0xd7a3), (0xd7b0, 0xd7c6),
  (0xd7cb, 0xd7fb), (0xf900, 0xfa6d), (0xfa70, 0xfad9), (0xfb00, 0xfb06), (0xfb13, 0xfb17),
  (0xfb1d, 0xfb1d), (0xfb1f, 0xfb28), (0xfb2a, 0xfb36), (0xfb38, 0xfb3c), (0xfb3e, 0xfb3e),
  (0xfb40, 0xfb41), (0xfb43, 0xfb44), (0xfb46, 0xfbb1), (0xfbd3, 0xfd3d), (0xfd50, 0xfd8f),
  (0xfd92, 0xfdc7), (0xfdf0, 0xfdfb), (0xfe70, 0xfe74), (0xfe76, 0xfefc), (0xff10, 0xff19),
  (0xff21, 0xff3a), (0xff41, 0xff5a), (0xff66, 0xffbe), (0xffc2, 0xffc7), (0xffca, 0xffcf),
  (0xffd2, 0xffd7), (0xffda, 0xffdc), (0x10000, 0x1000b), (0x1000d, 0x10026), (0x10028, 0x1003a),
  (0x1003c, 0x1003d), (0x1003f, 0x1004d), (0x10050, 0x1005d), (0x10080, 0x100fa), (0x10107, 0x10133),
  (0x10140, 0x10178), (0x1018a, 0x1018b), (0x10280, 0x1029c), (0x102a0, 0x102d0), (0x102e1, 0x102fb),
  (0x10300, 0x10323), (0x1032d, 0x1034a), (0x10350, 0x10375), (0x10380, 0x1039d), (0x103a0, 0x103c3),
  (0x103c8, 0x103cf), (0x103d1, 0x103d5), (0x10400, 0x1049d), (0x104a0, 0x104a9), (0x104b0, 0x104d3),
  (0x104d8, 0x104fb), (0x10500, 0x10527), (0x10530, 0x10563), (0x10570, 0x1057a), (0x1057c, 0x1058a),
  (0x1058c, 0x10592), (0x10594, 0x10595), (0x10597, 0x105a1), (0x105a3, 0x105b1), (0x105b3, 0x105b9),
  (0x105bb, 0x105bc), (0x10600, 0x10736), (0x10740, 0x10755), (0x10760, 0x10767), (0x10780, 0x10785),
  (0x10787, 0x107b0), (0x107b2, 0x107ba), (0x10800, 0x10805), (0x10808, 0x10808), (0x1080a, 0x10835),
  (0x10837, 0x10838), (0x1083c, 0x1083c), (0x1083f, 0x10855), (0x10858, 0x10876), (0x10879, 0x1089e),
  (0x108a7, 0x108af), (0x108e0, 0x108f2), (0x108f4, 0x108f5), (0x108fb, 0x1091b), (0x10920, 0x10939),
  (0x10980, 0x109b7), (0x109bc, 0x109cf), (0x109d2, 0x10a00), (0x10a10, 0x10a13), (0x10a15, 0x10a17),
  (0x10a19, 0x10a35), (0x10a40, 0x10a48), (0x10a60, 0x10a7e), (0x10a80, 0x10a9f), (0x10ac0, 0x10ac7),
  (0x10ac9, 0x10ae4), (0x10aeb, 0x10aef), (0x10b00, 0x10b35), (0x10b40, 0x10b55), (0x10b58, 0x10b72),
  (0x10b78, 0x10b91), (0x10ba9, 0x10baf), (0x10c00, 0x10c48), (0x10c80, 0x10cb2), (0x10cc0, 0x10cf2),
  (0x10cfa, 0x10d23), (0x10d30, 0x10d39), (0x10e60, 0x10e7e), (0x10e80, 0x10ea9), (0x10eb0, 0x10eb1),
  (0x10f00, 0x10f27), (0x10f30, 0x10f45), (0x10f51, 0x10f54), (0x10f70, 0x10f81), (0x10fb0, 0x10fcb),
  (0x10fe0, 0x10ff6), (0x11003, 0x11037), (0x11052, 0x1106f), (0x11071, 0x11072), (0x11075, 0x11075),
  (0x11083, 0x110af), (0x110d0, 0x110e8), (0x110f0, 0x110f9), (0x11103, 0x11126), (0x11136, 0x1113f),
  (0x11144, 0x11144), (0x11147, 0x11147), (0x11150, 0x11172), (0x11176, 0x11176), (0x11183, 0x111b2),
  (0x111c1, 0x111c4), (0x111d0, 0x111da), (0x111dc, 0x111dc), (0x111e1, 0x111f4), (0x11200, 0x11211),
  (0x11213, 0x1122b), (0x11280, 0x11286), (0x11288, 0x11288), (0x1128a, 0x1128d), (0x1128f, 0x1129d),
  (0x1129f, 0x112a8), (0x112b0, 0x112de), (0x112f0, 0x112f9), (0x11305, 0x1130c), (0x1130f, 0x11310),
  (0x11313, 0x11328), (0x1132a, 0x11330), (0x11332, 0x11333), (0x11335, 0x11339), (0x1133d, 0x1133d),
  (0x11350, 0x11350), (0x1135d, 0x11361), (0x11400, 0x11434), (0x11447, 0x1144a), (0x11450, 0x11459),
  (0x1145f, 0x11461), (0x11480, 0x114af), (0x114c4, 0x114c5), (0x114c7, 0x114c7), (0x114d0, 0x114d9),
  (0x11580, 0x115ae), (0x115d8, 0x115db), (0x11600, 0x1162f), (0x11644, 0x11644), (0x11650, 0x11659),
  (0x11680, 0x116aa), (0x116b8, 0x116b8), (0x116c0, 0x116c9), (0x11700, 0x1171a), (0x11730, 0x1173b),
  (0x11740, 0x11746), (0x11800, 0x1182b), (0x118a0, 0x118f2), (0x118ff, 0x11906), (0x11909, 0x11909),
  (0x1190c, 0x11913), (0x11915, 0x11916), (0x11918, 0x1192f), (0x1193f, 0x1193f), (0x11941, 0x11941),
  (0x11950, 0x11959), (0x119a0, 0x119a7), (0x119aa, 0x119d0), (0x119e1, 0x119e1), (0x119e3, 0x119e3),
  (0x11a00, 0x11a00), (0x11a0b, 0x11a32), (0x11a3a, 0x11a3a), (0x11a50, 0x11a50), (0x11a5c, 0x11a89),
  (0x11a9d, 0x11a9d), (0x11ab0, 0x11af8), (0x11c00, 0x11c08), (0x11c0a, 0x11c2e), (0x11c40, 0x11c40),
  (0x11c50, 0x11c6c), (0x11c72, 0x11c8f), (0x11d00, 0x11d06), (0x11d08, 0x11d09), (0x11d0b, 0x11d30),
  (0x11d46, 0x11d46), (0x11d50, 0x11d59), (0x11d60, 0x11d65), (0x11d67, 0x11d68), (0x11d6a, 0x11d89),
  (0x11d98, 0x11d98), (0x11da0, 0x11da9), (0x11ee0, 0x11ef2), (0x11fb0, 0x11fb0), (0x11fc0, 0x11fd4),
  (0x12000, 0x12399), (0x12400, 0x1246e), (0x12480, 0x12543), (0x12f90, 0x12ff0), (0x13000, 0x1342e),
  (0x14400, 0x14646), (0x16800, 0x16a38), (0x16a40, 0x16a5e), (0x16a60, 0x16a69), (0x16a70, 0x16abe),
  (0x16ac0, 0x16ac9), (0x16ad0, 0x16aed), (0x16b00, 0x16b2f), (0x16b40, 0x16b43), (0x16b50, 0x16b59),
  (0x16b5b, 0x16b61), (0x16b63, 0x16b77), (0x16b7d, 0x16b8f), (0x16e40, 0x16e96), (0x16f00, 0x16f4a),
  (0x16f50, 0x16f50), (0x16f93, 0x16f9f), (0x16fe0, 0x16fe1), (0x16fe3, 0x16fe3), (0x17000, 0x187f7),
  (0x18800, 0x18cd5), (0x18d00, 0x18d08), (0x1aff0, 0x1aff3), (0x1aff5, 0x1affb), (0x1affd, 0x1affe),
  (0x1b000, 0x1b122), (0x1b150, 0x1b152), (0x1b164, 0x1b167), (0x1b170, 0x1b2fb), (0x1bc00, 0x1bc6a),
  (0x1bc70, 0x1bc7c), (0x1bc80, 0x1bc88), (0x1bc90, 0x1bc99), (0x1d2e0, 0x1d2f3), (0x1d360, 0x1d378),
  (0x1d400, 0x1d454), (0x1d456, 0x1d49c), (0x1d49e, 0x1d49f), (0x1d4a2, 0x1d4a2), (0x1d4a5, 0x1d4a6),
  (0x1d4a9, 0x1d4ac), (0x1d4ae, 0x1d4b9), (0x1d4bb, 0x1d4bb), (0x1d4bd, 0x1d4c3), (0x1d4c5, 0x1d505),
  (0x1d507, 0x1d50a), (0x1d50d, 0x1d514), (0x1d516, 0x1d51c), (0x1d51e, 0x1d539), (0x1d53b, 0x1d53e),
  (0x1d540, 0x1d544), (0x1d546, 0x1d546), (0x1d54a, 0x1d550), (0x1d552, 0x1d6a5), (0x1d6a8, 0x1d6c0),
  (0x1d6c2, 0x1d6da), (0x1d6dc, 0x1d6fa), (0x1d6fc, 0x1d714), (0x1d716, 0x1d734), (0x1d736, 0x1d74e),
  (0x1d750, 0x1d76e), (0x1d770, 0x1d788), (0x1d78a, 0x1d7a8), (0x1d7aa, 0x1d7c2), (0x1d7c4, 0x1d7cb),
  (0x1d7ce, 0x1d7ff), (0x1df00, 0x1df1e), (0x1e100, 0x1e12c), (0x1e137, 0x1e13d), (0x1e140, 0x1e149),
  (0x1e14e, 0x1e14e), (0x1e290, 0x1e2ad), (0x1e2c0, 0x1e2eb), (0x1e2f0, 0x1e2f9), (0x1e7e0, 0x1e7e6),
  (0x1e7e8, 0x1e7eb), (0x1e7ed, 0x1e7ee), (0x1e7f0, 0x1e7fe), (0x1e800, 0x1e8c4), (0x1e8c7, 0x1e8cf),
  (0x1e900, 0x1e943), (0x1e94b, 0x1e94b), (0x1e950, 0x1e959), (0x1ec71, 0x1ecab), (0x1ecad, 0x1ecaf),
  (0x1ecb1, 0x1ecb4), (0x1ed01, 0x1ed2d), (0x1ed2f, 0x1ed3d), (0x1ee00, 0x1ee03), (0x1ee05, 0x1ee1f),
  (0x1ee21, 0x1ee22), (0x1ee24, 0x1ee24), (0x1ee27, 0x1ee27), (0x1ee29, 0x1ee32), (0x1ee34, 0x1ee37),
  (0x1ee39, 0x1ee39), (0x1ee3b, 0x1ee3b), (0x1ee42, 0x1ee42), (0x1ee47, 0x1ee47), (0x1ee49, 0x1ee49),
  (0x1ee4b, 0x1ee4b), (0x1ee4d, 0x1ee4f), (0x1ee51, 0x1ee52), (0x1ee54, 0x1ee54), (0x1ee57, 0x1ee57),
  (0x1ee59, 0x1ee59), (0x1ee5b, 0x1ee5b), (0x1ee5d, 0x1ee5d), (0x1ee5f, 0x1ee5f), (0x1ee61, 0x1ee62),
  (0x1ee64, 0x1ee64), (0x1ee67, 0x1ee6a), (0x1ee6c, 0x1ee72), (0x1ee74, 0x1ee77), (0x1ee79, 0x1ee7c),
  (0x1ee7e, 0x1ee7e), (0x1ee80, 0x1ee89), (0x1ee8b, 0x1ee9b), (0x1eea1, 0x1eea3), (0x1eea5, 0x1eea9),
  (0x1eeab, 0x1eebb), (0x1f100, 0x1f10c), (0x1fbf0, 0x1fbf9), (0x20000, 0x2a6df), (0x2a700, 0x2b738),
  (0x2b740, 0x2b81d), (0x2b820, 0x2cea1), (0x2ceb0, 0x2ebe0), (0x2f800, 0x2fa1d), (0x30000, 0x3134a)]

/-- Models Python `str.isalnum` per character: ASCII letters and digits,
and above U+007F membership in the generated `pyAlnumRanges` — the
Unicode-aware alphanumeric test of the source (line 71). -/
def pyIsAlnum (c : Char) : Bool :=
  if c.toNat ≤ 0x7F then c.isAlphanum
  else pyAlnumRanges.any fun p => p.1 ≤ c.toNat && c.toNat ≤ p.2

set_option maxHeartbeats 1600000 in
/-- Per-character fold realising the equivalence of the `utf8mb4_unicode_ci`
collation for codepoints above U+007F: each pair maps a character to its
lowercase form with combining accents removed (the single base character of
the canonical decomposition of its Unicode lowercase, whenever that base is
a single character), generated from the Unicode 14.0.0 case mappings and
canonical decompositions.  Characters the fold leaves unchanged are not
listed. -/
def ciFoldPairs : List (Nat × Nat) :=
[
  (0xc0, 0x61), (0xc1, 0x61), (0xc2, 0x61), (0xc3, 0x61), (0xc4, 0x61),
  (0xc5, 0x61), (0xc6, 0xe6), (0xc7, 0x63), (0xc8, 0x65), (0xc9, 0x65),
  (0xca, 0x65), (0xcb, 0x65), (0xcc, 0x69), (0xcd, 0x69), (0xce, 0x69),
  (0xcf, 0x69), (0xd0, 0xf0), (0xd1, 0x6e), (0xd2, 0x6f), (0xd3, 0x6f),
  (0xd4, 0x6f), (0xd5, 0x6f), (0xd6, 0x6f), (0xd8, 0xf8), (0xd9, 0x75),
  (0xda, 0x75), (0xdb, 0x75), (0xdc, 0x75), (0xdd, 0x79), (0xde, 0xfe),
  (0xe0, 0x61), (0xe1, 0x61), (0xe2, 0x61), (0xe3, 0x61), (0xe4, 0x61),
  (0xe5, 0x61), (0xe7, 0x63), (0xe8, 0x65), (0xe9, 0x65), (0xea, 0x65),
  (0xeb, 0x65), (0xec, 0x69), (0xed, 0x69), (0xee, 0x69), (0xef, 0x69),
  (0xf1, 0x6e), (0xf2, 0x6f), (0xf3, 0x6f), (0xf4, 0x6f), (0xf5, 0x6f),
  (0xf6, 0x6f), (0xf9, 0x75), (0xfa, 0x75), (0xfb, 0x75), (0xfc, 0x75),
  (0xfd, 0x79), (0xff, 0x79), (0x100, 0x61), (0x101, 0x61), (0x102, 0x61),
  (0x103, 0x61), (0x104, 0x61), (0x105, 0x61), (0x106, 0x63), (0x107, 0x63),
  (0x108, 0x63), (0x109, 0x63), (0x10a, 0x63), (0x10b, 0x63), (0x10c, 0x63),
  (0x10d, 0x63), (0x10e, 0x64), (0x10f, 0x64), (0x110, 0x111), (0x112, 0x65),
  (0x113, 0x65), (0x114, 0x65), (0x115, 0x65), (0x116, 0x65), (0x117, 0x65),
  (0x118, 0x65), (0x119, 0x65), (0x11a, 0x65), (0x11b, 0x65), (0x11c, 0x67),
  (0x11d, 0x67), (0x11e, 0x67), (0x11f, 0x67), (0x120, 0x67), (0x121, 0x67),
  (0x122, 0x67), (0x123, 0x67), (0x124, 0x68), (0x125, 0x68), (0x126, 0x127),
  (0x128, 0x69), (0x129, 0x69), (0x12a, 0x69), (0x12b, 0x69), (0x12c, 0x69),
  (0x12d, 0x69), (0x12e, 0x69), (0x12f, 0x69), (0x130, 0x69), (0x132, 0x133),
  (0x134, 0x6a), (0x135, 0x6a), (0x136, 0x6b), (0x137, 0x6b), (0x139, 0x6c),
  (0x13a, 0x6c), (0x13b, 0x6c), (0x13c, 0x6c), (0x13d, 0x6c), (0x13e, 0x6c),
  (0x13f, 0x140), (0x141, 0x142), (0x143, 0x6e), (0x144, 0x6e), (0x145, 0x6e),
  (0x146, 0x6e), (0x147, 0x6e), (0x148, 0x6e), (0x14a, 0x14b), (0x14c, 0x6f),
  (0x14d, 0x6f), (0x14e, 0x6f), (0x14f, 0x6f), (0x150, 0x6f), (0x151, 0x6f),
  (0x152, 0x153), (0x154, 0x72), (0x155, 0x72), (0x156, 0x72), (0x157, 0x72),
  (0x158, 0x72), (0x159, 0x72), (0x15a, 0x73), (0x15b, 0x73), (0x15c, 0x73),
  (0x15d, 0x73), (0x15e, 0x73), (0x15f, 0x73), (0x160, 0x73), (0x161, 0x73),
  (0x162, 0x74), (0x163, 0x74), (0x164, 0x74), (0x165, 0x74), (0x166, 0x167),
  (0x168, 0x75), (0x169, 0x75), (0x16a, 0x75), (0x16b, 0x75), (0x16c, 0x75),
  (0x16d, 0x75), (0x16e, 0x75), (0x16f, 0x75), (0x170, 0x75), (0x171, 0x75),
  (0x172, 0x75), (0x173, 0x75), (0x174, 0x77), (0x175, 0x77), (0x176, 0x79),
  (0x177, 0x79), (0x178, 0x79), (0x179, 0x7a), (0x17a, 0x7a), (0x17b, 0x7a),
  (0x17c, 0x7a), (0x17d, 0x7a), (0x17e, 0x7a), (0x181, 0x253), (0x182, 0x183),
  (0x184, 0x185), (0x186, 0x254), (0x187, 0x188), (0x189, 0x256), (0x18a, 0x257),
  (0x18b, 0x18c), (0x18e, 0x1dd), (0x18f, 0x259), (0x190, 0x25b), (0x191, 0x192),
  (0x193, 0x260), (0x194, 0x263), (0x196, 0x269), (0x197, 0x268), (0x198, 0x199),
  (0x19c, 0x26f), (0x19d, 0x272), (0x19f, 0x275), (0x1a0, 0x6f), (0x1a1, 0x6f),
  (0x1a2, 0x1a3), (0x1a4, 0x1a5), (0x1a6, 0x280), (0x1a7, 0x1a8), (0x1a9, 0x283),
  (0x1ac, 0x1ad), (0x1ae, 0x288), (0x1af, 0x75), (0x1b0, 0x75), (0x1b1, 0x28a),
  (0x1b2, 0x28b), (0x1b3, 0x1b4), (0x1b5, 0x1b6), (0x1b7, 0x292), (0x1b8, 0x1b9),
  (0x1bc, 0x1bd), (0x1c4, 0x1c6), (0x1c5, 0x1c6), (0x1c7, 0x1c9), (0x1c8, 0x1c9),
  (0x1ca, 0x1cc), (0x1cb, 0x1cc), (0x1cd, 0x61), (0x1ce, 0x61), (0x1cf, 0x69),
  (0x1d0, 0x69), (0x1d1, 0x6f), (0x1d2, 0x6f), (0x1d3, 0x75), (0x1d4, 0x75),
  (0x1d5, 0x75), (0x1d6, 0x75), (0x1d7, 0x75), (0x1d8, 0x75), (0x1d9, 0x75),
  (0x1da, 0x75), (0x1db, 0x75), (0x1dc, 0x75), (0x1de, 0x61), (0x1df, 0x61),
  (0x1e0, 0x61), (0x1e1, 0x61), (0x1e2, 0xe6), (0x1e3, 0xe6), (0x1e4, 0x1e5),
  (0x1e6, 0x67), (0x1e7, 0x67), (0x1e8, 0x6b), (0x1e9, 0x6b), (0x1ea, 0x6f),
  (0x1eb, 0x6f), (0x1ec, 0x6f), (0x1ed, 0x6f), (0x1ee, 0x292), (0x1ef, 0x292),
  (0x1f0, 0x6a), (0x1f1, 0x1f3), (0x1f2, 0x1f3), (0x1f4, 0x67), (0x1f5, 0x67),
  (0x1f6, 0x195), (0x1f7, 0x1bf), (0x1f8, 0x6e), (0x1f9, 0x6e), (0x1fa, 0x61),
  (0x1fb, 0x61), (0x1fc, 0xe6), (0x1fd, 0xe6), (0x1fe, 0xf8), (0x1ff, 0xf8),
  (0x200, 0x61), (0x201, 0x61), (0x202, 0x61), (0x203, 0x61), (0x204, 0x65),
  (0x205, 0x65), (0x206, 0x65), (0x207, 0x65), (0x208, 0x69), (0x209, 0x69),
  (0x20a, 0x69), (0x20b, 0x69), (0x20c, 0x6f), (0x20d, 0x6f), (0x20e, 0x6f),
  (0x20f, 0x6f), (0x210, 0x72), (0x211, 0x72), (0x212, 0x72), (0x213, 0x72),
  (0x214, 0x75), (0x215, 0x75), (0x216, 0x75), (0x217, 0x75), (0x218, 0x73),
  (0x219, 0x73), (0x21a, 0x74), (0x21b, 0x74), (0x21c, 0x21d), (0x21e, 0x68),
  (0x21f, 0x68), (0x220, 0x19e), (0x222, 0x223), (0x224, 0x225), (0x226, 0x61),
  (0x227, 0x61), (0x228, 0x65), (0x229, 0x65), (0x22a, 0x6f), (0x22b, 0x6f),
  (0x22c, 0x6f), (0x22d, 0x6f), (0x22e, 0x6f), (0x22f, 0x6f), (0x230, 0x6f),
  (0x231, 0x6f), (0x232, 0x79), (0x233, 0x79), (0x23a, 0x2c65), (0x23b, 0x23c),
  (0x23d, 0x19a), (0x23e, 0x2c66), (0x241, 0x242), (0x243, 0x180), (0x244, 0x289),
  (0x245, 0x28c), (0x246, 0x247), (0x248, 0x249), (0x24a, 0x24b), (0x24c, 0x24d),
  (0x24e, 0x24f), (0x370, 0x371), (0x372, 0x373), (0x374, 0x2b9), (0x376, 0x377),
  (0x37e, 0x3b), (0x37f, 0x3f3), (0x385, 0xa8), (0x386, 0x3b1), (0x387, 0xb7),
  (0x388, 0x3b5), (0x389, 0x3b7), (0x38a, 0x3b9), (0x38c, 0x3bf), (0x38e, 0x3c5),
  (0x38f, 0x3c9), (0x390, 0x3b9), (0x391, 0x3b1), (0x392, 0x3b2), (0x393, 0x3b3),
  (0x394, 0x3b4), (0x395, 0x3b5), (0x396, 0x3b6), (0x397, 0x3b7), (0x398, 0x3b8),
  (0x399, 0x3b9), (0x39a, 0x3ba), (0x39b, 0x3bb), (0x39c, 0x3bc), (0x39d, 0x3bd),
  (0x39e, 0x3be), (0x39f, 0x3bf), (0x3a0, 0x3c0), (0x3a1, 0x3c1), (0x3a3, 0x3c3),
  (0x3a4, 0x3c4), (0x3a5, 0x3c5), (0x3a6, 0x3c6), (0x3a7, 0x3c7), (0x3a8, 0x3c8),
  (0x3a9, 0x3c9), (0x3aa, 0x3b9), (0x3ab, 0x3c5), (0x3ac, 0x3b1), (0x3ad, 0x3b5),
  (0x3ae, 0x3b7), (0x3af, 0x3b9), (0x3b0, 0x3c5), (0x3ca, 0x3b9), (0x3cb, 0x3c5),
  (0x3cc, 0x3bf), (0x3cd, 0x3c5), (0x3ce, 0x3c9), (0x3cf, 0x3d7), (0x3d3, 0x3d2),
  (0x3d4, 0x3d2), (0x3d8, 0x3d9), (0x3da, 0x3db), (0x3dc, 0x3dd), (0x3de, 0x3df),
  (0x3e0, 0x3e1), (0x3e2, 0x3e3), (0x3e4, 0x3e5), (0x3e6, 0x3e7), (0x3e8, 0x3e9),
  (0x3ea, 0x3eb), (0x3ec, 0x3ed), (0x3ee, 0x3ef), (0x3f4, 0x3b8), (0x3f7, 0x3f8),
  (0x3f9, 0x3f2), (0x3fa, 0x3fb), (0x3fd, 0x37b), (0x3fe, 0x37c), (0x3ff, 0x37d),
  (0x400, 0x435), (0x401, 0x435), (0x402, 0x452), (0x403, 0x433), (0x404, 0x454),
  (0x405, 0x455), (0x406, 0x456), (0x407, 0x456), (0x408, 0x458), (0x409, 0x459),
  (0x40a, 0x45a), (0x40b, 0x45b), (0x40c, 0x43a), (0x40d, 0x438), (0x40e, 0x443),
  (0x40f, 0x45f), (0x410, 0x430), (0x411, 0x431), (0x412, 0x432), (0x413, 0x433),
  (0x414, 0x434), (0x415, 0x435), (0x416, 0x436), (0x417, 0x437), (0x418, 0x438),
  (0x419, 0x438), (0x41a, 0x43a), (0x41b, 0x43b), (0x41c, 0x43c), (0x41d, 0x43d),
  (0x41e, 0x43e), (0x41f, 0x43f), (0x420, 0x440), (0x421, 0x441), (0x422, 0x442),
  (0x423, 0x443), (0x424, 0x444), (0x425, 0x445), (0x426, 0x446), (0x427, 0x447),
  (0x428, 0x448), (0x429, 0x449), (0x42a, 0x44a), (0x42b, 0x44b), (0x42c, 0x44c),
  (0x42d, 0x44d), (0x42e, 0x44e), (0x42f, 0x44f), (0x439, 0x438), (0x450, 0x435),
  (0x451, 0x435), (0x453, 0x433), (0x457, 0x456), (0x45c, 0x43a), (0x45d, 0x438),
  (0x45e, 0x443), (0x460, 0x461), (0x462, 0x463), (0x464, 0x465), (0x466, 0x467),
  (0x468, 0x469), (0x46a, 0x46b), (0x46c, 0x46d), (0x46e, 0x46f), (0x470, 0x471),
  (0x472, 0x473), (0x474, 0x475), (0x476, 0x475), (0x477, 0x475), (0x478, 0x479),
  (0x47a, 0x47b), (0x47c, 0x47d), (0x47e, 0x47f), (0x480, 0x481), (0x48a, 0x48b),
  (0x48c, 0x48d), (0x48e, 0x48f), (0x490, 0x491), (0x492, 0x493), (0x494, 0x495),
  (0x496, 0x497), (0x498, 0x499), (0x49a, 0x49b), (0x49c, 0x49d), (0x49e, 0x49f),
  (0x4a0, 0x4a1), (0x4a2, 0x4a3), (0x4a4, 0x4a5), (0x4a6, 0x4a7), (0x4a8, 0x4a9),
  (0x4aa, 0x4ab), (0x4ac, 0x4ad), (0x4ae, 0x4af), (0x4b0, 0x4b1), (0x4b2, 0x4b3),
  (0x4b4, 0x4b5), (0x4b6, 0x4b7), (0x4b8, 0x4b9), (0x4ba, 0x4bb), (0x4bc, 0x4bd),
  (0x4be, 0x4bf), (0x4c0, 0x4cf), (0x4c1, 0x436), (0x4c2, 0x436), (0x4c3, 0x4c4),
  (0x4c5, 0x4c6), (0x4c7, 0x4c8), (0x4c9, 0x4ca), (0x4cb, 0x4cc), (0x4cd, 0x4ce),
  (0x4d0, 0x430), (0x4d1, 0x430), (0x4d2, 0x430), (0x4d3, 0x430), (0x4d4, 0x4d5),
  (0x4d6, 0x435), (0x4d7, 0x435), (0x4d8, 0x4d9), (0x4da, 0x4d9), (0x4db, 0x4d9),
  (0x4dc, 0x436), (0x4dd, 0x436), (0x4de, 0x437), (0x4df, 0x437), (0x4e0, 0x4e1),
  (0x4e2, 0x438), (0x4e3, 0x438), (0x4e4, 0x438), (0x4e5, 0x438), (0x4e6, 0x43e),
  (0x4e7, 0x43e), (0x4e8, 0x4e9), (0x4ea, 0x4e9), (0x4eb, 0x4e9), (0x4ec, 0x44d),
  (0x4ed, 0x44d), (0x4ee, 0x443), (0x4ef, 0x443), (0x4f0, 0x443), (0x4f1, 0x443),
  (0x4f2, 0x443), (0x4f3, 0x443), (0x4f4, 0x447), (0x4f5, 0x447), (0x4f6, 0x4f7),
  (0x4f8, 0x44b), (0x4f9, 0x44b), (0x4fa, 0x4fb), (0x4fc, 0x4fd), (0x4fe, 0x4ff),
  (0x500, 0x501), (0x502, 0x503), (0x504, 0x505), (0x506, 0x507), (0x508, 0x509),
  (0x50a, 0x50b), (0x50c, 0x50d), (0x50e, 0x50f), (0x510, 0x511), (0x512, 0x513),
  (0x514, 0x515), (0x516, 0x517), (0x518, 0x519), (0x51a, 0x51b), (0x51c, 0x51d),
  (0x51e, 0x51f), (0x520, 0x521), (0x522, 0x523), (0x524, 0x525), (0x526, 0x527),
  (0x528, 0x529), (0x52a, 0x52b), (0x52c, 0x52d), (0x52e, 0x52f), (0x531, 0x561),
  (0x532, 0x562), (0x533, 0x563), (0x534, 0x564), (0x535, 0x565), (0x536, 0x566),
  (0x537, 0x567), (0x538, 0x568), (0x539, 0x569), (0x53a, 0x56a), (0x53b, 0x56b),
  (0x53c, 0x56c), (0x53d, 0x56d), (0x53e, 0x56e), (0x53f, 0x56f), (0x540, 0x570),
  (0x541, 0x571), (0x542, 0x572), (0x543, 0x573), (0x544, 0x574), (0x545, 0x575),
  (0x546, 0x576), (0x547, 0x577), (0x548, 0x578), (0x549, 0x579), (0x54a, 0x57a),
  (0x54b, 0x57b), (0x54c, 0x57c), (0x54d, 0x57d), (0x54e, 0x57e), (0x54f, 0x57f),
  (0x550, 0x580), (0x551, 0x581), (0x552, 0x582), (0x553, 0x583), (0x554, 0x584),
  (0x555, 0x585), (0x556, 0x586), (0x622, 0x627), (0x623, 0x627), (0x624, 0x648),
  (0x625, 0x627), (0x626, 0x64a), (0x6c0, 0x6d5), (0x6c2, 0x6c1), (0x6d3, 0x6d2),
  (0x929, 0x928), (0x931, 0x930), (0x934, 0x933), (0x958, 0x915), (0x959, 0x916),
  (0x95a, 0x917), (0x95b, 0x91c), (0x95c, 0x921), (0x95d, 0x922), (0x95e, 0x92b),
  (0x95f, 0x92f), (0x9dc, 0x9a1), (0x9dd, 0x9a2), (0x9df, 0x9af), (0xa33, 0xa32),
  (0xa36, 0xa38), (0xa59, 0xa16), (0xa5a, 0xa17), (0xa5b, 0xa1c), (0xa5e, 0xa2b),
  (0xb48, 0xb47), (0xb5c, 0xb21), (0xb5d, 0xb22), (0xcc0, 0xcd5), (0xcc7, 0xcd5),
  (0xcc8, 0xcd6), (0xcca, 0xcc2), (0xdda, 0xdd9), (0xf43, 0xf42), (0xf4d, 0xf4c),
  (0xf52, 0xf51), (0xf57, 0xf56), (0xf5c, 0xf5b), (0xf69, 0xf40), (0x1026, 0x1025),
  (0x10a0, 0x2d00), (0x10a1, 0x2d01), (0x10a2, 0x2d02), (0x10a3, 0x2d03), (0x10a4, 0x2d04),
  (0x10a5, 0x2d05), (0x10a6, 0x2d06), (0x10a7, 0x2d07), (0x10a8, 0x2d08), (0x10a9, 0x2d09),
  (0x10aa, 0x2d0a), (0x10ab, 0x2d0b), (0x10ac, 0x2d0c), (0x10ad, 0x2d0d), (0x10ae, 0x2d0e),
  (0x10af, 0x2d0f), (0x10b0, 0x2d10), (0x10b1, 0x2d11), (0x10b2, 0x2d12), (0x10b3, 0x2d13),
  (0x10b4, 0x2d14), (0x10b5, 0x2d15), (0x10b6, 0x2d16), (0x10b7, 0x2d17), (0x10b8, 0x2d18),
  (0x10b9, 0x2d19), (0x10ba, 0x2d1a), (0x10bb, 0x2d1b), (0x10bc, 0x2d1c), (0x10bd, 0x2d1d),
  (0x10be, 0x2d1e), (0x10bf, 0x2d1f), (0x10c0, 0x2d20), (0x10c1, 0x2d21), (0x10c2, 0x2d22),
  (0x10c3, 0x2d23), (0x10c4, 0x2d24), (0x10c5, 0x2d25), (0x10c7, 0x2d27), (0x10cd, 0x2d2d),
  (0x13a0, 0xab70), (0x13a1, 0xab71), (0x13a2, 0xab72), (0x13a3, 0xab73), (0x13a4, 0xab74),
  (0x13a5, 0xab75), (0x13a6, 0xab76), (0x13a7, 0xab77), (0x13a8, 0xab78), (0x13a9, 0xab79),
  (0x13aa, 0xab7a), (0x13ab, 0xab7b), (0x13ac, 0xab7c), (0x13ad, 0xab7d), (0x13ae, 0xab7e),
  (0x13af, 0xab7f), (0x13b0, 0xab80), (0x13b1, 0xab81), (0x13b2, 0xab82), (0x13b3, 0xab83),
  (0x13b4, 0xab84), (0x13b5, 0xab85), (0x13b6, 0xab86), (0x13b7, 0xab87), (0x13b8, 0xab88),
  (0x13b9, 0xab89), (0x13ba, 0xab8a), (0x13bb, 0xab8b), (0x13bc, 0xab8c), (0x13bd, 0xab8d),
  (0x13be, 0xab8e), (0x13bf, 0xab8f), (0x13c0, 0xab90), (0x13c1, 0xab91), (0x13c2, 0xab92),
  (0x13c3, 0xab93), (0x13c4, 0xab94), (0x13c5, 0xab95), (0x13c6, 0xab96), (0x13c7, 0xab97),
  (0x13c8, 0xab98), (0x13c9, 0xab99), (0x13ca, 0xab9a), (0x13cb, 0xab9b), (0x13cc, 0xab9c),
  (0x13cd, 0xab9d), (0x13ce, 0xab9e), (0x13cf, 0xab9f), (0x13d0, 0xaba0), (0x13d1, 0xaba1),
  (0x13d2, 0xaba2), (0x13d3, 0xaba3), (0x13d4, 0xaba4), (0x13d5, 0xaba5), (0x13d6, 0xaba6),
  (0x13d7, 0xaba7), (0x13d8, 0xaba8), (0x13d9, 0xaba9), (0x13da, 0xabaa), (0x13db, 0xabab),
  (0x13dc, 0xabac), (0x13dd, 0xabad), (0x13de, 0xabae), (0x13df, 0xabaf), (0x13e0, 0xabb0),
  (0x13e1, 0xabb1), (0x13e2, 0xabb2), (0x13e3, 0xabb3), (0x13e4, 0xabb4), (0x13e5, 0xabb5),
  (0x13e6, 0xabb6), (0x13e7, 0xabb7), (0x13e8, 0xabb8), (0x13e9, 0xabb9), (0x13ea, 0xabba),
  (0x13eb, 0xabbb), (0x13ec, 0xabbc), (0x13ed, 0xabbd), (0x13ee, 0xabbe), (0x13ef, 0xabbf),
  (0x13f0, 0x13f8), (0x13f1, 0x13f9), (0x13f2, 0x13fa), (0x13f3, 0x13fb), (0x13f4, 0x13fc),
  (0x13f5, 0x13fd), (0x1b3b, 0x1b35), (0x1b3d, 0x1b35), (0x1b43, 0x1b35), (0x1c90, 0x10d0),
  (0x1c91, 0x10d1), (0x1c92, 0x10d2), (0x1c93, 0x10d3), (0x1c94, 0x10d4), (0x1c95, 0x10d5),
  (0x1c96, 0x10d6), (0x1c97, 0x10d7), (0x1c98, 0x10d8), (0x1c99, 0x10d9), (0x1c9a, 0x10da),
  (0x1c9b, 0x10db), (0x1c9c, 0x10dc), (0x1c9d, 0x10dd), (0x1c9e, 0x10de), (0x1c9f, 0x10df),
  (0x1ca0, 0x10e0), (0x1ca1, 0x10e1), (0x1ca2, 0x10e2), (0x1ca3, 0x10e3), (0x1ca4, 0x10e4),
  (0x1ca5, 0x10e5), (0x1ca6, 0x10e6), (0x1ca7, 0x10e7), (0x1ca8, 0x10e8), (0x1ca9, 0x10e9),
  (0x1caa, 0x10ea), (0x1cab, 0x10eb), (0x1cac, 0x10ec), (0x1cad, 0x10ed), (0x1cae, 0x10ee),
  (0x1caf, 0x10ef), (0x1cb0, 0x10f0), (0x1cb1, 0x10f1), (0x1cb2, 0x10f2), (0x1cb3, 0x10f3),
  (0x1cb4, 0x10f4), (0x1cb5, 0x10f5), (0x1cb6, 0x10f6), (0x1cb7, 0x10f7), (0x1cb8, 0x10f8),
  (0x1cb9, 0x10f9), (0x1cba, 0x10fa), (0x1cbd, 0x10fd), (0x1cbe, 0x10fe), (0x1cbf, 0x10ff),
  (0x1e00, 0x61), (0x1e01, 0x61), (0x1e02, 0x62), (0x1e03, 0x62), (0x1e04, 0x62),
  (0x1e05, 0x62), (0x1e06, 0x62), (0x1e07, 0x62), (0x1e08, 0x63), (0x1e09, 0x63),
  (0x1e0a, 0x64), (0x1e0b, 0x64), (0x1e0c, 0x64), (0x1e0d, 0x64), (0x1e0e, 0x64),
  (0x1e0f, 0x64), (0x1e10, 0x64), (0x1e11, 0x64), (0x1e12, 0x64), (0x1e13, 0x64),
  (0x1e14, 0x65), (0x1e15, 0x65), (0x1e16, 0x65), (0x1e17, 0x65), (0x1e18, 0x65),
  (0x1e19, 0x65), (0x1e1a, 0x65), (0x1e1b, 0x65), (0x1e1c, 0x65), (0x1e1d, 0x65),
  (0x1e1e, 0x66), (0x1e1f, 0x66), (0x1e20, 0x67), (0x1e21, 0x67), (0x1e22, 0x68),
  (0x1e23, 0x68), (0x1e24, 0x68), (0x1e25, 0x68), (0x1e26, 0x68), (0x1e27, 0x68),
  (0x1e28, 0x68), (0x1e29, 0x68), (0x1e2a, 0x68), (0x1e2b, 0x68), (0x1e2c, 0x69),
  (0x1e2d, 0x69), (0x1e2e, 0x69), (0x1e2f, 0x69), (0x1e30, 0x6b), (0x1e31, 0x6b),
  (0x1e32, 0x6b), (0x1e33, 0x6b), (0x1e34, 0x6b), (0x1e35, 0x6b), (0x1e36, 0x6c),
  (0x1e37, 0x6c), (0x1e38, 0x6c), (0x1e39, 0x6c), (0x1e3a, 0x6c), (0x1e3b, 0x6c),
  (0x1e3c, 0x6c), (0x1e3d, 0x6c), (0x1e3e, 0x6d), (0x1e3f, 0x6d), (0x1e40, 0x6d),
  (0x1e41, 0x6d), (0x1e42, 0x6d), (0x1e43, 0x6d), (0x1e44, 0x6e), (0x1e45, 0x6e),
  (0x1e46, 0x6e), (0x1e47, 0x6e), (0x1e48, 0x6e), (0x1e49, 0x6e), (0x1e4a, 0x6e),
  (0x1e4b, 0x6e), (0x1e4c, 0x6f), (0x1e4d, 0x6f), (0x1e4e, 0x6f), (0x1e4f, 0x6f),
  (0x1e50, 0x6f), (0x1e51, 0x6f), (0x1e52, 0x6f), (0x1e53, 0x6f), (0x1e54, 0x70),
  (0x1e55, 0x70), (0x1e56, 0x70), (0x1e57, 0x70), (0x1e58, 0x72), (0x1e59, 0x72),
  (0x1e5a, 0x72), (0x1e5b, 0x72), (0x1e5c, 0x72), (0x1e5d, 0x72), (0x1e5e, 0x72),
  (0x1e5f, 0x72), (0x1e60, 0x73), (0x1e61, 0x73), (0x1e62, 0x73), (0x1e63, 0x73),
  (0x1e64, 0x73), (0x1e65, 0x73), (0x1e66, 0x73), (0x1e67, 0x73), (0x1e68, 0x73),
  (0x1e69, 0x73), (0x1e6a, 0x74), (0x1e6b, 0x74), (0x1e6c, 0x74), (0x1e6d, 0x74),
  (0x1e6e, 0x74), (0x1e6f, 0x74), (0x1e70, 0x74), (0x1e71, 0x74), (0x1e72, 0x75),
  (0x1e73, 0x75), (0x1e74, 0x75), (0x1e75, 0x75), (0x1e76, 0x75), (0x1e77, 0x75),
  (0x1e78, 0x75), (0x1e79, 0x75), (0x1e7a, 0x75), (0x1e7b, 0x75), (0x1e7c, 0x76),
  (0x1e7d, 0x76), (0x1e7e, 0x76), (0x1e7f, 0x76), (0x1e80, 0x77), (0x1e81, 0x77),
  (0x1e82, 0x77), (0x1e83, 0x77), (0x1e84, 0x77), (0x1e85, 0x77), (0x1e86, 0x77),
  (0x1e87, 0x77), (0x1e88, 0x77), (0x1e89, 0x77), (0x1e8a, 0x78), (0x1e8b, 0x78),
  (0x1e8c, 0x78), (0x1e8d, 0x78), (0x1e8e, 0x79), (0x1e8f, 0x79), (0x1e90, 0x7a),
  (0x1e91, 0x7a), (0x1e92, 0x7a), (0x1e93, 0x7a), (0x1e94, 0x7a), (0x1e95, 0x7a),
  (0x1e96, 0x68), (0x1e97, 0x74), (0x1e98, 0x77), (0x1e99, 0x79), (0x1e9b, 0x17f),
  (0x1e9e, 0xdf), (0x1ea0, 0x61), (0x1ea1, 0x61), (0x1ea2, 0x61), (0x1ea3, 0x61),
  (0x1ea4, 0x61), (0x1ea5, 0x61), (0x1ea6, 0x61), (0x1ea7, 0x61), (0x1ea8, 0x61),
  (0x1ea9, 0x61), (0x1eaa, 0x61), (0x1eab, 0x61), (0x1eac, 0x61), (0x1ead, 0x61),
  (0x1eae, 0x61), (0x1eaf, 0x61), (0x1eb0, 0x61), (0x1eb1, 0x61), (0x1eb2, 0x61),
  (0x1eb3, 0x61), (0x1eb4, 0x61), (0x1eb5, 0x61), (0x1eb6, 0x61), (0x1eb7, 0x61),
  (0x1eb8, 0x65), (0x1eb9, 0x65), (0x1eba, 0x65), (0x1ebb, 0x65), (0x1ebc, 0x65),
  (0x1ebd, 0x65), (0x1ebe, 0x65), (0x1ebf, 0x65), (0x1ec0, 0x65), (0x1ec1, 0x65),
  (0x1ec2, 0x65), (0x1ec3, 0x65), (0x1ec4, 0x65), (0x1ec5, 0x65), (0x1ec6, 0x65),
  (0x1ec7, 0x65), (0x1ec8, 0x69), (0x1ec9, 0x69), (0x1eca, 0x69), (0x1ecb, 0x69),
  (0x1ecc, 0x6f), (0x1ecd, 0x6f), (0x1ece, 0x6f), (0x1ecf, 0x6f), (0x1ed0, 0x6f),
  (0x1ed1, 0x6f), (0x1ed2, 0x6f), (0x1ed3, 0x6f), (0x1ed4, 0x6f), (0x1ed5, 0x6f),
  (0x1ed6, 0x6f), (0x1ed7, 0x6f), (0x1ed8, 0x6f), (0x1ed9, 0x6f), (0x1eda, 0x6f),
  (0x1edb, 0x6f), (0x1edc, 0x6f), (0x1edd, 0x6f), (0x1ede, 0x6f), (0x1edf, 0x6f),
  (0x1ee0, 0x6f), (0x1ee1, 0x6f), (0x1ee2, 0x6f), (0x1ee3, 0x6f), (0x1ee4, 0x75),
  (0x1ee5, 0x75), (0x1ee6, 0x75), (0x1ee7, 0x75), (0x1ee8, 0x75), (0x1ee9, 0x75),
  (0x1eea, 0x75), (0x1eeb, 0x75), (0x1eec, 0x75), (0x1eed, 0x75), (0x1eee, 0x75),
  (0x1eef, 0x75), (0x1ef0, 0x75), (0x1ef1, 0x75), (0x1ef2, 0x79), (0x1ef3, 0x79),
  (0x1ef4, 0x79), (0x1ef5, 0x79), (0x1ef6, 0x79), (0x1ef7, 0x79), (0x1ef8, 0x79),
  (0x1ef9, 0x79), (0x1efa, 0x1efb), (0x1efc, 0x1efd), (0x1efe, 0x1eff), (0x1f00, 0x3b1),
  (0x1f01, 0x3b1), (0x1f02, 0x3b1), (0x1f03, 0x3b1), (0x1f04, 0x3b1), (0x1f05, 0x3b1),
  (0x1f06, 0x3b1), (0x1f07, 0x3b1), (0x1f08, 0x3b1), (0x1f09, 0x3b1), (0x1f0a, 0x3b1),
  (0x1f0b, 0x3b1), (0x1f0c, 0x3b1), (0x1f0d, 0x3b1), (0x1f0e, 0x3b1), (0x1f0f, 0x3b1),
  (0x1f10, 0x3b5), (0x1f11, 0x3b5), (0x1f12, 0x3b5), (0x1f13, 0x3b5), (0x1f14, 0x3b5),
  (0x1f15, 0x3b5), (0x1f18, 0x3b5), (0x1f19, 0x3b5), (0x1f1a, 0x3b5), (0x1f1b, 0x3b5),
  (0x1f1c, 0x3b5), (0x1f1d, 0x3b5), (0x1f20, 0x3b7), (0x1f21, 0x3b7), (0x1f22, 0x3b7),
  (0x1f23, 0x3b7), (0x1f24, 0x3b7), (0x1f25, 0x3b7), (0x1f26, 0x3b7), (0x1f27, 0x3b7),
  (0x1f28, 0x3b7), (0x1f29, 0x3b7), (0x1f2a, 0x3b7), (0x1f2b, 0x3b7), (0x1f2c, 0x3b7),
  (0x1f2d, 0x3b7), (0x1f2e, 0x3b7), (0x1f2f, 0x3b7), (0x1f30, 0x3b9), (0x1f31, 0x3b9),
  (0x1f32, 0x3b9), (0x1f33, 0x3b9), (0x1f34, 0x3b9), (0x1f35, 0x3b9), (0x1f36, 0x3b9),
  (0x1f37, 0x3b9), (0x1f38, 0x3b9), (0x1f39, 0x3b9), (0x1f3a, 0x3b9), (0x1f3b, 0x3b9),
  (0x1f3c, 0x3b9), (0x1f3d, 0x3b9), (0x1f3e, 0x3b9), (0x1f3f, 0x3b9), (0x1f40, 0x3bf),
  (0x1f41, 0x3bf), (0x1f42, 0x3bf), (0x1f43, 0x3bf), (0x1f44, 0x3bf), (0x1f45, 0x3bf),
  (0x1f48, 0x3bf), (0x1f49, 0x3bf), (0x1f4a, 0x3bf), (0x1f4b, 0x3bf), (0x1f4c, 0x3bf),
  (0x1f4d, 0x3bf), (0x1f50, 0x3c5), (0x1f51, 0x3c5), (0x1f52, 0x3c5), (0x1f53, 0x3c5),
  (0x1f54, 0x3c5), (0x1f55, 0x3c5), (0x1f56, 0x3c5), (0x1f57, 0x3c5), (0x1f59, 0x3c5),
  (0x1f5b, 0x3c5), (0x1f5d, 0x3c5), (0x1f5f, 0x3c5), (0x1f60, 0x3c9), (0x1f61, 0x3c9),
  (0x1f62, 0x3c9), (0x1f63, 0x3c9), (0x1f64, 0x3c9), (0x1f65, 0x3c9), (0x1f66, 0x3c9),
  (0x1f67, 0x3c9), (0x1f68, 0x3c9), (0x1f69, 0x3c9), (0x1f6a, 0x3c9), (0x1f6b, 0x3c9),
  (0x1f6c, 0x3c9), (0x1f6d, 0x3c9), (0x1f6e, 0x3c9), (0x1f6f, 0x3c9), (0x1f70, 0x3b1),
  (0x1f71, 0x3b1), (0x1f72, 0x3b5), (0x1f73, 0x3b5), (0x1f74, 0x3b7), (0x1f75, 0x3b7),
  (0x1f76, 0x3b9), (0x1f77, 0x3b9), (0x1f78, 0x3bf), (0x1f79, 0x3bf), (0x1f7a, 0x3c5),
  (0x1f7b, 0x3c5), (0x1f7c, 0x3c9), (0x1f7d, 0x3c9), (0x1f80, 0x3b1), (0x1f81, 0x3b1),
  (0x1f82, 0x3b1), (0x1f83, 0x3b1), (0x1f84, 0x3b1), (0x1f85, 0x3b1), (0x1f86, 0x3b1),
  (0x1f87, 0x3b1), (0x1f88, 0x3b1), (0x1f89, 0x3b1), (0x1f8a, 0x3b1), (0x1f8b, 0x3b1),
  (0x1f8c, 0x3b1), (0x1f8d, 0x3b1), (0x1f8e, 0x3b1), (0x1f8f, 0x3b1), (0x1f90, 0x3b7),
  (0x1f91, 0x3b7), (0x1f92, 0x3b7), (0x1f93, 0x3b7), (0x1f94, 0x3b7), (0x1f95, 0x3b7),
  (0x1f96, 0x3b7), (0x1f97, 0x3b7), (0x1f98, 0x3b7), (0x1f99, 0x3b7), (0x1f9a, 0x3b7),
  (0x1f9b, 0x3b7), (0x1f9c, 0x3b7), (0x1f9d, 0x3b7), (0x1f9e, 0x3b7), (0x1f9f, 0x3b7),
  (0x1fa0, 0x3c9), (0x1fa1, 0x3c9), (0x1fa2, 0x3c9), (0x1fa3, 0x3c9), (0x1fa4, 0x3c9),
  (0x1fa5, 0x3c9), (0x1fa6, 0x3c9), (0x1fa7, 0x3c9), (0x1fa8, 0x3c9), (0x1fa9, 0x3c9),
  (0x1faa, 0x3c9), (0x1fab, 0x3c9), (0x1fac, 0x3c9), (0x1fad, 0x3c9), (0x1fae, 0x3c9),
  (0x1faf, 0x3c9), (0x1fb0, 0x3b1), (0x1fb1, 0x3b1), (0x1fb2, 0x3b1), (0x1fb3, 0x3b1),
  (0x1fb4, 0x3b1), (0x1fb6, 0x3b1), (0x1fb7, 0x3b1), (0x1fb8, 0x3b1), (0x1fb9, 0x3b1),
  (0x1fba, 0x3b1), (0x1fbb, 0x3b1), (0x1fbc, 0x3b1), (0x1fbe, 0x3b9), (0x1fc1, 0xa8),
  (0x1fc2, 0x3b7), (0x1fc3, 0x3b7), (0x1fc4, 0x3b7), (0x1fc6, 0x3b7), (0x1fc7, 0x3b7),
  (0x1fc8, 0x3b5), (0x1fc9, 0x3b5), (0x1fca, 0x3b7), (0x1fcb, 0x3b7), (0x1fcc, 0x3b7),
  (0x1fcd, 0x1fbf), (0x1fce, 0x1fbf), (0x1fcf, 0x1fbf), (0x1fd0, 0x3b9), (0x1fd1, 0x3b9),
  (0x1fd2, 0x3b9), (0x1fd3, 0x3b9), (0x1fd6, 0x3b9), (0x1fd7, 0x3b9), (0x1fd8, 0x3b9),
  (0x1fd9, 0x3b9), (0x1fda, 0x3b9), (0x1fdb, 0x3b9), (0x1fdd, 0x1ffe), (0x1fde, 0x1ffe),
  (0x1fdf, 0x1ffe), (0x1fe0, 0x3c5), (0x1fe1, 0x3c5), (0x1fe2, 0x3c5), (0x1fe3, 0x3c5),
  (0x1fe4, 0x3c1), (0x1fe5, 0x3c1), (0x1fe6, 0x3c5), (0x1fe7, 0x3c5), (0x1fe8, 0x3c5),
  (0x1fe9, 0x3c5), (0x1fea, 0x3c5), (0x1feb, 0x3c5), (0x1fec, 0x3c1), (0x1fed, 0xa8),
  (0x1fee, 0xa8), (0x1fef, 0x60), (0x1ff2, 0x3c9), (0x1ff3, 0x3c9), (0x1ff4, 0x3c9),
  (0x1ff6, 0x3c9), (0x1ff7, 0x3c9), (0x1ff8, 0x3bf), (0x1ff9, 0x3bf), (0x1ffa, 0x3c9),
  (0x1ffb, 0x3c9), (0x1ffc, 0x3c9), (0x1ffd, 0xb4), (0x2000, 0x2002), (0x2001, 0x2003),
  (0x2126, 0x3c9), (0x212a, 0x6b), (0x212b, 0x61), (0x2132, 0x214e), (0x2160, 0x2170),
  (0x2161, 0x2171), (0x2162, 0x2172), (0x2163, 0x2173), (0x2164, 0x2174), (0x2165, 0x2175),
  (0x2166, 0x2176), (0x2167, 0x2177), (0x2168, 0x2178), (0x2169, 0x2179), (0x216a, 0x217a),
  (0x216b, 0x217b), (0x216c, 0x217c), (0x216d, 0x217d), (0x216e, 0x217e), (0x216f, 0x217f),
  (0x2183, 0x2184), (0x219a, 0x2190), (0x219b, 0x2192), (0x21ae, 0x2194), (0x21cd, 0x21d0),
  (0x21ce, 0x21d4), (0x21cf, 0x21d2), (0x2204, 0x2203), (0x2209, 0x2208), (0x220c, 0x220b),
  (0x2224, 0x2223), (0x2226, 0x2225), (0x2241, 0x223c), (0x2244, 0x2243), (0x2247, 0x2245),
  (0x2249, 0x2248), (0x2260, 0x3d), (0x2262, 0x2261), (0x226d, 0x224d), (0x226e, 0x3c),
  (0x226f, 0x3e), (0x2270, 0x2264), (0x2271, 0x2265), (0x2274, 0x2272), (0x2275, 0x2273),
  (0x2278, 0x2276), (0x2279, 0x2277), (0x2280, 0x227a), (0x2281, 0x227b), (0x2284, 0x2282),
  (0x2285, 0x2283), (0x2288, 0x2286), (0x2289, 0x2287), (0x22ac, 0x22a2), (0x22ad, 0x22a8),
  (0x22ae, 0x22a9), (0x22af, 0x22ab), (0x22e0, 0x227c), (0x22e1, 0x227d), (0x22e2, 0x2291),
  (0x22e3, 0x2292), (0x22ea, 0x22b2), (0x22eb, 0x22b3), (0x22ec, 0x22b4), (0x22ed, 0x22b5),
  (0x2329, 0x3008), (0x232a, 0x3009), (0x24b6, 0x24d0), (0x24b7, 0x24d1), (0x24b8, 0x24d2),
  (0x24b9, 0x24d3), (0x24ba, 0x24d4), (0x24bb, 0x24d5), (0x24bc, 0x24d6), (0x24bd, 0x24d7),
  (0x24be, 0x24d8), (0x24bf, 0x24d9), (0x24c0, 0x24da), (0x24c1, 0x24db), (0x24c2, 0x24dc),
  (0x24c3, 0x24dd), (0x24c4, 0x24de), (0x24c5, 0x24df), (0x24c6, 0x24e0), (0x24c7, 0x24e1),
  (0x24c8, 0x24e2), (0x24c9, 0x24e3), (0x24ca, 0x24e4), (0x24cb, 0x24e5), (0x24cc, 0x24e6),
  (0x24cd, 0x24e7), (0x24ce, 0x24e8), (0x24cf, 0x24e9), (0x2adc, 0x2add), (0x2c00, 0x2c30),
  (0x2c01, 0x2c31), (0x2c02, 0x2c32), (0x2c03, 0x2c33), (0x2c04, 0x2c34), (0x2c05, 0x2c35),
  (0x2c06, 0x2c36), (0x2c07, 0x2c37), (0x2c08, 0x2c38), (0x2c09, 0x2c39), (0x2c0a, 0x2c3a),
  (0x2c0b, 0x2c3b), (0x2c0c, 0x2c3c), (0x2c0d, 0x2c3d), (0x2c0e, 0x2c3e), (0x2c0f, 0x2c3f),
  (0x2c10, 0x2c40), (0x2c11, 0x2c41), (0x2c12, 0x2c42), (0x2c13, 0x2c43), (0x2c14, 0x2c44),
  (0x2c15, 0x2c45), (0x2c16, 0x2c46), (0x2c17, 0x2c47), (0x2c18, 0x2c48), (0x2c19, 0x2c49),
  (0x2c1a, 0x2c4a), (0x2c1b, 0x2c4b), (0x2c1c, 0x2c4c), (0x2c1d, 0x2c4d), (0x2c1e, 0x2c4e),
  (0x2c1f, 0x2c4f), (0x2c20, 0x2c50), (0x2c21, 0x2c51), (0x2c22, 0x2c52), (0x2c23, 0x2c53),
  (0x2c24, 0x2c54), (0x2c25, 0x2c55), (0x2c26, 0x2c56), (0x2c27, 0x2c57), (0x2c28, 0x2c58),
  (0x2c29, 0x2c59), (0x2c2a, 0x2c5a), (0x2c2b, 0x2c5b), (0x2c2c, 0x2c5c), (0x2c2d, 0x2c5d),
  (0x2c2e, 0x2c5e), (0x2c2f, 0x2c5f), (0x2c60, 0x2c61), (0x2c62, 0x26b), (0x2c63, 0x1d7d),
  (0x2c64, 0x27d), (0x2c67, 0x2c68), (0x2c69, 0x2c6a), (0x2c6b, 0x2c6c), (0x2c6d, 0x251),
  (0x2c6e, 0x271), (0x2c6f, 0x250), (0x2c70, 0x252), (0x2c72, 0x2c73), (0x2c75, 0x2c76),
  (0x2c7e, 0x23f), (0x2c7f, 0x240), (0x2c80, 0x2c81), (0x2c82, 0x2c83), (0x2c84, 0x2c85),
  (0x2c86, 0x2c87), (0x2c88, 0x2c89), (0x2c8a, 0x2c8b), (0x2c8c, 0x2c8d), (0x2c8e, 0x2c8f),
  (0x2c90, 0x2c91), (0x2c92, 0x2c93), (0x2c94, 0x2c95), (0x2c96, 0x2c97), (0x2c98, 0x2c99),
  (0x2c9a, 0x2c9b), (0x2c9c, 0x2c9d), (0x2c9e, 0x2c9f), (0x2ca0, 0x2ca1), (0x2ca2, 0x2ca3),
  (0x2ca4, 0x2ca5), (0x2ca6, 0x2ca7), (0x2ca8, 0x2ca9), (0x2caa, 0x2cab), (0x2cac, 0x2cad),
  (0x2cae, 0x2caf), (0x2cb0, 0x2cb1), (0x2cb2, 0x2cb3), (0x2cb4, 0x2cb5), (0x2cb6, 0x2cb7),
  (0x2cb8, 0x2cb9), (0x2cba, 0x2cbb), (0x2cbc, 0x2cbd), (0x2cbe, 0x2cbf), (0x2cc0, 0x2cc1),
  (0x2cc2, 0x2cc3), (0x2cc4, 0x2cc5), (0x2cc6, 0x2cc7), (0x2cc8, 0x2cc9), (0x2cca, 0x2ccb),
  (0x2ccc, 0x2ccd), (0x2cce, 0x2ccf), (0x2cd0, 0x2cd1), (0x2cd2, 0x2cd3), (0x2cd4, 0x2cd5),
  (0x2cd6, 0x2cd7), (0x2cd8, 0x2cd9), (0x2cda, 0x2cdb), (0x2cdc, 0x2cdd), (0x2cde, 0x2cdf),
  (0x2ce0, 0x2ce1), (0x2ce2, 0x2ce3), (0x2ceb, 0x2cec), (0x2ced, 0x2cee), (0x2cf2, 0x2cf3),
  (0x304c, 0x304b), (0x304e, 0x304d), (0x3050, 0x304f), (0x3052, 0x3051), (0x3054, 0x3053),
  (0x3056, 0x3055), (0x3058, 0x3057), (0x305a, 0x3059), (0x305c, 0x305b), (0x305e, 0x305d),
  (0x3060, 0x305f), (0x3062, 0x3061), (0x3065, 0x3064), (0x3067, 0x3066), (0x3069, 0x3068),
  (0x3070, 0x306f), (0x3071, 0x306f), (0x3073, 0x3072), (0x3074, 0x3072), (0x3076, 0x3075),
  (0x3077, 0x3075), (0x3079, 0x3078), (0x307a, 0x3078), (0x307c, 0x307b), (0x307d, 0x307b),
  (0x3094, 0x3046), (0x309e, 0x309d), (0x30ac, 0x30ab), (0x30ae, 0x30ad), (0x30b0, 0x30af),
  (0x30b2, 0x30b1), (0x30b4, 0x30b3), (0x30b6, 0x30b5), (0x30b8, 0x30b7), (0x30ba, 0x30b9),
  (0x30bc, 0x30bb), (0x30be, 0x30bd), (0x30c0, 0x30bf), (0x30c2, 0x30c1), (0x30c5, 0x30c4),
  (0x30c7, 0x30c6), (0x30c9, 0x30c8), (0x30d0, 0x30cf), (0x30d1, 0x30cf), (0x30d3, 0x30d2),
  (0x30d4, 0x30d2), (0x30d6, 0x30d5), (0x30d7, 0x30d5), (0x30d9, 0x30d8), (0x30da, 0x30d8),
  (0x30dc, 0x30db), (0x30dd, 0x30db), (0x30f4, 0x30a6), (0x30f7, 0x30ef), (0x30f8, 0x30f0),
  (0x30f9, 0x30f1), (0x30fa, 0x30f2), (0x30fe, 0x30fd), (0xa640, 0xa641), (0xa642, 0xa643),
  (0xa644, 0xa645), (0xa646, 0xa647), (0xa648, 0xa649), (0xa64a, 0xa64b), (0xa64c, 0xa64d),
  (0xa64e, 0xa64f), (0xa650, 0xa651), (0xa652, 0xa653), (0xa654, 0xa655), (0xa656, 0xa657),
  (0xa658, 0xa659), (0xa65a, 0xa65b), (0xa65c, 0xa65d), (0xa65e, 0xa65f), (0xa660, 0xa661),
  (0xa662, 0xa663), (0xa664, 0xa665), (0xa666, 0xa667), (0xa668, 0xa669), (0xa66a, 0xa66b),
  (0xa66c, 0xa66d), (0xa680, 0xa681), (0xa682, 0xa683), (0xa684, 0xa685), (0xa686, 0xa687),
  (0xa688, 0xa689), (0xa68a, 0xa68b), (0xa68c, 0xa68d), (0xa68e, 0xa68f), (0xa690, 0xa691),
  (0xa692, 0xa693), (0xa694, 0xa695), (0xa696, 0xa697), (0xa698, 0xa699), (0xa69a, 0xa69b),
  (0xa722, 0xa723), (0xa724, 0xa725), (0xa726, 0xa727), (0xa728, 0xa729), (0xa72a, 0xa72b),
  (0xa72c, 0xa72d), (0xa72e, 0xa72f), (0xa732, 0xa733), (0xa734, 0xa735), (0xa736, 0xa737),
  (0xa738, 0xa739), (0xa73a, 0xa73b), (0xa73c, 0xa73d), (0xa73e, 0xa73f), (0xa740, 0xa741),
  (0xa742, 0xa743), (0xa744, 0xa745), (0xa746, 0xa747), (0xa748, 0xa749), (0xa74a, 0xa74b),
  (0xa74c, 0xa74d), (0xa74e, 0xa74f), (0xa750, 0xa751), (0xa752, 0xa753), (0xa754, 0xa755),
  (0xa756, 0xa757), (0xa758, 0xa759), (0xa75a, 0xa75b), (0xa75c, 0xa75d), (0xa75e, 0xa75f),
  (0xa760, 0xa761), (0xa762, 0xa763), (0xa764, 0xa765), (0xa766, 0xa767), (0xa768, 0xa769),
  (0xa76a, 0xa76b), (0xa76c, 0xa76d), (0xa76e, 0xa76f), (0xa779, 0xa77a), (0xa77b, 0xa77c),
  (0xa77d, 0x1d79), (0xa77e, 0xa77f), (0xa780, 0xa781), (0xa782, 0xa783), (0xa784, 0xa785),
  (0xa786, 0xa787), (0xa78b, 0xa78c), (0xa78d, 0x265), (0xa790, 0xa791), (0xa792, 0xa793),
  (0xa796, 0xa797), (0xa798, 0xa799), (0xa79a, 0xa79b), (0xa79c, 0xa79d), (0xa79e, 0xa79f),
  (0xa7a0, 0xa7a1), (0xa7a2, 0xa7a3), (0xa7a4, 0xa7a5), (0xa7a6, 0xa7a7), (0xa7a8, 0xa7a9),
  (0xa7aa, 0x266), (0xa7ab, 0x25c), (0xa7ac, 0x261), (0xa7ad, 0x26c), (0xa7ae, 0x26a),
  (0xa7b0, 0x29e), (0xa7b1, 0x287), (0xa7b2, 0x29d), (0xa7b3, 0xab53), (0xa7b4, 0xa7b5),
  (0xa7b6, 0xa7b7), (0xa7b8, 0xa7b9), (0xa7ba, 0xa7bb), (0xa7bc, 0xa7bd), (0xa7be, 0xa7bf),
  (0xa7c0, 0xa7c1), (0xa7c2, 0xa7c3), (0xa7c4, 0xa794), (0xa7c5, 0x282), (0xa7c6, 0x1d8e),
  (0xa7c7, 0xa7c8), (0xa7c9, 0xa7ca), (0xa7d0, 0xa7d1), (0xa7d6, 0xa7d7), (0xa7d8, 0xa7d9),
  (0xa7f5, 0xa7f6), (0xf900, 0x8c48), (0xf901, 0x66f4), (0xf902, 0x8eca), (0xf903, 0x8cc8),
  (0xf904, 0x6ed1), (0xf905, 0x4e32), (0xf906, 0x53e5), (0xf907, 0x9f9c), (0xf908, 0x9f9c),
  (0xf909, 0x5951), (0xf90a, 0x91d1), (0xf90b, 0x5587), (0xf90c, 0x5948), (0xf90d, 0x61f6),
  (0xf90e, 0x7669), (0xf90f, 0x7f85), (0xf910, 0x863f), (0xf911, 0x87ba), (0xf912, 0x88f8),
  (0xf913, 0x908f), (0xf914, 0x6a02), (0xf915, 0x6d1b), (0xf916, 0x70d9), (0xf917, 0x73de),
  (0xf918, 0x843d), (0xf919, 0x916a), (0xf91a, 0x99f1), (0xf91b, 0x4e82), (0xf91c, 0x5375),
  (0xf91d, 0x6b04), (0xf91e, 0x721b), (0xf91f, 0x862d), (0xf920, 0x9e1e), (0xf921, 0x5d50),
  (0xf922, 0x6feb), (0xf923, 0x85cd), (0xf924, 0x8964), (0xf925, 0x62c9), (0xf926, 0x81d8),
  (0xf927, 0x881f), (0xf928, 0x5eca), (0xf929, 0x6717), (0xf92a, 0x6d6a), (0xf92b, 0x72fc),
  (0xf92c, 0x90ce), (0xf92d, 0x4f86), (0xf92e, 0x51b7), (0xf92f, 0x52de), (0xf930, 0x64c4),
  (0xf931, 0x6ad3), (0xf932, 0x7210), (0xf933, 0x76e7), (0xf934, 0x8001), (0xf935, 0x8606),
  (0xf936, 0x865c), (0xf937, 0x8def), (0xf938, 0x9732), (0xf939, 0x9b6f), (0xf93a, 0x9dfa),
  (0xf93b, 0x788c), (0xf93c, 0x797f), (0xf93d, 0x7da0), (0xf93e, 0x83c9), (0xf93f, 0x9304),
  (0xf940, 0x9e7f), (0xf941, 0x8ad6), (0xf942, 0x58df), (0xf943, 0x5f04), (0xf944, 0x7c60),
  (0xf945, 0x807e), (0xf946, 0x7262), (0xf947, 0x78ca), (0xf948, 0x8cc2), (0xf949, 0x96f7),
  (0xf94a, 0x58d8), (0xf94b, 0x5c62), (0xf94c, 0x6a13), (0xf94d, 0x6dda), (0xf94e, 0x6f0f),
  (0xf94f, 0x7d2f), (0xf950, 0x7e37), (0xf951, 0x964b), (0xf952, 0x52d2), (0xf953, 0x808b),
  (0xf954, 0x51dc), (0xf955, 0x51cc), (0xf956, 0x7a1c), (0xf957, 0x7dbe), (0xf958, 0x83f1),
  (0xf959, 0x9675), (0xf95a, 0x8b80), (0xf95b, 0x62cf), (0xf95c, 0x6a02), (0xf95d, 0x8afe),
  (0xf95e, 0x4e39), (0xf95f, 0x5be7), (0xf960, 0x6012), (0xf961, 0x7387), (0xf962, 0x7570),
  (0xf963, 0x5317), (0xf964, 0x78fb), (0xf965, 0x4fbf), (0xf966, 0x5fa9), (0xf967, 0x4e0d),
  (0xf968, 0x6ccc), (0xf969, 0x6578), (0xf96a, 0x7d22), (0xf96b, 0x53c3), (0xf96c, 0x585e),
  (0xf96d, 0x7701), (0xf96e, 0x8449), (0xf96f, 0x8aaa), (0xf970, 0x6bba), (0xf971, 0x8fb0),
  (0xf972, 0x6c88), (0xf973, 0x62fe), (0xf974, 0x82e5), (0xf975, 0x63a0), (0xf976, 0x7565),
  (0xf977, 0x4eae), (0xf978, 0x5169), (0xf979, 0x51c9), (0xf97a, 0x6881), (0xf97b, 0x7ce7),
  (0xf97c, 0x826f), (0xf97d, 0x8ad2), (0xf97e, 0x91cf), (0xf97f, 0x52f5), (0xf980, 0x5442),
  (0xf981, 0x5973), (0xf982, 0x5eec), (0xf983, 0x65c5), (0xf984, 0x6ffe), (0xf985, 0x792a),
  (0xf986, 0x95ad), (0xf987, 0x9a6a), (0xf988, 0x9e97), (0xf989, 0x9ece), (0xf98a, 0x529b),
  (0xf98b, 0x66c6), (0xf98c, 0x6b77), (0xf98d, 0x8f62), (0xf98e, 0x5e74), (0xf98f, 0x6190),
  (0xf990, 0x6200), (0xf991, 0x649a), (0xf992, 0x6f23), (0xf993, 0x7149), (0xf994, 0x7489),
  (0xf995, 0x79ca), (0xf996, 0x7df4), (0xf997, 0x806f), (0xf998, 0x8f26), (0xf999, 0x84ee),
  (0xf99a, 0x9023), (0xf99b, 0x934a), (0xf99c, 0x5217), (0xf99d, 0x52a3), (0xf99e, 0x54bd),
  (0xf99f, 0x70c8), (0xf9a0, 0x88c2), (0xf9a1, 0x8aaa), (0xf9a2, 0x5ec9), (0xf9a3, 0x5ff5),
  (0xf9a4, 0x637b), (0xf9a5, 0x6bae), (0xf9a6, 0x7c3e), (0xf9a7, 0x7375), (0xf9a8, 0x4ee4),
  (0xf9a9, 0x56f9), (0xf9aa, 0x5be7), (0xf9ab, 0x5dba), (0xf9ac, 0x601c), (0xf9ad, 0x73b2),
  (0xf9ae, 0x7469), (0xf9af, 0x7f9a), (0xf9b0, 0x8046), (0xf9b1, 0x9234), (0xf9b2, 0x96f6),
  (0xf9b3, 0x9748), (0xf9b4, 0x9818), (0xf9b5, 0x4f8b), (0xf9b6, 0x79ae), (0xf9b7, 0x91b4),
  (0xf9b8, 0x96b8), (0xf9b9, 0x60e1), (0xf9ba, 0x4e86), (0xf9bb, 0x50da), (0xf9bc, 0x5bee),
  (0xf9bd, 0x5c3f), (0xf9be, 0x6599), (0xf9bf, 0x6a02), (0xf9c0, 0x71ce), (0xf9c1, 0x7642),
  (0xf9c2, 0x84fc), (0xf9c3, 0x907c), (0xf9c4, 0x9f8d), (0xf9c5, 0x6688), (0xf9c6, 0x962e),
  (0xf9c7, 0x5289), (0xf9c8, 0x677b), (0xf9c9, 0x67f3), (0xf9ca, 0x6d41), (0xf9cb, 0x6e9c),
  (0xf9cc, 0x7409), (0xf9cd, 0x7559), (0xf9ce, 0x786b), (0xf9cf, 0x7d10), (0xf9d0, 0x985e),
  (0xf9d1, 0x516d), (0xf9d2, 0x622e), (0xf9d3, 0x9678), (0xf9d4, 0x502b), (0xf9d5, 0x5d19),
  (0xf9d6, 0x6dea), (0xf9d7, 0x8f2a), (0xf9d8, 0x5f8b), (0xf9d9, 0x6144), (0xf9da, 0x6817),
  (0xf9db, 0x7387), (0xf9dc, 0x9686), (0xf9dd, 0x5229), (0xf9de, 0x540f), (0xf9df, 0x5c65),
  (0xf9e0, 0x6613), (0xf9e1, 0x674e), (0xf9e2, 0x68a8), (0xf9e3, 0x6ce5), (0xf9e4, 0x7406),
  (0xf9e5, 0x75e2), (0xf9e6, 0x7f79), (0xf9e7, 0x88cf), (0xf9e8, 0x88e1), (0xf9e9, 0x91cc),
  (0xf9ea, 0x96e2), (0xf9eb, 0x533f), (0xf9ec, 0x6eba), (0xf9ed, 0x541d), (0xf9ee, 0x71d0),
  (0xf9ef, 0x7498), (0xf9f0, 0x85fa), (0xf9f1, 0x96a3), (0xf9f2, 0x9c57), (0xf9f3, 0x9e9f),
  (0xf9f4, 0x6797), (0xf9f5, 0x6dcb), (0xf9f6, 0x81e8), (0xf9f7, 0x7acb), (0xf9f8, 0x7b20),
  (0xf9f9, 0x7c92), (0xf9fa, 0x72c0), (0xf9fb, 0x7099), (0xf9fc, 0x8b58), (0xf9fd, 0x4ec0),
  (0xf9fe, 0x8336), (0xf9ff, 0x523a), (0xfa00, 0x5207), (0xfa01, 0x5ea6), (0xfa02, 0x62d3),
  (0xfa03, 0x7cd6), (0xfa04, 0x5b85), (0xfa05, 0x6d1e), (0xfa06, 0x66b4), (0xfa07, 0x8f3b),
  (0xfa08, 0x884c), (0xfa09, 0x964d), (0xfa0a, 0x898b), (0xfa0b, 0x5ed3), (0xfa0c, 0x5140),
  (0xfa0d, 0x55c0), (0xfa10, 0x585a), (0xfa12, 0x6674), (0xfa15, 0x51de), (0xfa16, 0x732a),
  (0xfa17, 0x76ca), (0xfa18, 0x793c), (0xfa19, 0x795e), (0xfa1a, 0x7965), (0xfa1b, 0x798f),
  (0xfa1c, 0x9756), (0xfa1d, 0x7cbe), (0xfa1e, 0x7fbd), (0xfa20, 0x8612), (0xfa22, 0x8af8),
  (0xfa25, 0x9038), (0xfa26, 0x90fd), (0xfa2a, 0x98ef), (0xfa2b, 0x98fc), (0xfa2c, 0x9928),
  (0xfa2d, 0x9db4), (0xfa2e, 0x90de), (0xfa2f, 0x96b7), (0xfa30, 0x4fae), (0xfa31, 0x50e7),
  (0xfa32, 0x514d), (0xfa33, 0x52c9), (0xfa34, 0x52e4), (0xfa35, 0x5351), (0xfa36, 0x559d),
  (0xfa37, 0x5606), (0xfa38, 0x5668), (0xfa39, 0x5840), (0xfa3a, 0x58a8), (0xfa3b, 0x5c64),
  (0xfa3c, 0x5c6e), (0xfa3d, 0x6094), (0xfa3e, 0x6168), (0xfa3f, 0x618e), (0xfa40, 0x61f2),
  (0xfa41, 0x654f), (0xfa42, 0x65e2), (0xfa43, 0x6691), (0xfa44, 0x6885), (0xfa45, 0x6d77),
  (0xfa46, 0x6e1a), (0xfa47, 0x6f22), (0xfa48, 0x716e), (0xfa49, 0x722b), (0xfa4a, 0x7422),
  (0xfa4b, 0x7891), (0xfa4c, 0x793e), (0xfa4d, 0x7949), (0xfa4e, 0x7948), (0xfa4f, 0x7950),
  (0xfa50, 0x7956), (0xfa51, 0x795d), (0xfa52, 0x798d), (0xfa53, 0x798e), (0xfa54, 0x7a40),
  (0xfa55, 0x7a81), (0xfa56, 0x7bc0), (0xfa57, 0x7df4), (0xfa58, 0x7e09), (0xfa59, 0x7e41),
  (0xfa5a, 0x7f72), (0xfa5b, 0x8005), (0xfa5c, 0x81ed), (0xfa5d, 0x8279), (0xfa5e, 0x8279),
  (0xfa5f, 0x8457), (0xfa60, 0x8910), (0xfa61, 0x8996), (0xfa62, 0x8b01), (0xfa63, 0x8b39),
  (0xfa64, 0x8cd3), (0xfa65, 0x8d08), (0xfa66, 0x8fb6), (0xfa67, 0x9038), (0xfa68, 0x96e3),
  (0xfa69, 0x97ff), (0xfa6a, 0x983b), (0xfa6b, 0x6075), (0xfa6c, 0x242ee), (0xfa6d, 0x8218),
  (0xfa70, 0x4e26), (0xfa71, 0x51b5), (0xfa72, 0x5168), (0xfa73, 0x4f80), (0xfa74, 0x5145),
  (0xfa75, 0x5180), (0xfa76, 0x52c7), (0xfa77, 0x52fa), (0xfa78, 0x559d), (0xfa79, 0x5555),
  (0xfa7a, 0x5599), (0xfa7b, 0x55e2), (0xfa7c, 0x585a), (0xfa7d, 0x58b3), (0xfa7e, 0x5944),
  (0xfa7f, 0x5954), (0xfa80, 0x5a62), (0xfa81, 0x5b28), (0xfa82, 0x5ed2), (0xfa83, 0x5ed9),
  (0xfa84, 0x5f69), (0xfa85, 0x5fad), (0xfa86, 0x60d8), (0xfa87, 0x614e), (0xfa88, 0x6108),
  (0xfa89, 0x618e), (0xfa8a, 0x6160), (0xfa8b, 0x61f2), (0xfa8c, 0x6234), (0xfa8d, 0x63c4),
  (0xfa8e, 0x641c), (0xfa8f, 0x6452), (0xfa90, 0x6556), (0xfa91, 0x6674), (0xfa92, 0x6717),
  (0xfa93, 0x671b), (0xfa94, 0x6756), (0xfa95, 0x6b79), (0xfa96, 0x6bba), (0xfa97, 0x6d41),
  (0xfa98, 0x6edb), (0xfa99, 0x6ecb), (0xfa9a, 0x6f22), (0xfa9b, 0x701e), (0xfa9c, 0x716e),
  (0xfa9d, 0x77a7), (0xfa9e, 0x7235), (0xfa9f, 0x72af), (0xfaa0, 0x732a), (0xfaa1, 0x7471),
  (0xfaa2, 0x7506), (0xfaa3, 0x753b), (0xfaa4, 0x761d), (0xfaa5, 0x761f), (0xfaa6, 0x76ca),
  (0xfaa7, 0x76db), (0xfaa8, 0x76f4), (0xfaa9, 0x774a), (0xfaaa, 0x7740), (0xfaab, 0x78cc),
  (0xfaac, 0x7ab1), (0xfaad, 0x7bc0), (0xfaae, 0x7c7b), (0xfaaf, 0x7d5b), (0xfab0, 0x7df4),
  (0xfab1, 0x7f3e), (0xfab2, 0x8005), (0xfab3, 0x8352), (0xfab4, 0x83ef), (0xfab5, 0x8779),
  (0xfab6, 0x8941), (0xfab7, 0x8986), (0xfab8, 0x8996), (0xfab9, 0x8abf), (0xfaba, 0x8af8),
  (0xfabb, 0x8acb), (0xfabc, 0x8b01), (0xfabd, 0x8afe), (0xfabe, 0x8aed), (0xfabf, 0x8b39),
  (0xfac0, 0x8b8a), (0xfac1, 0x8d08), (0xfac2, 0x8f38), (0xfac3, 0x9072), (0xfac4, 0x9199),
  (0xfac5, 0x9276), (0xfac6, 0x967c), (0xfac7, 0x96e3), (0xfac8, 0x9756), (0xfac9, 0x97db),
  (0xfaca, 0x97ff), (0xfacb, 0x980b), (0xfacc, 0x983b), (0xfacd, 0x9b12), (0xface, 0x9f9c),
  (0xfacf, 0x2284a), (0xfad0, 0x22844), (0xfad1, 0x233d5), (0xfad2, 0x3b9d), (0xfad3, 0x4018),
  (0xfad4, 0x4039), (0xfad5, 0x25249), (0xfad6, 0x25cd0), (0xfad7, 0x27ed3), (0xfad8, 0x9f43),
  (0xfad9, 0x9f8e), (0xfb1d, 0x5d9), (0xfb1f, 0x5f2), (0xfb2a, 0x5e9), (0xfb2b, 0x5e9),
  (0xfb2c, 0x5e9), (0xfb2d, 0x5e9), (0xfb2e, 0x5d0), (0xfb2f, 0x5d0), (0xfb30, 0x5d0),
  (0xfb31, 0x5d1), (0xfb32, 0x5d2), (0xfb33, 0x5d3), (0xfb34, 0x5d4), (0xfb35, 0x5d5),
  (0xfb36, 0x5d6), (0xfb38, 0x5d8), (0xfb39, 0x5d9), (0xfb3a, 0x5da), (0xfb3b, 0x5db),
  (0xfb3c, 0x5dc), (0xfb3e, 0x5de), (0xfb40, 0x5e0), (0xfb41, 0x5e1), (0xfb43, 0x5e3),
  (0xfb44, 0x5e4), (0xfb46, 0x5e6), (0xfb47, 0x5e7), (0xfb48, 0x5e8), (0xfb49, 0x5e9),
  (0xfb4a, 0x5ea), (0xfb4b, 0x5d5), (0xfb4c, 0x5d1), (0xfb4d, 0x5db), (0xfb4e, 0x5e4),
  (0xff21, 0xff41), (0xff22, 0xff42), (0xff23, 0xff43), (0xff24, 0xff44), (0xff25, 0xff45),
  (0xff26, 0xff46), (0xff27, 0xff47), (0xff28, 0xff48), (0xff29, 0xff49), (0xff2a, 0xff4a),
  (0xff2b, 0xff4b), (0xff2c, 0xff4c), (0xff2d, 0xff4d), (0xff2e, 0xff4e), (0xff2f, 0xff4f),
  (0xff30, 0xff50), (0xff31, 0xff51), (0xff32, 0xff52), (0xff33, 0xff53), (0xff34, 0xff54),
  (0xff35, 0xff55), (0xff36, 0xff56), (0xff37, 0xff57), (0xff38, 0xff58), (0xff39, 0xff59),
  (0xff3a, 0xff5a), (0x10400, 0x10428), (0x10401, 0x10429), (0x10402, 0x1042a), (0x10403, 0x1042b),
  (0x10404, 0x1042c), (0x10405, 0x1042d), (0x10406, 0x1042e), (0x10407, 0x1042f), (0x10408, 0x10430),
  (0x10409, 0x10431), (0x1040a, 0x10432), (0x1040b, 0x10433), (0x1040c, 0x10434), (0x1040d, 0x10435),
  (0x1040e, 0x10436), (0x1040f, 0x10437), (0x10410, 0x10438), (0x10411, 0x10439), (0x10412, 0x1043a),
  (0x10413, 0x1043b), (0x10414, 0x1043c), (0x10415, 0x1043d), (0x10416, 0x1043e), (0x10417, 0x1043f),
  (0x10418, 0x10440), (0x10419, 0x10441), (0x1041a, 0x10442), (0x1041b, 0x10443), (0x1041c, 0x10444),
  (0x1041d, 0x10445), (0x1041e, 0x10446), (0x1041f, 0x10447), (0x10420, 0x10448), (0x10421, 0x10449),
  (0x10422, 0x1044a), (0x10423, 0x1044b), (0x10424, 0x1044c), (0x10425, 0x1044d), (0x10426, 0x1044e),
  (0x10427, 0x1044f), (0x104b0, 0x104d8), (0x104b1, 0x104d9), (0x104b2, 0x104da), (0x104b3, 0x104db),
  (0x104b4, 0x104dc), (0x104b5, 0x104dd), (0x104b6, 0x104de), (0x104b7, 0x104df), (0x104b8, 0x104e0),
  (0x104b9, 0x104e1), (0x104ba, 0x104e2), (0x104bb, 0x104e3), (0x104bc, 0x104e4), (0x104bd, 0x104e5),
  (0x104be, 0x104e6), (0x104bf, 0x104e7), (0x104c0, 0x104e8), (0x104c1, 0x104e9), (0x104c2, 0x104ea),
  (0x104c3, 0x104eb), (0x104c4, 0x104ec), (0x104c5, 0x104ed), (0x104c6, 0x104ee), (0x104c7, 0x104ef),
  (0x104c8, 0x104f0), (0x104c9, 0x104f1), (0x104ca, 0x104f2), (0x104cb, 0x104f3), (0x104cc, 0x104f4),
  (0x104cd, 0x104f5), (0x104ce, 0x104f6), (0x104cf, 0x104f7), (0x104d0, 0x104f8), (0x104d1, 0x104f9),
  (0x104d2, 0x104fa), (0x104d3, 0x104fb), (0x10570, 0x10597), (0x10571, 0x10598), (0x10572, 0x10599),
  (0x10573, 0x1059a), (0x10574, 0x1059b), (0x10575, 0x1059c), (0x10576, 0x1059d), (0x10577, 0x1059e),
  (0x10578, 0x1059f), (0x10579, 0x105a0), (0x1057a, 0x105a1), (0x1057c, 0x105a3), (0x1057d, 0x105a4),
  (0x1057e, 0x105a5), (0x1057f, 0x105a6), (0x10580, 0x105a7), (0x10581, 0x105a8), (0x10582, 0x105a9),
  (0x10583, 0x105aa), (0x10584, 0x105ab), (0x10585, 0x105ac), (0x10586, 0x105ad), (0x10587, 0x105ae),
  (0x10588, 0x105af), (0x10589, 0x105b0), (0x1058a, 0x105b1), (0x1058c, 0x105b3), (0x1058d, 0x105b4),
  (0x1058e, 0x105b5), (0x1058f, 0x105b6), (0x10590, 0x105b7), (0x10591, 0x105b8), (0x10592, 0x105b9),
  (0x10594, 0x105bb), (0x10595, 0x105bc), (0x10c80, 0x10cc0), (0x10c81, 0x10cc1), (0x10c82, 0x10cc2),
  (0x10c83, 0x10cc3), (0x10c84, 0x10cc4), (0x10c85, 0x10cc5), (0x10c86, 0x10cc6), (0x10c87, 0x10cc7),
  (0x10c88, 0x10cc8), (0x10c89, 0x10cc9), (0x10c8a, 0x10cca), (0x10c8b, 0x10ccb), (0x10c8c, 0x10ccc),
  (0x10c8d, 0x10ccd), (0x10c8e, 0x10cce), (0x10c8f, 0x10ccf), (0x10c90, 0x10cd0), (0x10c91, 0x10cd1),
  (0x10c92, 0x10cd2), (0x10c93, 0x10cd3), (0x10c94, 0x10cd4), (0x10c95, 0x10cd5), (0x10c96, 0x10cd6),
  (0x10c97, 0x10cd7), (0x10c98, 0x10cd8), (0x10c99, 0x10cd9), (0x10c9a, 0x10cda), (0x10c9b, 0x10cdb),
  (0x10c9c, 0x10cdc), (0x10c9d, 0x10cdd), (0x10c9e, 0x10cde), (0x10c9f, 0x10cdf), (0x10ca0, 0x10ce0),
  (0x10ca1, 0x10ce1), (0x10ca2, 0x10ce2), (0x10ca3, 0x10ce3), (0x10ca4, 0x10ce4), (0x10ca5, 0x10ce5),
  (0x10ca6, 0x10ce6), (0x10ca7, 0x10ce7), (0x10ca8, 0x10ce8), (0x10ca9, 0x10ce9), (0x10caa, 0x10cea),
  (0x10cab, 0x10ceb), (0x10cac, 0x10cec), (0x10cad, 0x10ced), (0x10cae, 0x10cee), (0x10caf, 0x10cef),
  (0x10cb0, 0x10cf0), (0x10cb1, 0x10cf1), (0x10cb2, 0x10cf2), (0x1109a, 0x11099), (0x1109c, 0x1109b),
  (0x110ab, 0x110a5), (0x114bb, 0x114b9), (0x118a0, 0x118c0), (0x118a1, 0x118c1), (0x118a2, 0x118c2),
  (0x118a3, 0x118c3), (0x118a4, 0x118c4), (0x118a5, 0x118c5), (0x118a6, 0x118c6), (0x118a7, 0x118c7),
  (0x118a8, 0x118c8), (0x118a9, 0x118c9), (0x118aa, 0x118ca), (0x118ab, 0x118cb), (0x118ac, 0x118cc),
  (0x118ad, 0x118cd), (0x118ae, 0x118ce), (0x118af, 0x118cf), (0x118b0, 0x118d0), (0x118b1, 0x118d1),
  (0x118b2, 0x118d2), (0x118b3, 0x118d3), (0x118b4, 0x118d4), (0x118b5, 0x118d5), (0x118b6, 0x118d6),
  (0x118b7, 0x118d7), (0x118b8, 0x118d8), (0x118b9, 0x118d9), (0x118ba, 0x118da), (0x118bb, 0x118db),
  (0x118bc, 0x118dc), (0x118bd, 0x118dd), (0x118be, 0x118de), (0x118bf, 0x118df), (0x16e40, 0x16e60),
  (0x16e41, 0x16e61), (0x16e42, 0x16e62), (0x16e43, 0x16e63), (0x16e44, 0x16e64), (0x16e45, 0x16e65),
  (0x16e46, 0x16e66), (0x16e47, 0x16e67), (0x16e48, 0x16e68), (0x16e49, 0x16e69), (0x16e4a, 0x16e6a),
  (0x16e4b, 0x16e6b), (0x16e4c, 0x16e6c), (0x16e4d, 0x16e6d), (0x16e4e, 0x16e6e), (0x16e4f, 0x16e6f),
  (0x16e50, 0x16e70), (0x16e51, 0x16e71), (0x16e52, 0x16e72), (0x16e53, 0x16e73), (0x16e54, 0x16e74),
  (0x16e55, 0x16e75), (0x16e56, 0x16e76), (0x16e57, 0x16e77), (0x16e58, 0x16e78), (0x16e59, 0x16e79),
  (0x16e5a, 0x16e7a), (0x16e5b, 0x16e7b), (0x16e5c, 0x16e7c), (0x16e5d, 0x16e7d), (0x16e5e, 0x16e7e),
  (0x16e5f, 0x16e7f), (0x1e900, 0x1e922), (0x1e901, 0x1e923), (0x1e902, 0x1e924), (0x1e903, 0x1e925),
  (0x1e904, 0x1e926), (0x1e905, 0x1e927), (0x1e906, 0x1e928), (0x1e907, 0x1e929), (0x1e908, 0x1e92a),
  (0x1e909, 0x1e92b), (0x1e90a, 0x1e92c), (0x1e90b, 0x1e92d), (0x1e90c, 0x1e92e), (0x1e90d, 0x1e92f),
  (0x1e90e, 0x1e930), (0x1e90f, 0x1e931), (0x1e910, 0x1e932), (0x1e911, 0x1e933), (0x1e912, 0x1e934),
  (0x1e913, 0x1e935), (0x1e914, 0x1e936), (0x1e915, 0x1e937), (0x1e916, 0x1e938), (0x1e917, 0x1e939),
  (0x1e918, 0x1e93a), (0x1e919, 0x1e93b), (0x1e91a, 0x1e93c), (0x1e91b, 0x1e93d), (0x1e91c, 0x1e93e),
  (0x1e91d, 0x1e93f), (0x1e91e, 0x1e940), (0x1e91f, 0x1e941), (0x1e920, 0x1e942), (0x1e921, 0x1e943),
  (0x2f800, 0x4e3d), (0x2f801, 0x4e38), (0x2f802, 0x4e41), (0x2f803, 0x20122), (0x2f804, 0x4f60),
  (0x2f805, 0x4fae), (0x2f806, 0x4fbb), (0x2f807, 0x5002), (0x2f808, 0x507a), (0x2f809, 0x5099),
  (0x2f80a, 0x50e7), (0x2f80b, 0x50cf), (0x2f80c, 0x349e), (0x2f80d, 0x2063a), (0x2f80e, 0x514d),
  (0x2f80f, 0x5154), (0x2f810, 0x5164), (0x2f811, 0x5177), (0x2f812, 0x2051c), (0x2f813, 0x34b9),
  (0x2f814, 0x5167), (0x2f815, 0x518d), (0x2f816, 0x2054b), (0x2f817, 0x5197), (0x2f818, 0x51a4),
  (0x2f819, 0x4ecc), (0x2f81a, 0x51ac), (0x2f81b, 0x51b5), (0x2f81c, 0x291df), (0x2f81d, 0x51f5),
  (0x2f81e, 0x5203), (0x2f81f, 0x34df), (0x2f820, 0x523b), (0x2f821, 0x5246), (0x2f822, 0x5272),
  (0x2f823, 0x5277), (0x2f824, 0x3515), (0x2f825, 0x52c7), (0x2f826, 0x52c9), (0x2f827, 0x52e4),
  (0x2f828, 0x52fa), (0x2f829, 0x5305), (0x2f82a, 0x5306), (0x2f82b, 0x5317), (0x2f82c, 0x5349),
  (0x2f82d, 0x5351), (0x2f82e, 0x535a), (0x2f82f, 0x5373), (0x2f830, 0x537d), (0x2f831, 0x537f),
  (0x2f832, 0x537f), (0x2f833, 0x537f), (0x2f834, 0x20a2c), (0x2f835, 0x7070), (0x2f836, 0x53ca),
  (0x2f837, 0x53df), (0x2f838, 0x20b63), (0x2f839, 0x53eb), (0x2f83a, 0x53f1), (0x2f83b, 0x5406),
  (0x2f83c, 0x549e), (0x2f83d, 0x5438), (0x2f83e, 0x5448), (0x2f83f, 0x5468), (0x2f840, 0x54a2),
  (0x2f841, 0x54f6), (0x2f842, 0x5510), (0x2f843, 0x5553), (0x2f844, 0x5563), (0x2f845, 0x5584),
  (0x2f846, 0x5584), (0x2f847, 0x5599), (0x2f848, 0x55ab), (0x2f849, 0x55b3), (0x2f84a, 0x55c2),
  (0x2f84b, 0x5716), (0x2f84c, 0x5606), (0x2f84d, 0x5717), (0x2f84e, 0x5651), (0x2f84f, 0x5674),
  (0x2f850, 0x5207), (0x2f851, 0x58ee), (0x2f852, 0x57ce), (0x2f853, 0x57f4), (0x2f854, 0x580d),
  (0x2f855, 0x578b), (0x2f856, 0x5832), (0x2f857, 0x5831), (0x2f858, 0x58ac), (0x2f859, 0x214e4),
  (0x2f85a, 0x58f2), (0x2f85b, 0x58f7), (0x2f85c, 0x5906), (0x2f85d, 0x591a), (0x2f85e, 0x5922),
  (0x2f85f, 0x5962), (0x2f860, 0x216a8), (0x2f861, 0x216ea), (0x2f862, 0x59ec), (0x2f863, 0x5a1b),
  (0x2f864, 0x5a27), (0x2f865, 0x59d8), (0x2f866, 0x5a66), (0x2f867, 0x36ee), (0x2f868, 0x36fc),
  (0x2f869, 0x5b08), (0x2f86a, 0x5b3e), (0x2f86b, 0x5b3e), (0x2f86c, 0x219c8), (0x2f86d, 0x5bc3),
  (0x2f86e, 0x5bd8), (0x2f86f, 0x5be7), (0x2f870, 0x5bf3), (0x2f871, 0x21b18), (0x2f872, 0x5bff),
  (0x2f873, 0x5c06), (0x2f874, 0x5f53), (0x2f875, 0x5c22), (0x2f876, 0x3781), (0x2f877, 0x5c60),
  (0x2f878, 0x5c6e), (0x2f879, 0x5cc0), (0x2f87a, 0x5c8d), (0x2f87b, 0x21de4), (0x2f87c, 0x5d43),
  (0x2f87d, 0x21de6), (0x2f87e, 0x5d6e), (0x2f87f, 0x5d6b), (0x2f880, 0x5d7c), (0x2f881, 0x5de1),
  (0x2f882, 0x5de2), (0x2f883, 0x382f), (0x2f884, 0x5dfd), (0x2f885, 0x5e28), (0x2f886, 0x5e3d),
  (0x2f887, 0x5e69), (0x2f888, 0x3862), (0x2f889, 0x22183), (0x2f88a, 0x387c), (0x2f88b, 0x5eb0),
  (0x2f88c, 0x5eb3), (0x2f88d, 0x5eb6), (0x2f88e, 0x5eca), (0x2f88f, 0x2a392), (0x2f890, 0x5efe),
  (0x2f891, 0x22331), (0x2f892, 0x22331), (0x2f893, 0x8201), (0x2f894, 0x5f22), (0x2f895, 0x5f22),
  (0x2f896, 0x38c7), (0x2f897, 0x232b8), (0x2f898, 0x261da), (0x2f899, 0x5f62), (0x2f89a, 0x5f6b),
  (0x2f89b, 0x38e3), (0x2f89c, 0x5f9a), (0x2f89d, 0x5fcd), (0x2f89e, 0x5fd7), (0x2f89f, 0x5ff9),
  (0x2f8a0, 0x6081), (0x2f8a1, 0x393a), (0x2f8a2, 0x391c), (0x2f8a3, 0x6094), (0x2f8a4, 0x226d4),
  (0x2f8a5, 0x60c7), (0x2f8a6, 0x6148), (0x2f8a7, 0x614c), (0x2f8a8, 0x614e), (0x2f8a9, 0x614c),
  (0x2f8aa, 0x617a), (0x2f8ab, 0x618e), (0x2f8ac, 0x61b2), (0x2f8ad, 0x61a4), (0x2f8ae, 0x61af),
  (0x2f8af, 0x61de), (0x2f8b0, 0x61f2), (0x2f8b1, 0x61f6), (0x2f8b2, 0x6210), (0x2f8b3, 0x621b),
  (0x2f8b4, 0x625d), (0x2f8b5, 0x62b1), (0x2f8b6, 0x62d4), (0x2f8b7, 0x6350), (0x2f8b8, 0x22b0c),
  (0x2f8b9, 0x633d), (0x2f8ba, 0x62fc), (0x2f8bb, 0x6368), (0x2f8bc, 0x6383), (0x2f8bd, 0x63e4),
  (0x2f8be, 0x22bf1), (0x2f8bf, 0x6422), (0x2f8c0, 0x63c5), (0x2f8c1, 0x63a9), (0x2f8c2, 0x3a2e),
  (0x2f8c3, 0x6469), (0x2f8c4, 0x647e), (0x2f8c5, 0x649d), (0x2f8c6, 0x6477), (0x2f8c7, 0x3a6c),
  (0x2f8c8, 0x654f), (0x2f8c9, 0x656c), (0x2f8ca, 0x2300a), (0x2f8cb, 0x65e3), (0x2f8cc, 0x66f8),
  (0x2f8cd, 0x6649), (0x2f8ce, 0x3b19), (0x2f8cf, 0x6691), (0x2f8d0, 0x3b08), (0x2f8d1, 0x3ae4),
  (0x2f8d2, 0x5192), (0x2f8d3, 0x5195), (0x2f8d4, 0x6700), (0x2f8d5, 0x669c), (0x2f8d6, 0x80ad),
  (0x2f8d7, 0x43d9), (0x2f8d8, 0x6717), (0x2f8d9, 0x671b), (0x2f8da, 0x6721), (0x2f8db, 0x675e),
  (0x2f8dc, 0x6753), (0x2f8dd, 0x233c3), (0x2f8de, 0x3b49), (0x2f8df, 0x67fa), (0x2f8e0, 0x6785),
  (0x2f8e1, 0x6852), (0x2f8e2, 0x6885), (0x2f8e3, 0x2346d), (0x2f8e4, 0x688e), (0x2f8e5, 0x681f),
  (0x2f8e6, 0x6914), (0x2f8e7, 0x3b9d), (0x2f8e8, 0x6942), (0x2f8e9, 0x69a3), (0x2f8ea, 0x69ea),
  (0x2f8eb, 0x6aa8), (0x2f8ec, 0x236a3), (0x2f8ed, 0x6adb), (0x2f8ee, 0x3c18), (0x2f8ef, 0x6b21),
  (0x2f8f0, 0x238a7), (0x2f8f1, 0x6b54), (0x2f8f2, 0x3c4e), (0x2f8f3, 0x6b72), (0x2f8f4, 0x6b9f),
  (0x2f8f5, 0x6bba), (0x2f8f6, 0x6bbb), (0x2f8f7, 0x23a8d), (0x2f8f8, 0x21d0b), (0x2f8f9, 0x23afa),
  (0x2f8fa, 0x6c4e), (0x2f8fb, 0x23cbc), (0x2f8fc, 0x6cbf), (0x2f8fd, 0x6ccd), (0x2f8fe, 0x6c67),
  (0x2f8ff, 0x6d16), (0x2f900, 0x6d3e), (0x2f901, 0x6d77), (0x2f902, 0x6d41), (0x2f903, 0x6d69),
  (0x2f904, 0x6d78), (0x2f905, 0x6d85), (0x2f906, 0x23d1e), (0x2f907, 0x6d34), (0x2f908, 0x6e2f),
  (0x2f909, 0x6e6e), (0x2f90a, 0x3d33), (0x2f90b, 0x6ecb), (0x2f90c, 0x6ec7), (0x2f90d, 0x23ed1),
  (0x2f90e, 0x6df9), (0x2f90f, 0x6f6e), (0x2f910, 0x23f5e), (0x2f911, 0x23f8e), (0x2f912, 0x6fc6),
  (0x2f913, 0x7039), (0x2f914, 0x701e), (0x2f915, 0x701b), (0x2f916, 0x3d96), (0x2f917, 0x704a),
  (0x2f918, 0x707d), (0x2f919, 0x7077), (0x2f91a, 0x70ad), (0x2f91b, 0x20525), (0x2f91c, 0x7145),
  (0x2f91d, 0x24263), (0x2f91e, 0x719c), (0x2f91f, 0x243ab), (0x2f920, 0x7228), (0x2f921, 0x7235),
  (0x2f922, 0x7250), (0x2f923, 0x24608), (0x2f924, 0x7280), (0x2f925, 0x7295), (0x2f926, 0x24735),
  (0x2f927, 0x24814), (0x2f928, 0x737a), (0x2f929, 0x738b), (0x2f92a, 0x3eac), (0x2f92b, 0x73a5),
  (0x2f92c, 0x3eb8), (0x2f92d, 0x3eb8), (0x2f92e, 0x7447), (0x2f92f, 0x745c), (0x2f930, 0x7471),
  (0x2f931, 0x7485), (0x2f932, 0x74ca), (0x2f933, 0x3f1b), (0x2f934, 0x7524), (0x2f935, 0x24c36),
  (0x2f936, 0x753e), (0x2f937, 0x24c92), (0x2f938, 0x7570), (0x2f939, 0x2219f), (0x2f93a, 0x7610),
  (0x2f93b, 0x24fa1), (0x2f93c, 0x24fb8), (0x2f93d, 0x25044), (0x2f93e, 0x3ffc), (0x2f93f, 0x4008),
  (0x2f940, 0x76f4), (0x2f941, 0x250f3), (0x2f942, 0x250f2), (0x2f943, 0x25119), (0x2f944, 0x25133),
  (0x2f945, 0x771e), (0x2f946, 0x771f), (0x2f947, 0x771f), (0x2f948, 0x774a), (0x2f949, 0x4039),
  (0x2f94a, 0x778b), (0x2f94b, 0x4046), (0x2f94c, 0x4096), (0x2f94d, 0x2541d), (0x2f94e, 0x784e),
  (0x2f94f, 0x788c), (0x2f950, 0x78cc), (0x2f951, 0x40e3), (0x2f952, 0x25626), (0x2f953, 0x7956),
  (0x2f954, 0x2569a), (0x2f955, 0x256c5), (0x2f956, 0x798f), (0x2f957, 0x79eb), (0x2f958, 0x412f),
  (0x2f959, 0x7a40), (0x2f95a, 0x7a4a), (0x2f95b, 0x7a4f), (0x2f95c, 0x2597c), (0x2f95d, 0x25aa7),
  (0x2f95e, 0x25aa7), (0x2f95f, 0x7aee), (0x2f960, 0x4202), (0x2f961, 0x25bab), (0x2f962, 0x7bc6),
  (0x2f963, 0x7bc9), (0x2f964, 0x4227), (0x2f965, 0x25c80), (0x2f966, 0x7cd2), (0x2f967, 0x42a0),
  (0x2f968, 0x7ce8), (0x2f969, 0x7ce3), (0x2f96a, 0x7d00), (0x2f96b, 0x25f86), (0x2f96c, 0x7d63),
  (0x2f96d, 0x4301), (0x2f96e, 0x7dc7), (0x2f96f, 0x7e02), (0x2f970, 0x7e45), (0x2f971, 0x4334),
  (0x2f972, 0x26228), (0x2f973, 0x26247), (0x2f974, 0x4359), (0x2f975, 0x262d9), (0x2f976, 0x7f7a),
  (0x2f977, 0x2633e), (0x2f978, 0x7f95), (0x2f979, 0x7ffa), (0x2f97a, 0x8005), (0x2f97b, 0x264da),
  (0x2f97c, 0x26523), (0x2f97d, 0x8060), (0x2f97e, 0x265a8), (0x2f97f, 0x8070), (0x2f980, 0x2335f),
  (0x2f981, 0x43d5), (0x2f982, 0x80b2), (0x2f983, 0x8103), (0x2f984, 0x440b), (0x2f985, 0x813e),
  (0x2f986, 0x5ab5), (0x2f987, 0x267a7), (0x2f988, 0x267b5), (0x2f989, 0x23393), (0x2f98a, 0x2339c),
  (0x2f98b, 0x8201), (0x2f98c, 0x8204), (0x2f98d, 0x8f9e), (0x2f98e, 0x446b), (0x2f98f, 0x8291),
  (0x2f990, 0x828b), (0x2f991, 0x829d), (0x2f992, 0x52b3), (0x2f993, 0x82b1), (0x2f994, 0x82b3),
  (0x2f995, 0x82bd), (0x2f996, 0x82e6), (0x2f997, 0x26b3c), (0x2f998, 0x82e5), (0x2f999, 0x831d),
  (0x2f99a, 0x8363), (0x2f99b, 0x83ad), (0x2f99c, 0x8323), (0x2f99d, 0x83bd), (0x2f99e, 0x83e7),
  (0x2f99f, 0x8457), (0x2f9a0, 0x8353), (0x2f9a1, 0x83ca), (0x2f9a2, 0x83cc), (0x2f9a3, 0x83dc),
  (0x2f9a4, 0x26c36), (0x2f9a5, 0x26d6b), (0x2f9a6, 0x26cd5), (0x2f9a7, 0x452b), (0x2f9a8, 0x84f1),
  (0x2f9a9, 0x84f3), (0x2f9aa, 0x8516), (0x2f9ab, 0x273ca), (0x2f9ac, 0x8564), (0x2f9ad, 0x26f2c),
  (0x2f9ae, 0x455d), (0x2f9af, 0x4561), (0x2f9b0, 0x26fb1), (0x2f9b1, 0x270d2), (0x2f9b2, 0x456b),
  (0x2f9b3, 0x8650), (0x2f9b4, 0x865c), (0x2f9b5, 0x8667), (0x2f9b6, 0x8669), (0x2f9b7, 0x86a9),
  (0x2f9b8, 0x8688), (0x2f9b9, 0x870e), (0x2f9ba, 0x86e2), (0x2f9bb, 0x8779), (0x2f9bc, 0x8728),
  (0x2f9bd, 0x876b), (0x2f9be, 0x8786), (0x2f9bf, 0x45d7), (0x2f9c0, 0x87e1), (0x2f9c1, 0x8801),
  (0x2f9c2, 0x45f9), (0x2f9c3, 0x8860), (0x2f9c4, 0x8863), (0x2f9c5, 0x27667), (0x2f9c6, 0x88d7),
  (0x2f9c7, 0x88de), (0x2f9c8, 0x4635), (0x2f9c9, 0x88fa), (0x2f9ca, 0x34bb), (0x2f9cb, 0x278ae),
  (0x2f9cc, 0x27966), (0x2f9cd, 0x46be), (0x2f9ce, 0x46c7), (0x2f9cf, 0x8aa0), (0x2f9d0, 0x8aed),
  (0x2f9d1, 0x8b8a), (0x2f9d2, 0x8c55), (0x2f9d3, 0x27ca8), (0x2f9d4, 0x8cab), (0x2f9d5, 0x8cc1),
  (0x2f9d6, 0x8d1b), (0x2f9d7, 0x8d77), (0x2f9d8, 0x27f2f), (0x2f9d9, 0x20804), (0x2f9da, 0x8dcb),
  (0x2f9db, 0x8dbc), (0x2f9dc, 0x8df0), (0x2f9dd, 0x208de), (0x2f9de, 0x8ed4), (0x2f9df, 0x8f38),
  (0x2f9e0, 0x285d2), (0x2f9e1, 0x285ed), (0x2f9e2, 0x9094), (0x2f9e3, 0x90f1), (0x2f9e4, 0x9111),
  (0x2f9e5, 0x2872e), (0x2f9e6, 0x911b), (0x2f9e7, 0x9238), (0x2f9e8, 0x92d7), (0x2f9e9, 0x92d8),
  (0x2f9ea, 0x927c), (0x2f9eb, 0x93f9), (0x2f9ec, 0x9415), (0x2f9ed, 0x28bfa), (0x2f9ee, 0x958b),
  (0x2f9ef, 0x4995), (0x2f9f0, 0x95b7), (0x2f9f1, 0x28d77), (0x2f9f2, 0x49e6), (0x2f9f3, 0x96c3),
  (0x2f9f4, 0x5db2), (0x2f9f5, 0x9723), (0x2f9f6, 0x29145), (0x2f9f7, 0x2921a), (0x2f9f8, 0x4a6e),
  (0x2f9f9, 0x4a76), (0x2f9fa, 0x97e0), (0x2f9fb, 0x2940a), (0x2f9fc, 0x4ab2), (0x2f9fd, 0x29496),
  (0x2f9fe, 0x980b), (0x2f9ff, 0x980b), (0x2fa00, 0x9829), (0x2fa01, 0x295b6), (0x2fa02, 0x98e2),
  (0x2fa03, 0x4b33), (0x2fa04, 0x9929), (0x2fa05, 0x99a7), (0x2fa06, 0x99c2), (0x2fa07, 0x99fe),
  (0x2fa08, 0x4bce), (0x2fa09, 0x29b30), (0x2fa0a, 0x9b12), (0x2fa0b, 0x9c40), (0x2fa0c, 0x9cfd),
  (0x2fa0d, 0x4cce), (0x2fa0e, 0x4ced), (0x2fa0f, 0x9d67), (0x2fa10, 0x2a0ce), (0x2fa11, 0x4cf8),
  (0x2fa12, 0x2a105), (0x2fa13, 0x2a20e), (0x2fa14, 0x2a291), (0x2fa15, 0x9ebb), (0x2fa16, 0x4d56),
  (0x2fa17, 0x9ef9), (0x2fa18, 0x9efe), (0x2fa19, 0x9f05), (0x2fa1a, 0x9f0f), (0x2fa1b, 0x9f16),
  (0x2fa1c, 0x9f3b), (0x2fa1d, 0x2a600)]

/-- The per-character fold realising `utf8mb4_unicode_ci` equality: ASCII
letters are lowercased directly, characters above U+007F are mapped through
`ciFoldPairs`. -/
def ciFoldChar (c : Char) : Char :=
  if c.toNat ≤ 0x7F then c.toLower
  else
    match ciFoldPairs.lookup c.toNat with
    | some n => Char.ofNat n
    | none => c

/-- Modelled from the schema: every table is created with `COLLATE
utf8mb4_unicode_ci` (Finalproject.py lines 198-274), under which MySQL
compares stored strings case- and accent-insensitively (e.g. 'Alice' =
'alice', 'é' = 'e', 'Ω' = 'ω').  The collation's equivalence is modelled as
equality after the per-character fold `ciFoldChar`.  UCA weight expansions
(such as 'ß' weighing as "ss") and weight-ignorable characters are not
modelled; no theorem below depends on them. -/
def mysqlCiEq (a b : String) : Bool :=
  a.data.map ciFoldChar = b.data.map ciFoldChar

/-- Digits-only parse of a character list into a number; `none` if empty or
any character is not an ASCII digit. -/
def digitsToNat (l : List Char) : Option Nat :=
  if l = [] then none
  else if l.all Char.isDigit then
    some (l.foldl (fun acc c => acc * 10 + (c.toNat - 48)) 0)
  else none

/-- Models Python `int(str)`: strips whitespace, accepts an optional sign
followed by ASCII digits.  (Underscore digit separators and non-ASCII digits
accepted by CPython are not modelled; no theorem below depends on them.) -/
def pyParseInt (s : String) : Option Int :=
  match (pyStrip s).data with
  | '-' :: rest => (digitsToNat rest).map (fun n => -(n : Int))
  | '+' :: rest => (digitsToNat rest).map (fun n => (n : Int))
  | l => (digitsToNat l).map (fun n => (n : Int))

/-- `Validator.validate_username` (Finalproject.py lines 57-74). -/
def Validator.validate_username (username : String) : Except Err String :=
  if pyStrip username = "" then
    .error (.validation "Username cannot be empty")
  else
    let u := pyStrip username
    if u.length < 3 then
      .error (.validation "Username must be at least 3 characters long")
    else if u.length > 50 then
      .error (.validation "Username cannot exceed 50 characters")
    else if ¬ (u.data.all fun c => pyIsAlnum c || c = '_' || c = '-') then
      .error (.validation "Username can only contain letters, numbers, underscores, and hyphens")
    else
      .ok u

/-- `Validator.validate_password` (lines 76-88). -/
def Validator.validate_password (password : String) : Except Err String :=
  if password = "" then
    .error (.validation "Password cannot be empty")
  else if password.length < 6 then
    .error (.validation "Password must be at least 6 characters long")
  else if password.length > 100 then
    .error (.validation "Password cannot exceed 100 characters")
  else
    .ok password

/-- `Validator.validate_recipe_title` (lines 90-101). -/
def Validator.validate_recipe_title (title : String) : Except Err String :=
  if pyStrip title = "" then
    .error (.validation "Recipe title cannot be empty")
  else
    let t := pyStrip title
    if t.length > 200 then
      .error (.validation "Recipe title cannot exceed 200 characters")
    else
      .ok t

/-- `Validator.validate_instructions` (lines 103-114). -/
def Validator.validate_instructions (instructions : String) : Except Err String :=
  if pyStrip instructions = "" then
    .error (.validation "Instructions cannot be empty")
  else
    let i := pyStrip instructions
    if i.length > 65535 then
      .error (.validation "Instructions are too long (maximum 65,535 characters)")
    else
      .ok i

/-- `Validator.validate_prep_time` (lines 116-130): parse as int, require
`0 < t ≤ 1440`. -/
def Validator.validate_prep_time (prep_time : String) : Except Err Int :=
  if pyStrip prep_time = "" then
    .error (.validation "Preparation time cannot be empty")
  else
    match pyParseInt prep_time with
    | none => .error (.validation "Preparation time must be a valid number")
    | some t =>
      if t ≤ 0 then .error (.validation "Preparation time must be a positive number")
      else if t > 1440 then
        .error (.validation "Preparation time cannot exceed 24 hours (1440 minutes)")
      else .ok t

/-- `Validator.validate_ingredient` (lines 132-147): strip both, require the
ingredient non-empty and at most 100 chars, the quantity at most 50 chars. -/
def Validator.validate_ingredient (ingredient quantity : String) :
    Except Err (String × String) :=
  let i := pyStrip ingredient
  let q := pyStrip quantity
  if i = "" then
    .error (.validation "Ingredient name cannot be empty")
  else if i.length > 100 then
    .error (.validation "Ingredient name is too long (maximum 100 characters)")
  else if q.length > 50 then
    .error (.validation "Quantity description is too long (maximum 50 characters)")
  else
    .ok (i, q)

/-- Modelled from the spec: the credential digest (`hashlib.sha256` hex digest
in the source) is consumed as an opaque one-way function whose only used
property is exact equality; modelled as an injective tagging function. -/
def sha256 (s : String) : String := "sha256#" ++ s

/-- Row of the `users` table. -/
structure UserRow where
  id : Nat
  username : String
  password_hash : String
  role : String
  created_at : Nat
  last_login : Option Nat
  recipe_count : Int
deriving DecidableEq, Repr

/-- Row of the `recipes` table. -/
structure RecipeRow where
  id : Nat
  title : String
  instructions : String
  views : Nat
  prep_time : Int
  created_by : String
  created_at : Nat
  updated_at : Option Nat
  status : RStatus
deriving DecidableEq, Repr

/-- Row of the `categories` table. -/
structure CategoryRow where
  id : Nat
  name : String
  recipe_count : Int
deriving DecidableEq, Repr

/-- Row of the `recipe_ingredients` table. -/
structure IngredientRow where
  id : Nat
  recipe_id : Nat
  ingredient : String
  quantity : String
deriving DecidableEq, Repr

/-- Row of the `recipe_events` table (`recipe_id` is nullable). -/
structure EventRow where
  id : Nat
  recipe_id : Option Nat
  username : String
  event_type : EType
  event_time : Nat
deriving DecidableEq, Repr

/-- Row of the `user_recipe_views` table. -/
structure UserViewRow where
  id : Nat
  username : String
  recipe_id : Nat
  view_count : Nat
  last_viewed : Nat
deriving DecidableEq, Repr

/-- The whole relational store: one list of rows per table (in insertion
order, as MySQL returns them for unordered queries on these small tables),
plus the auto-increment counter of each table. -/
structure DB where
  users : List UserRow
  recipes : List RecipeRow
  categories : List CategoryRow
  recipe_categories : List (Nat × Nat)
  recipe_ingredients : List IngredientRow
  recipe_events : List EventRow
  user_recipe_views : List UserViewRow
  nextUserId : Nat
  nextRecipeId : Nat
  nextCategoryId : Nat
  nextIngredientId : Nat
  nextEventId : Nat
  nextUserViewId : Nat
deriving DecidableEq, Repr

/-- The freshly provisioned store: empty tables, auto-increment counters at 1. -/
def emptyDb : DB :=
  ⟨[], [], [], [], [], [], [], 1, 1, 1, 1, 1, 1⟩

/-- `SELECT ... FROM recipes WHERE id=%s` membership test. -/
def recipeExists (db : DB) (rid : Nat) : Bool :=
  db.recipes.any fun r => r.id = rid

/-- `SELECT id FROM categories WHERE id = %s` membership test. -/
def categoryExists (db : DB) (cid : Nat) : Bool :=
  db.categories.any fun c => c.id = cid

/-- First `users` row with the given username. -/
def findUserRow (db : DB) (u : String) : Option UserRow :=
  db.users.find? fun x => x.username = u

/-- First `recipes` row with the given id. -/
def findRecipeRow (db : DB) (rid : Nat) : Option RecipeRow :=
  db.recipes.find? fun r => r.id = rid

/-- First `categories` row with the given id. -/
def findCategoryRow (db : DB) (cid : Nat) : Option CategoryRow :=
  db.categories.find? fun c => c.id = cid

/-- First `user_recipe_views` row for the `(username, recipe_id)` pair.
The username comparison of the table's WHERE clauses and unique key runs
under `utf8mb4_unicode_ci` (`mysqlCiEq`). -/
def findUserView (db : DB) (u : String) (rid : Nat) : Option UserViewRow :=
  db.user_recipe_views.find? fun v => mysqlCiEq v.username u ∧ v.recipe_id = rid

/-- `Database.log_recipe_event` (lines 310-318): INSERT into `recipe_events`.
The insert carries a foreign key on `recipe_id`; when the referenced recipe
row does not exist the statement fails with a database error, which
`log_recipe_event` swallows, so no event row is written in that case. -/
def Database.log_recipe_event (db : DB) (rid : Nat) (username : String)
    (t : EType) (now : Nat) : DB :=
  if recipeExists db rid then
    { db with
      recipe_events :=
        db.recipe_events ++ [⟨db.nextEventId, some rid, username, t, now⟩],
      nextEventId := db.nextEventId + 1 }
  else db

/-- `Database.register_user` (lines 321-356): validation errors and the
duplicate-username `DatabaseError` are re-raised; on success the user row is
inserted with the digest of the password and the requested role, and the
function returns `True` (the truthiness check on the new row id).  The
duplicate check is the SELECT `WHERE username=%s`, whose comparison runs
under the schema's `utf8mb4_unicode_ci` collation (`mysqlCiEq`). -/
def Database.register_user (db : DB) (username password role : String)
    (now : Nat) : Except Err (Bool × DB) :=
  match Validator.validate_username username, Validator.validate_password password with
  | .ok u, .ok p =>
    if db.users.any fun x => mysqlCiEq x.username u then
      .error (.database "Username already exists")
    else
      .ok (true,
        { db with
          users := db.users ++ [⟨db.nextUserId, u, sha256 p, role, now, none, 0⟩],
          nextUserId := db.nextUserId + 1 })
  | .error e, _ => .error e
  | _, .error e => .error e

/-- `Database.login_user` (lines 358-393): `None` on validation failure,
unknown user, or digest mismatch; on success updates `last_login` and
returns the stored role. -/
def Database.login_user (db : DB) (username password : String) (now : Nat) :
    Option String × DB :=
  match Validator.validate_username username, Validator.validate_password password with
  | .ok u, .ok p =>
    match db.users.find? (fun x => x.username = u) with
    | none => (none, db)
    | some row =>
      if row.password_hash = sha256 p then
        (some row.role,
         { db with
           users := db.users.map fun x =>
             if x.username = u then { x with last_login := some now } else x })
      else (none, db)
  | _, _ => (none, db)

/-- `Database.add_category` (lines 396-427).  A blank name raises
`ValidationError`, which the function's own `except Exception` swallows,
returning `None`; an existing trimmed name returns the existing id; otherwise
a new row is inserted with `recipe_count` defaulting to 0.  The existence
check is the SELECT `WHERE name = %s`, whose comparison runs under the
schema's `utf8mb4_unicode_ci` collation (`mysqlCiEq`), so case- and
accent-variants of a stored name match it. -/
def Database.add_category (db : DB) (name : String) : Option Nat × DB :=
  if pyStrip name = "" then (none, db)
  else
    let n := pyStrip name
    match db.categories.find? (fun c => mysqlCiEq c.name n) with
    | some c => (some c.id, db)
    | none =>
      (some db.nextCategoryId,
       { db with
         categories := db.categories ++ [⟨db.nextCategoryId, n, 0⟩],
         nextCategoryId := db.nextCategoryId + 1 })

/-- The prep-time handling shared by `add_recipe` and `update_recipe`
(lines 469 and 549): `Validator.validate_prep_time(str(prep_time)) if
prep_time else 0` — a falsy (zero) prep time skips validation. -/
def Database.prepOf (prep_time : Int) : Except Err Int :=
  if prep_time ≠ 0 then Validator.validate_prep_time (toString prep_time)
  else .ok 0

/-- One iteration of the category loop of `Database.add_recipe`
(lines 488-519): check the category exists, insert the junction row and
increment the category's count; a duplicate-key failure of the junction
insert is caught by the per-item `except`, skipping the count update too. -/
def addRecipeCatStep (rid : Nat) (d : DB) (cid : Nat) : DB :=
  if categoryExists d cid then
    if d.recipe_categories.any (fun p => p.1 = rid ∧ p.2 = cid) then d
    else
      { d with
        recipe_categories := d.recipe_categories ++ [(rid, cid)],
        categories := d.categories.map fun c =>
          if c.id = cid then { c with recipe_count := c.recipe_count + 1 } else c }
  else d

/-- One iteration of the ingredient loop of `Database.add_recipe`
(lines 523-533): validate the pair, insert on success, skip on failure. -/
def addRecipeIngStep (rid : Nat) (d : DB) (iq : String × String) : DB :=
  match Validator.validate_ingredient iq.1 iq.2 with
  | .ok (i, q) =>
    { d with
      recipe_ingredients :=
        d.recipe_ingredients ++ [⟨d.nextIngredientId, rid, i, q⟩],
      nextIngredientId := d.nextIngredientId + 1 }
  | .error _ => d

/-- `Database.add_recipe` (lines 465-542): validate title, instructions and
prep time (failures re-raised); insert the recipe row (status `active`,
views 0); increment the author's `recipe_count`; append a `create` event;
then run the continue-on-error category and ingredient loops.  There is no
check that at least one ingredient survives. -/
def Database.add_recipe (db : DB) (title instructions created_by : String)
    (category_ids : List Nat) (ingredients : List (String × String))
    (prep_time : Int) (now : Nat) : Except Err (Nat × DB) :=
  match Validator.validate_recipe_title title,
        Validator.validate_instructions instructions,
        Database.prepOf prep_time with
  | .error e, _, _ => .error e
  | _, .error e, _ => .error e
  | _, _, .error e => .error e
  | .ok t, .ok ins, .ok pt =>
  let rid := db.nextRecipeId
  let db1 : DB :=
    { db with
      recipes := db.recipes ++ [⟨rid, t, ins, 0, pt, created_by, now, none, .active⟩],
      nextRecipeId := db.nextRecipeId + 1 }
  let db2 : DB :=
    { db1 with
      users := db1.users.map fun u =>
        if u.username = created_by then { u with recipe_count := u.recipe_count + 1 }
        else u }
  let db3 := Database.log_recipe_event db2 rid created_by .create now
  let db4 := category_ids.foldl (addRecipeCatStep rid) db3
  let db5 := ingredients.foldl (addRecipeIngStep rid) db4
  .ok (rid, db5)

/-- One iteration of the category loop of `Database.update_recipe`
(lines 570-591): check the category exists, then insert the junction row.
The junction insert carries foreign keys on both sides and a composite
primary key, so it fails (and is skipped by the per-item `except`) when the
recipe row does not exist or the pair is already present.  Unlike
`add_recipe`, no category count is updated. -/
def updateCatStep (rid : Nat) (d : DB) (cid : Nat) : DB :=
  if categoryExists d cid then
    if recipeExists d rid then
      if d.recipe_categories.any (fun p => p.1 = rid ∧ p.2 = cid) then d
      else { d with recipe_categories := d.recipe_categories ++ [(rid, cid)] }
    else d
  else d

/-- One iteration of the ingredient loop of `Database.update_recipe`
(lines 601-611): validate the pair and insert; the insert carries a foreign
key on `recipe_id`, so it fails (and is skipped) when the recipe row does
not exist. -/
def updateIngStep (rid : Nat) (d : DB) (iq : String × String) : DB :=
  match Validator.validate_ingredient iq.1 iq.2 with
  | .ok (i, q) =>
    if recipeExists d rid then
      { d with
        recipe_ingredients :=
          d.recipe_ingredients ++ [⟨d.nextIngredientId, rid, i, q⟩],
        nextIngredientId := d.nextIngredientId + 1 }
    else d
  | .error _ => d

/-- `Database.update_recipe` (lines 544-623): validate (on failure return
`False` with nothing written); rewrite the mutable recipe fields for the
given id (a no-op UPDATE if no row matches); if `category_ids` is provided,
delete all junction rows of this recipe and re-insert surviving ones; if
`ingredients` is provided, replace the ingredient set the same way; append
an `edit` event attributed to the literal username `"user"`; return `True`.
No existence or status check is made on the target id. -/
def Database.update_recipe (db : DB) (recipe_id : Nat)
    (title instructions : String) (category_ids : Option (List Nat))
    (ingredients : Option (List (String × String))) (prep_time : Int)
    (now : Nat) : Bool × DB :=
  match Validator.validate_recipe_title title,
        Validator.validate_instructions instructions,
        Database.prepOf prep_time with
  | .ok t, .ok ins, .ok pt =>
    let db1 : DB :=
      { db with
        recipes := db.recipes.map fun r =>
          if r.id = recipe_id then
            { r with title := t, instructions := ins, prep_time := pt,
                     updated_at := some now }
          else r }
    let db2 : DB :=
      match category_ids with
      | none => db1
      | some cids =>
        let dbx : DB :=
          { db1 with
            recipe_categories :=
              db1.recipe_categories.filter fun p => p.1 ≠ recipe_id }
        cids.foldl (updateCatStep recipe_id) dbx
    let db3 : DB :=
      match ingredients with
      | none => db2
      | some ings =>
        let dby : DB :=
          { db2 with
            recipe_ingredients :=
              db2.recipe_ingredients.filter fun x => x.recipe_id ≠ recipe_id }
        ings.foldl (updateIngStep recipe_id) dby
    (true, Database.log_recipe_event db3 recipe_id "user" .edit now)
  | _, _, _ => (false, db)

/-- View of a recipe as returned by `Database.get_recipe`: the row, its
categories (id and name, in junction-table order) and its ingredients (in
insertion order). -/
structure RecipeView where
  meta : RecipeRow
  categories : List (Nat × String)
  ingredients : List (String × String)
deriving DecidableEq, Repr

/-- `Database.get_recipe` (lines 663-691): the recipe row only if
`status='active'` (otherwise `None`), plus its category and ingredient
lists. -/
def Database.get_recipe (db : DB) (rid : Nat) : Option RecipeView :=
  match db.recipes.find? (fun r => r.id = rid ∧ r.status = .active) with
  | none => none
  | some r =>
    let cats := db.recipe_categories.filterMap fun p =>
      if p.1 = rid then
        (db.categories.find? (fun c => c.id = p.2)).map (fun c => (c.id, c.name))
      else none
    let ings := (db.recipe_ingredients.filter fun x => x.recipe_id = rid).map
      fun x => (x.ingredient, x.quantity)
    some ⟨r, cats, ings⟩

/-- `Database.delete_recipe` (lines 625-661): soft delete.  Fails (returning
`False`, state unchanged) when `get_recipe` finds no active recipe; otherwise
flips the status, decrements the `recipe_count` of the recipe row's author
(`recipe['meta'][4]`, the `created_by` column), removes the recipe's
`user_recipe_views` rows, and appends a `delete` event attributed to the
acting username. -/
def Database.delete_recipe (db : DB) (recipe_id : Nat) (username : String)
    (now : Nat) : Bool × DB :=
  match Database.get_recipe db recipe_id with
  | none => (false, db)
  | some recipe =>
    let db1 : DB :=
      { db with
        recipes := db.recipes.map fun r =>
          if r.id = recipe_id then { r with status := .deleted } else r }
    let db2 : DB :=
      { db1 with
        users := db1.users.map fun u =>
          if u.username = recipe.meta.created_by then
            { u with recipe_count := u.recipe_count - 1 }
          else u }
    let db3 : DB :=
      { db2 with
        user_recipe_views :=
          db2.user_recipe_views.filter fun v => v.recipe_id ≠ recipe_id }
    (true, Database.log_recipe_event db3 recipe_id username .delete now)

/-- `Database.increment_view` (lines 726-756): bump the recipe's global
`views`; upsert the `(username, recipe_id)` row of `user_recipe_views`
(update count and `last_viewed` if present, else insert with count 1); append
a `view` event.  The per-user SELECT and UPDATE compare usernames under the
schema's `utf8mb4_unicode_ci` collation (`mysqlCiEq`), matching the table's
case-insensitive unique key.  When the recipe row does not exist and no per-user row is
present, the insert fails on its foreign key and the whole operation unwinds
with nothing written (the global UPDATE matched no row). -/
def Database.increment_view (db : DB) (rid : Nat) (username : String)
    (now : Nat) : DB :=
  let db1 : DB :=
    { db with
      recipes := db.recipes.map fun r =>
        if r.id = rid then { r with views := r.views + 1 } else r }
  match db1.user_recipe_views.find? (fun v => mysqlCiEq v.username username ∧ v.recipe_id = rid) with
  | some _ =>
    let db2 : DB :=
      { db1 with
        user_recipe_views := db1.user_recipe_views.map fun v =>
          if mysqlCiEq v.username username ∧ v.recipe_id = rid then
            { v with view_count := v.view_count + 1, last_viewed := now }
          else v }
    Database.log_recipe_event db2 rid username .view now
  | none =>
    if recipeExists db1 rid then
      let db2 : DB :=
        { db1 with
          user_recipe_views :=
            db1.user_recipe_views ++ [⟨db1.nextUserViewId, username, rid, 1, now⟩],
          nextUserViewId := db1.nextUserViewId + 1 }
      Database.log_recipe_event db2 rid username .view now
    else db

/-- `RecipeApp.delete_user` (lines 1893-1928), the confirmed path: refuse to
remove the acting admin's own account; otherwise soft-delete every recipe
whose `created_by` is the target (all statuses — the already-deleted ones
fail inside `delete_recipe` and are skipped), then remove the user row. -/
def RecipeApp.delete_user (db : DB) (target acting : String) (now : Nat) : DB :=
  if target = acting then db
  else
    let rids := (db.recipes.filter fun r => r.created_by = target).map (·.id)
    let db1 := rids.foldl (fun d r => (Database.delete_recipe d r acting now).2) db
    { db1 with users := db1.users.filter fun u => u.username ≠ target }

/-- One store operation with its argument values (timestamps explicit). -/
inductive Op where
  | register (u p role : String) (now : Nat)
  | login (u p : String) (now : Nat)
  | addCategory (name : String)
  | addRecipe (title instructions created_by : String) (cids : List Nat)
      (ings : List (String × String)) (pt : Int) (now : Nat)
  | updateRecipe (rid : Nat) (title instructions : String)
      (cids : Option (List Nat)) (ings : Option (List (String × String)))
      (pt : Int) (now : Nat)
  | deleteRecipe (rid : Nat) (u : String) (now : Nat)
  | incrementView (rid : Nat) (u : String) (now : Nat)
  | deleteUser (target acting : String) (now : Nat)

/-- Apply one store operation to the state, discarding the returned value
(a raising operation leaves the state unchanged, since all its writes come
after validation). -/
def applyOp (db : DB) : Op → DB
  | .register u p role now =>
    match Database.register_user db u p role now with
    | .ok (_, d) => d
    | .error _ => db
  | .login u p now => (Database.login_user db u p now).2
  | .addCategory n => (Database.add_category db n).2
  | .addRecipe t i cb cids ings pt now =>
    match Database.add_recipe db t i cb cids ings pt now with
    | .ok (_, d) => d
    | .error _ => db
  | .updateRecipe rid t i cids ings pt now =>
    (Database.update_recipe db rid t i cids ings pt now).2
  | .deleteRecipe rid u now => (Database.delete_recipe db rid u now).2
  | .incrementView rid u now => Database.increment_view db rid u now
  | .deleteUser t a now => RecipeApp.delete_user db t a now

/-- Run a sequence of store operations from a state. -/
def runOps (db : DB) : List Op → DB
  | [] => db
  | op :: rest => runOps (applyOp db op) rest

/-- Modelled from the spec: "`recipe_count` equals the number of active
recipes linked via the junction" — the number of junction rows for a
category whose recipe is present with status `active`. -/
def spec_active_linked_count (db : DB) (cid : Nat) : Nat :=
  (db.recipe_categories.filter fun p =>
    p.2 = cid ∧ db.recipes.any fun r => r.id = p.1 ∧ r.status = .active).length

/-- The character class `[A-Za-z0-9_-]` stated by the spec for usernames
(spec section 4.1), written from the spec's words for comparison with the
source validator. -/
def specUsernameChar (c : Char) : Bool :=
  ('A' ≤ c && c ≤ 'Z') || ('a' ≤ c && c ≤ 'z') || ('0' ≤ c && c ≤ '9')
    || c = '_' || c = '-'

instance {ε : Type u} {α : Type v} [DecidableEq ε] [DecidableEq α] :
    DecidableEq (Except ε α) := fun x y =>
  match x, y with
  | .ok a, .ok b =>
    if h : a = b then .isTrue (congrArg Except.ok h)
    else .isFalse (fun hc => h (Except.ok.inj hc))
  | .error a, .error b =>
    if h : a = b then .isTrue (congrArg Except.error h)
    else .isFalse (fun hc => h (Except.error.inj hc))
  | .ok a, .error b => .isFalse (fun hc => Except.noConfusion hc)
  | .error a, .ok b => .isFalse (fun hc => Except.noConfusion hc)

/-- Fixture: category "Dessert" (id 1) in an otherwise empty store. -/
def fixCat : DB := (Database.add_category emptyDb "Dessert").2

/-- Fixture: user "bobby" registered on top of `fixCat`. -/
def fixUser : DB :=
  match Database.register_user fixCat "bobby" "secret123" "user" 0 with
  | .ok (_, d) => d
  | .error _ => fixCat

/-- Fixture: recipe "Cake" (id 1) by "bobby" in category 1 with one
ingredient, created at time 1, on top of `fixUser`. -/
def fixRec : DB :=
  match Database.add_recipe fixUser "Cake" "Mix well" "bobby" [1] [("flour", "2 cups")] 45 1 with
  | .ok (_, d) => d
  | .error _ => fixUser

/-- The `fixRec` recipe row, for use in witnesses. -/
def fixRecRow : RecipeRow :=
  ⟨1, "Cake", "Mix well", 0, 45, "bobby", 1, none, .active⟩

/-- Monotonicity relation between two store states: every recipe row present
in the first is still present in the second (same id), its `deleted` status
is never reverted, and its view counter has not decreased. -/
def RecipeMono (db db' : DB) : Prop :=
  ∀ rid r, db.recipes.find? (fun x => x.id = rid) = some r →
    ∃ r', db'.recipes.find? (fun x => x.id = rid) = some r' ∧
      (r.status = RStatus.deleted → r'.status = RStatus.deleted) ∧
      r.views ≤ r'.views

/-- C1: contrary to the claim, `Database.add_recipe` with zero surviving
ingredient pairs does not fail with `ValidationError`: at the failing input
(`add_recipe emptyDb "Cake" "Mix well" "bobby" [] [] 45 1`) it succeeds,
returns recipe id 1, and the recipe is afterwards readable via `get_recipe`.
The at-least-one-ingredient check exists only in the UI caller
(`save_recipe`, line 1310), not in the store operation. -/
theorem c1_zero_ingredients_create_succeeds :
    (Database.add_recipe emptyDb "Cake" "Mix well" "bobby" [] [] 45 1).toOption.map
      (fun p => (p.1, (Database.get_recipe p.2 p.1).isSome)) = some (1, true) := by
  decide

/-- C2: violation of the category-counter invariant at a concrete trace:
create category "Dessert" (id 1), register "bobby", create recipe "Cake"
attached to category 1, then soft delete the recipe.  The stored
`recipe_count` of category 1 remains 1 while no active recipe is linked to
it via the junction (`delete_recipe` never decrements category counts). -/
theorem c2_counter_invariant_violated_by_soft_delete :
    ((Database.delete_recipe fixRec 1 "bobby" 2).2.categories.map
      (fun c => (c.id, c.recipe_count)) = [(1, 1)]) ∧
    spec_active_linked_count (Database.delete_recipe fixRec 1 "bobby" 2).2 1 = 0 := by
  decide

/-- C5 counterexample: the create-user operation does not return the new
user id.  Two successful registrations that allocate the distinct user ids
1 and 2 both return the very same value `true`. -/
theorem c5_counterexample_returns_true_not_id :
    (Database.register_user emptyDb "alice" "secret123" "user" 0).toOption.map
      (fun p => (p.1, p.2.users.map (·.id))) = some (true, [1]) ∧
    ((Database.register_user emptyDb "alice" "secret123" "user" 0).toOption.bind
      (fun p => (Database.register_user p.2 "bobby" "secret123" "user" 0).toOption)).map
      (fun p => (p.1, p.2.users.map (·.id))) = some (true, [1, 2]) := by
  decide

/-- C6 counterexample: the username "abé" contains the character 'é', which
is outside the claimed class `[A-Za-z0-9_-]`, yet the validator accepts it
(Python `str.isalnum` is Unicode-aware), instead of failing with
`ValidationError` as the claim states. -/
theorem c6_counterexample_unicode_letter_accepted :
    Validator.validate_username "abé" = .ok "abé" ∧
    specUsernameChar 'é' = false ∧ 'é' ∈ "abé".data := by
  decide

/-- C7 counterexample: for the blank name `""` no category with the trimmed
name exists in the empty store, yet `add_category` neither inserts a row nor
returns a new id — it returns `None` (the internal `ValidationError` is
swallowed), refuting the claim's "for every name ... otherwise it inserts a
new category ... and returns the new id". -/
theorem c7_counterexample_blank_name :
    Database.add_category emptyDb "" = (none, emptyDb) ∧ emptyDb.categories = [] := by
  decide

/-- C10 counterexample: updating the wholly nonexistent recipe id 5 with
valid fields returns `True`, but appends no edit event (the event INSERT
fails on its `recipe_id` foreign key and is swallowed): the final state is
unchanged, with `recipe_events` still empty. -/
theorem c10_counterexample_no_event_for_missing_id :
    Database.update_recipe emptyDb 5 "Cake" "Mix well" none none 45 1 = (true, emptyDb) := by
  decide

theorem find?_map_congr {α : Type u} (f : α → α) (p : α → Bool)
    (h : ∀ x, p (f x) = p x) (l : List α) :
    (l.map f).find? p = (l.find? p).map f := by
  have hpf : (p ∘ f) = p := funext h
  rw [List.find?_map, hpf]

theorem any_map_congr {α : Type u} (f : α → α) (p : α → Bool)
    (h : ∀ x, p (f x) = p x) (l : List α) :
    (l.map f).any p = l.any p := by
  have hpf : (p ∘ f) = p := funext h
  rw [List.any_map, hpf]

theorem find?_append_left {α : Type u} {l₁ l₂ : List α} {p : α → Bool} {a : α}
    (h : l₁.find? p = some a) : (l₁ ++ l₂).find? p = some a := by
  rw [List.find?_append, h]; rfl

theorem foldl_preserve {α : Type u} {β : Type v} {γ : Type w}
    (f : β → α → β) (g : β → γ) (h : ∀ d x, g (f d x) = g d) (l : List α)
    (d : β) : g (l.foldl f d) = g d := by
  induction l generalizing d with
  | nil => rfl
  | cons x xs ih => rw [List.foldl_cons, ih, h]

theorem addRecipeCatStep_recipes (rid : Nat) (d : DB) (cid : Nat) :
    (addRecipeCatStep rid d cid).recipes = d.recipes := by
  unfold addRecipeCatStep
  split
  · split
    · rfl
    · rfl
  · rfl

theorem addRecipeIngStep_recipes (rid : Nat) (d : DB) (iq : String × String) :
    (addRecipeIngStep rid d iq).recipes = d.recipes := by
  unfold addRecipeIngStep
  split
  · rfl
  · rfl

theorem updateCatStep_recipes (rid : Nat) (d : DB) (cid : Nat) :
    (updateCatStep rid d cid).recipes = d.recipes := by
  unfold updateCatStep
  split
  · split
    · split
      · rfl
      · rfl
    · rfl
  · rfl

theorem updateIngStep_recipes (rid : Nat) (d : DB) (iq : String × String) :
    (updateIngStep rid d iq).recipes = d.recipes := by
  unfold updateIngStep
  split
  · split
    · rfl
    · rfl
  · rfl

theorem updateCatStep_events (rid : Nat) (d : DB) (cid : Nat) :
    ((updateCatStep rid d cid).recipe_events, (updateCatStep rid d cid).nextEventId) =
      (d.recipe_events, d.nextEventId) := by
  unfold updateCatStep
  split
  · split
    · split
      · rfl
      · rfl
    · rfl
  · rfl

theorem updateIngStep_events (rid : Nat) (d : DB) (iq : String × String) :
    ((updateIngStep rid d iq).recipe_events, (updateIngStep rid d iq).nextEventId) =
      (d.recipe_events, d.nextEventId) := by
  unfold updateIngStep
  split
  · split
    · rfl
    · rfl
  · rfl

theorem log_recipe_event_recipes (db : DB) (rid : Nat) (u : String) (t : EType)
    (now : Nat) : (Database.log_recipe_event db rid u t now).recipes = db.recipes := by
  unfold Database.log_recipe_event
  split
  · rfl
  · rfl

theorem mono_refl (db : DB) : RecipeMono db db := by
  intro rid r h
  exact ⟨r, h, fun hs => hs, le_refl _⟩

theorem mono_trans {a b c : DB} (h1 : RecipeMono a b) (h2 : RecipeMono b c) :
    RecipeMono a c := by
  intro rid r h
  obtain ⟨r1, hf1, hs1, hv1⟩ := h1 rid r h
  obtain ⟨r2, hf2, hs2, hv2⟩ := h2 rid r1 hf1
  exact ⟨r2, hf2, fun hs => hs2 (hs1 hs), le_trans hv1 hv2⟩

theorem mono_of_recipes_eq {db db' : DB} (h : db'.recipes = db.recipes) :
    RecipeMono db db' := by
  intro rid r hf
  exact ⟨r, by rw [h]; exact hf, fun hs => hs, le_refl _⟩

theorem mono_of_map {db db' : DB} (f : RecipeRow → RecipeRow)
    (hid : ∀ x, (f x).id = x.id)
    (hst : ∀ x, x.status = RStatus.deleted → (f x).status = RStatus.deleted)
    (hv : ∀ x, x.views ≤ (f x).views)
    (h : db'.recipes = db.recipes.map f) : RecipeMono db db' := by
  intro rid r hf
  refine ⟨f r, ?_, hst r, hv r⟩
  rw [h, find?_map_congr f _ (fun x => by simp [hid x]) _, hf]
  rfl

theorem mono_of_append {db db' : DB} {l : List RecipeRow}
    (h : db'.recipes = db.recipes ++ l) : RecipeMono db db' := by
  intro rid r hf
  exact ⟨r, by rw [h]; exact find?_append_left hf, fun hs => hs, le_refl _⟩

theorem foldl_mono {α : Type u} (f : DB → α → DB)
    (h : ∀ d x, RecipeMono d (f d x)) (l : List α) (d : DB) :
    RecipeMono d (l.foldl f d) := by
  induction l generalizing d with
  | nil => exact mono_refl d
  | cons x xs ih => exact mono_trans (h d x) (ih (f d x))

theorem delete_recipe_mono (db : DB) (rid : Nat) (u : String) (now : Nat) :
    RecipeMono db (Database.delete_recipe db rid u now).2 := by
  rcases hr : Database.get_recipe db rid with _ | v
  · simp only [Database.delete_recipe, hr]
    exact mono_refl db
  · simp only [Database.delete_recipe, hr]
    apply mono_of_map (fun r => if r.id = rid then { r with status := .deleted } else r)
    · intro x
      split <;> rfl
    · intro x hx
      split
      · rfl
      · exact hx
    · intro x
      split <;> exact le_refl _
    · rw [log_recipe_event_recipes]

theorem update_recipe_mono (db : DB) (rid : Nat) (t i : String)
    (cids : Option (List Nat)) (ings : Option (List (String × String)))
    (pt : Int) (now : Nat) :
    RecipeMono db (Database.update_recipe db rid t i cids ings pt now).2 := by
  rcases ht : Validator.validate_recipe_title t with e | tv
  · simp only [Database.update_recipe, ht]
    exact mono_refl db
  rcases hi : Validator.validate_instructions i with e | iv
  · simp only [Database.update_recipe, ht, hi]
    exact mono_refl db
  rcases hp : Database.prepOf pt with e | pv
  · simp only [Database.update_recipe, ht, hi, hp]
    exact mono_refl db
  simp only [Database.update_recipe, ht, hi, hp]
  apply mono_of_map (fun r => if r.id = rid then
    { r with title := tv, instructions := iv, prep_time := pv, updated_at := some now }
    else r)
  · intro x
    split <;> rfl
  · intro x hx
    split
    · exact hx
    · exact hx
  · intro x
    split <;> exact le_refl _
  · rw [log_recipe_event_recipes]
    rcases ings with _ | il <;> rcases cids with _ | cl <;>
      simp only [foldl_preserve _ DB.recipes (updateIngStep_recipes rid),
                 foldl_preserve _ DB.recipes (updateCatStep_recipes rid)]

theorem increment_view_mono (db : DB) (rid : Nat) (u : String) (now : Nat) :
    RecipeMono db (Database.increment_view db rid u now) := by
  simp only [Database.increment_view]
  split
  · apply mono_of_map (fun r => if r.id = rid then { r with views := r.views + 1 } else r)
    · intro x
      split <;> rfl
    · intro x hx
      split
      · exact hx
      · exact hx
    · intro x
      split
      · exact Nat.le_succ _
      · exact le_refl _
    · rw [log_recipe_event_recipes]
  · split
    · apply mono_of_map (fun r => if r.id = rid then { r with views := r.views + 1 } else r)
      · intro x
        split <;> rfl
      · intro x hx
        split
        · exact hx
        · exact hx
      · intro x
        split
        · exact Nat.le_succ _
        · exact le_refl _
      · rw [log_recipe_event_recipes]
    · exact mono_refl db

theorem add_recipe_mono (db : DB) (t i cb : String) (cids : List Nat)
    (ings : List (String × String)) (pt : Int) (now : Nat) :
    RecipeMono db (match Database.add_recipe db t i cb cids ings pt now with
      | .ok (_, d) => d
      | .error _ => db) := by
  rcases ht : Validator.validate_recipe_title t with e | tv
  · simp only [Database.add_recipe, ht]
    exact mono_refl db
  rcases hi : Validator.validate_instructions i with e | iv
  · simp only [Database.add_recipe, ht, hi]
    exact mono_refl db
  rcases hp : Database.prepOf pt with e | pv
  · simp only [Database.add_recipe, ht, hi, hp]
    exact mono_refl db
  simp only [Database.add_recipe, ht, hi, hp]
  apply mono_of_append
  rw [foldl_preserve _ DB.recipes (addRecipeIngStep_recipes db.nextRecipeId),
      foldl_preserve _ DB.recipes (addRecipeCatStep_recipes db.nextRecipeId),
      log_recipe_event_recipes]

theorem register_user_mono (db : DB) (u p role : String) (now : Nat) :
    RecipeMono db (match Database.register_user db u p role now with
      | .ok (_, d) => d
      | .error _ => db) := by
  apply mono_of_recipes_eq
  rcases hu : Validator.validate_username u with e | uv <;>
    rcases hp : Validator.validate_password p with e2 | pv <;>
      (simp only [Database.register_user, hu, hp]; try rfl)
  cases hd : db.users.any fun x => mysqlCiEq x.username uv <;> rfl

theorem login_user_mono (db : DB) (u p : String) (now : Nat) :
    RecipeMono db (Database.login_user db u p now).2 := by
  apply mono_of_recipes_eq
  rcases hu : Validator.validate_username u with e | uv <;>
    rcases hp : Validator.validate_password p with e2 | pv <;>
      simp only [Database.login_user, hu, hp]
  split
  · rfl
  · split <;> rfl

theorem add_category_mono (db : DB) (n : String) :
    RecipeMono db (Database.add_category db n).2 := by
  apply mono_of_recipes_eq
  simp only [Database.add_category]
  split
  · rfl
  · split <;> rfl

theorem delete_user_mono (db : DB) (target acting : String) (now : Nat) :
    RecipeMono db (RecipeApp.delete_user db target acting now) := by
  unfold RecipeApp.delete_user
  split
  · exact mono_refl db
  · apply mono_trans
      (foldl_mono _ (fun d x => delete_recipe_mono d x acting now) _ db)
    apply mono_of_recipes_eq
    rfl

theorem applyOp_mono (db : DB) (op : Op) : RecipeMono db (applyOp db op) := by
  cases op with
  | register u p role now => exact register_user_mono db u p role now
  | login u p now => exact login_user_mono db u p now
  | addCategory n => exact add_category_mono db n
  | addRecipe t i cb cids ings pt now => exact add_recipe_mono db t i cb cids ings pt now
  | updateRecipe rid t i cids ings pt now =>
    exact update_recipe_mono db rid t i cids ings pt now
  | deleteRecipe rid u now => exact delete_recipe_mono db rid u now
  | incrementView rid u now => exact increment_view_mono db rid u now
  | deleteUser t a now => exact delete_user_mono db t a now

theorem runOps_mono (db : DB) (ops : List Op) : RecipeMono db (runOps db ops) := by
  induction ops generalizing db with
  | nil => exact mono_refl db
  | cons op rest ih => exact mono_trans (applyOp_mono db op) (ih (applyOp db op))


/-- C9: in every sequence of store operations, a recipe row present in the
initial state stays present; its status, once `deleted`, is never reset to
`active` by any operation; and its `views` value never decreases. -/
theorem c9_status_oneway_views_monotone (db : DB) (ops : List Op) (rid : Nat)
    (r : RecipeRow) (h : db.recipes.find? (fun x => x.id = rid) = some r) :
    ∃ r', (runOps db ops).recipes.find? (fun x => x.id = rid) = some r' ∧
      (r.status = RStatus.deleted → r'.status = RStatus.deleted) ∧
      r.views ≤ r'.views :=
  runOps_mono db ops rid r h

/-- Witness for C9 at a concrete state and operation sequence. -/
theorem c9_status_oneway_views_monotone_witness :
    ∃ r', (runOps fixRec
        [.incrementView 1 "alice" 5, .deleteRecipe 1 "bobby" 6]).recipes.find?
          (fun x => x.id = 1) = some r' ∧
      (fixRecRow.status = RStatus.deleted → r'.status = RStatus.deleted) ∧
      fixRecRow.views ≤ r'.views :=
  c9_status_oneway_views_monotone fixRec
    [.incrementView 1 "alice" 5, .deleteRecipe 1 "bobby" 6] 1 fixRecRow (by decide)

theorem any_eq_false_of_find?_eq_none {α : Type u} {l : List α} {p : α → Bool}
    (h : l.find? p = none) : l.any p = false := by
  rw [List.any_eq_false]
  intro x hx
  exact List.find?_eq_none.mp h x hx

theorem any_eq_true_of_find?_eq_some {α : Type u} {l : List α} {p : α → Bool}
    {a : α} (h : l.find? p = some a) : l.any p = true := by
  rw [List.any_eq_true]
  exact ⟨a, List.mem_of_find?_eq_some h, List.find?_some h⟩

theorem validate_password_ok {p q : String}
    (h : Validator.validate_password p = .ok q) : q = p := by
  unfold Validator.validate_password at h
  split_ifs at h
  all_goals
    first
    | exact Except.noConfusion h
    | exact (Except.ok.inj h).symm

theorem mysqlCiEq_refl (a : String) : mysqlCiEq a a = true := by
  simp [mysqlCiEq]

/-- C7 (amended): for every name whose trimmed form is non-blank,
`add_category` is idempotent: if a category whose name matches the trimmed
name under the schema's case- and accent-insensitive `utf8mb4_unicode_ci`
comparison already exists, it returns that category's id with the whole
state unchanged (it never fails for a duplicate name); otherwise it inserts
a new category with `recipe_count = 0` and returns the new id, and a second
call with the same name returns the same id and leaves the state (hence the
zero count) untouched.  (For a blank name the operation instead returns
`None` without inserting: see the counterexample.) -/
theorem c7_add_category_idempotent (db : DB) (name : String)
    (hn : pyStrip name ≠ "") :
    (∀ c, db.categories.find? (fun x => mysqlCiEq x.name (pyStrip name)) = some c →
      Database.add_category db name = (some c.id, db)) ∧
    (db.categories.find? (fun x => mysqlCiEq x.name (pyStrip name)) = none →
      Database.add_category db name =
        (some db.nextCategoryId,
          { db with
            categories := db.categories ++ [⟨db.nextCategoryId, pyStrip name, 0⟩],
            nextCategoryId := db.nextCategoryId + 1 }) ∧
      Database.add_category
          { db with
            categories := db.categories ++ [⟨db.nextCategoryId, pyStrip name, 0⟩],
            nextCategoryId := db.nextCategoryId + 1 } name =
        (some db.nextCategoryId,
          { db with
            categories := db.categories ++ [⟨db.nextCategoryId, pyStrip name, 0⟩],
            nextCategoryId := db.nextCategoryId + 1 })) := by
  constructor
  · intro c hc
    simp only [Database.add_category, if_neg hn, hc]
  · intro hnone
    constructor
    · simp only [Database.add_category, if_neg hn, hnone]
    · simp only [Database.add_category, if_neg hn]
      rw [List.find?_append, hnone]
      simp [List.find?, mysqlCiEq_refl]

/-- Witness for C7 at the concrete name "Dessert" on the empty store; the
case-variant "dessert" also returns the existing id 1, unchanged state. -/
theorem c7_add_category_idempotent_witness :
    (Database.add_category emptyDb "Dessert" =
      (some 1, { emptyDb with categories := [⟨1, "Dessert", 0⟩], nextCategoryId := 2 }) ∧
    Database.add_category
        { emptyDb with categories := [⟨1, "Dessert", 0⟩], nextCategoryId := 2 } "Dessert" =
      (some 1, { emptyDb with categories := [⟨1, "Dessert", 0⟩], nextCategoryId := 2 })) ∧
    Database.add_category
        { emptyDb with categories := [⟨1, "Dessert", 0⟩], nextCategoryId := 2 } "dessert" =
      (some 1, { emptyDb with categories := [⟨1, "Dessert", 0⟩], nextCategoryId := 2 }) :=
  ⟨(c7_add_category_idempotent emptyDb "Dessert" (by decide)).2 (by decide),
   (c7_add_category_idempotent
      { emptyDb with categories := [⟨1, "Dessert", 0⟩], nextCategoryId := 2 } "dessert"
      (by decide)).1 ⟨1, "Dessert", 0⟩ (by decide)⟩

/-- C5 (amended): `register_user`, for inputs passing validation with a
username not already present, stores the digest of the password and the
requested role in a fresh row carrying the next user id, and returns the
success value `True` — not the new user id (see the counterexample); for an
already-present username — present under the schema's case- and
accent-insensitive `utf8mb4_unicode_ci` comparison, so e.g. "Alice" is a
duplicate of a stored "alice" — it fails with the duplicate
`DatabaseError`. -/
theorem c5_register_user (db : DB) (username password role : String)
    (now : Nat) (u p : String)
    (hu : Validator.validate_username username = .ok u)
    (hp : Validator.validate_password password = .ok p) :
    ((db.users.any fun x => mysqlCiEq x.username u) = true →
      Database.register_user db username password role now =
        .error (.database "Username already exists")) ∧
    ((db.users.any fun x => mysqlCiEq x.username u) = false →
      Database.register_user db username password role now =
        .ok (true,
          { db with
            users := db.users ++
              [⟨db.nextUserId, u, sha256 password, role, now, none, 0⟩],
            nextUserId := db.nextUserId + 1 })) := by
  have hpp : p = password := validate_password_ok hp
  subst hpp
  constructor <;> intro hd <;> simp only [Database.register_user, hu, hp, hd] <;> rfl

/-- Witness for C5: a fresh registration of "alice" on the empty store
succeeds, and registering "Alice" afterwards hits the case-insensitive
duplicate check. -/
theorem c5_register_user_witness :
    Database.register_user emptyDb "alice" "secret123" "user" 0 =
      .ok (true,
        { emptyDb with
          users := [⟨1, "alice", sha256 "secret123", "user", 0, none, 0⟩],
          nextUserId := 2 }) ∧
    Database.register_user
        { emptyDb with
          users := [⟨1, "alice", sha256 "secret123", "user", 0, none, 0⟩],
          nextUserId := 2 } "Alice" "secret456" "user" 1 =
      .error (.database "Username already exists") :=
  ⟨(c5_register_user emptyDb "alice" "secret123" "user" 0 "alice" "secret123"
      (by decide) (by decide)).2 (by decide),
   (c5_register_user
      { emptyDb with
        users := [⟨1, "alice", sha256 "secret123", "user", 0, none, 0⟩],
        nextUserId := 2 } "Alice" "secret456" "user" 1 "Alice" "secret456"
      (by decide) (by decide)).1 (by decide)⟩

/-- C6 (amended): the username validator returns the trimmed string exactly
when the trimmed string is non-empty, between 3 and 50 characters, and every
character is Python-alphanumeric (`pyIsAlnum`, Unicode-aware) or `_` or `-`;
whenever some character of the trimmed string is outside that class it fails
with `ValidationError`.  The spec's ASCII class `[A-Za-z0-9_-]` is strictly
narrower than the code's character test: see the counterexample with 'é'. -/
theorem c6_validate_username (s : String) :
    (Validator.validate_username s = .ok (pyStrip s) ↔
      (pyStrip s ≠ "" ∧ 3 ≤ (pyStrip s).length ∧ (pyStrip s).length ≤ 50 ∧
        ∀ c ∈ (pyStrip s).data, (pyIsAlnum c || c = '_' || c = '-') = true)) ∧
    ((∃ c ∈ (pyStrip s).data, (pyIsAlnum c || c = '_' || c = '-') = false) →
      ∃ m, Validator.validate_username s = .error (.validation m)) := by
  constructor
  · constructor
    · intro h
      simp only [Validator.validate_username] at h
      split_ifs at h with h1 h2 h3 h4
      exact ⟨h1, by omega, by omega, fun c hc => List.all_eq_true.mp h4 c hc⟩
    · rintro ⟨h1, h2, h3, h4⟩
      simp only [Validator.validate_username]
      have hall : ((pyStrip s).data.all fun c => pyIsAlnum c || c = '_' || c = '-') = true :=
        List.all_eq_true.mpr h4
      rw [if_neg h1, if_neg (by omega : ¬(pyStrip s).length < 3),
          if_neg (by omega : ¬(pyStrip s).length > 50), if_neg (not_not_intro hall)]
  · rintro ⟨c, hc, hcf⟩
    simp only [Validator.validate_username]
    split_ifs with h1 h2 h3 h4
    · exact ⟨_, rfl⟩
    · exact ⟨_, rfl⟩
    · exact ⟨_, rfl⟩
    · refine ⟨"", ?_⟩
      rw [List.all_eq_true.mp h4 c hc] at hcf
      exact Bool.noConfusion hcf
    · exact ⟨_, rfl⟩

/-- Witness for C6's failure direction at a concrete bad username: "ab#c"
contains '#', which is neither alphanumeric nor '_' nor '-'. -/
theorem c6_validate_username_witness :
    ∃ m, Validator.validate_username "ab#c" = .error (.validation m) :=
  (c6_validate_username "ab#c").2 ⟨'#', by decide, by decide⟩

theorem log_recipe_event_users (db : DB) (rid : Nat) (u : String) (t : EType)
    (now : Nat) : (Database.log_recipe_event db rid u t now).users = db.users := by
  unfold Database.log_recipe_event
  split <;> rfl

theorem log_recipe_event_user_views (db : DB) (rid : Nat) (u : String) (t : EType)
    (now : Nat) :
    (Database.log_recipe_event db rid u t now).user_recipe_views =
      db.user_recipe_views := by
  unfold Database.log_recipe_event
  split <;> rfl

theorem recipeExists_map_status (l : List RecipeRow) (rid rid2 : Nat) :
    ((l.map fun r => if r.id = rid then { r with status := RStatus.deleted } else r).any
      fun r => r.id = rid2) = (l.any fun r => r.id = rid2) := by
  apply any_map_congr
  intro x
  split <;> rfl

theorem find_active_after_delete (l : List RecipeRow) (rid : Nat) :
    (l.map fun r => if r.id = rid then { r with status := RStatus.deleted } else r).find?
      (fun r => r.id = rid ∧ r.status = RStatus.active) = none := by
  induction l with
  | nil => rfl
  | cons x xs ih =>
    simp only [List.map_cons]
    by_cases hx : x.id = rid
    · rw [if_pos hx, List.find?_cons_of_neg _ (by simp), ih]
    · rw [if_neg hx, List.find?_cons_of_neg _ (by simp [hx]), ih]

/-- C3: soft delete.  On a missing or already-deleted recipe (`get_recipe`
finds nothing) it returns failure with the state unchanged.  On an active
recipe it returns success, flips the status to `deleted`, decrements
`recipe_count` of exactly the user rows whose username is the recipe row's
author (`created_by`) — not the acting username — by 1, deletes all
`user_recipe_views` rows of the recipe, and appends one `delete` event
attributed to the acting username; afterwards `get_recipe` returns `none`
and a second soft delete of the same id fails, changing nothing. -/
theorem c3_delete_recipe (db : DB) (rid : Nat) (acting : String) (now : Nat) :
    (Database.get_recipe db rid = none →
      Database.delete_recipe db rid acting now = (false, db)) ∧
    (∀ v, Database.get_recipe db rid = some v →
      (Database.delete_recipe db rid acting now).1 = true ∧
      (Database.delete_recipe db rid acting now).2.recipes =
        db.recipes.map (fun r => if r.id = rid then { r with status := RStatus.deleted } else r) ∧
      (Database.delete_recipe db rid acting now).2.users =
        db.users.map (fun u => if u.username = v.meta.created_by then
          { u with recipe_count := u.recipe_count - 1 } else u) ∧
      (Database.delete_recipe db rid acting now).2.user_recipe_views =
        db.user_recipe_views.filter (fun x => x.recipe_id ≠ rid) ∧
      (Database.delete_recipe db rid acting now).2.recipe_events =
        db.recipe_events ++ [⟨db.nextEventId, some rid, acting, EType.delete, now⟩] ∧
      Database.get_recipe (Database.delete_recipe db rid acting now).2 rid = none ∧
      (∀ acting2 now2,
        Database.delete_recipe (Database.delete_recipe db rid acting now).2 rid acting2 now2 =
          (false, (Database.delete_recipe db rid acting now).2))) := by
  constructor
  · intro h
    simp only [Database.delete_recipe, h]
  · intro v hv
    rcases hw : db.recipes.find? (fun r => r.id = rid ∧ r.status = RStatus.active) with _ | row
    · simp only [Database.get_recipe, hw] at hv
      exact Option.noConfusion hv
    · have hrowB := List.find?_some hw
      have hrowP : row.id = rid ∧ row.status = RStatus.active := of_decide_eq_true hrowB
      have hmem := List.mem_of_find?_eq_some hw
      have hany : (db.recipes.any fun r => r.id = rid) = true :=
        List.any_eq_true.mpr ⟨row, hmem, by simp [hrowP.1]⟩
      have hvm : v.meta = row := by
        simp only [Database.get_recipe, hw] at hv
        exact (congrArg RecipeView.meta (Option.some.inj hv)).symm
      have hdel : Database.delete_recipe db rid acting now =
          (true, { db with
            recipes := db.recipes.map fun r =>
              if r.id = rid then { r with status := RStatus.deleted } else r,
            users := db.users.map fun u =>
              if u.username = v.meta.created_by then
                { u with recipe_count := u.recipe_count - 1 } else u,
            user_recipe_views :=
              db.user_recipe_views.filter fun x => x.recipe_id ≠ rid,
            recipe_events :=
              db.recipe_events ++ [⟨db.nextEventId, some rid, acting, EType.delete, now⟩],
            nextEventId := db.nextEventId + 1 }) := by
        simp only [Database.delete_recipe, hv, Database.log_recipe_event]
        split
        · rfl
        · next hcon =>
          exact absurd (by simp only [recipeExists]
                           rw [recipeExists_map_status]
                           exact hany) hcon
      have hnone : Database.get_recipe (Database.delete_recipe db rid acting now).2 rid = none := by
        rw [hdel]
        simp only [Database.get_recipe, find_active_after_delete]
      refine ⟨by rw [hdel], by rw [hdel], by rw [hdel], by rw [hdel], by rw [hdel], hnone, ?_⟩
      intro acting2 now2
      rw [hdel] at hnone ⊢
      simp only [Database.delete_recipe, hnone]

/-- Witness for C3 at the concrete store `fixRec`: admin "alice" soft
deletes recipe 1 authored by "bobby". -/
theorem c3_delete_recipe_witness :
    Database.get_recipe fixRec 1 =
      some ⟨fixRecRow, [(1, "Dessert")], [("flour", "2 cups")]⟩ ∧
    (Database.delete_recipe fixRec 1 "alice" 9).1 = true ∧
    (Database.delete_recipe fixRec 1 "alice" 9).2.users =
      fixRec.users.map (fun u => if u.username = "bobby" then
        { u with recipe_count := u.recipe_count - 1 } else u) ∧
    (Database.delete_recipe fixRec 1 "alice" 9).2.recipe_events =
      fixRec.recipe_events ++ [⟨fixRec.nextEventId, some 1, "alice", EType.delete, 9⟩] ∧
    Database.get_recipe (Database.delete_recipe fixRec 1 "alice" 9).2 1 = none ∧
    Database.delete_recipe (Database.delete_recipe fixRec 1 "alice" 9).2 1 "zoe" 11 =
      (false, (Database.delete_recipe fixRec 1 "alice" 9).2) := by
  have hv : Database.get_recipe fixRec 1 =
      some ⟨fixRecRow, [(1, "Dessert")], [("flour", "2 cups")]⟩ := by decide
  have H := (c3_delete_recipe fixRec 1 "alice" 9).2
    ⟨fixRecRow, [(1, "Dessert")], [("flour", "2 cups")]⟩ hv
  exact ⟨hv, H.1, H.2.2.1, H.2.2.2.2.1, H.2.2.2.2.2.1, H.2.2.2.2.2.2 "zoe" 11⟩

theorem recipeExists_map_views (l : List RecipeRow) (rid rid2 : Nat) :
    ((l.map fun r => if r.id = rid then { r with views := r.views + 1 } else r).any
      fun r => r.id = rid2) = (l.any fun r => r.id = rid2) := by
  apply any_map_congr
  intro x
  split <;> rfl

theorem find?_id_map_views (l : List RecipeRow) (rid : Nat) :
    (l.map fun x => if x.id = rid then { x with views := x.views + 1 } else x).find?
      (fun x => x.id = rid) =
    (l.find? (fun x => x.id = rid)).map
      (fun x => if x.id = rid then { x with views := x.views + 1 } else x) := by
  apply find?_map_congr
  intro x
  split <;> rfl

theorem find?_userview_map (l : List UserViewRow) (u : String) (rid : Nat) (now : Nat) :
    (l.map fun v => if mysqlCiEq v.username u ∧ v.recipe_id = rid then
        { v with view_count := v.view_count + 1, last_viewed := now } else v).find?
      (fun v => mysqlCiEq v.username u ∧ v.recipe_id = rid) =
    (l.find? (fun v => mysqlCiEq v.username u ∧ v.recipe_id = rid)).map
      (fun v => if mysqlCiEq v.username u ∧ v.recipe_id = rid then
        { v with view_count := v.view_count + 1, last_viewed := now } else v) := by
  apply find?_map_congr
  intro x
  split <;> rfl

/-- C8: `increment_view` on an existing recipe bumps that recipe's global
`views` by exactly 1, appends exactly one `view` event, and upserts the
per-user row: it updates `view_count` and `last_viewed` when a
`(username, recipe_id)` row exists — username matched under the table's
case- and accent-insensitive `utf8mb4_unicode_ci` key (`mysqlCiEq`) — and
inserts it with `view_count = 1` otherwise; calling it twice for the same
pair (starting with no per-user row) raises the global `views` by 2, leaves
`view_count = 2` with `last_viewed` refreshed to the second time, and
appends two `view` events. -/
theorem c8_increment_view (db : DB) (rid : Nat) (u : String) (now now2 : Nat)
    (r : RecipeRow) (hr : db.recipes.find? (fun x => x.id = rid) = some r) :
    ((Database.increment_view db rid u now).recipes =
      db.recipes.map (fun x => if x.id = rid then { x with views := x.views + 1 } else x)) ∧
    ((Database.increment_view db rid u now).recipe_events =
      db.recipe_events ++ [⟨db.nextEventId, some rid, u, EType.view, now⟩]) ∧
    (∀ w, findUserView db u rid = some w →
      (Database.increment_view db rid u now).user_recipe_views =
        db.user_recipe_views.map (fun x => if mysqlCiEq x.username u ∧ x.recipe_id = rid then
          { x with view_count := x.view_count + 1, last_viewed := now } else x)) ∧
    (findUserView db u rid = none →
      (Database.increment_view db rid u now).user_recipe_views =
        db.user_recipe_views ++ [⟨db.nextUserViewId, u, rid, 1, now⟩]) ∧
    (findUserView db u rid = none →
      findRecipeRow (Database.increment_view (Database.increment_view db rid u now) rid u now2) rid =
        some { r with views := r.views + 2 } ∧
      findUserView (Database.increment_view (Database.increment_view db rid u now) rid u now2) u rid =
        some ⟨db.nextUserViewId, u, rid, 2, now2⟩ ∧
      (Database.increment_view (Database.increment_view db rid u now) rid u now2).recipe_events =
        db.recipe_events ++ [⟨db.nextEventId, some rid, u, EType.view, now⟩,
          ⟨db.nextEventId + 1, some rid, u, EType.view, now2⟩]) := by
  have hrB := List.find?_some hr
  have hrid : r.id = rid := of_decide_eq_true hrB
  have hex : (db.recipes.any fun x => x.id = rid) = true := any_eq_true_of_find?_eq_some hr
  rcases huv : db.user_recipe_views.find? (fun v => mysqlCiEq v.username u ∧ v.recipe_id = rid) with _ | w
  · have hstA : Database.increment_view db rid u now = { db with
        recipes := db.recipes.map (fun x => if x.id = rid then { x with views := x.views + 1 } else x),
        user_recipe_views := db.user_recipe_views ++ [⟨db.nextUserViewId, u, rid, 1, now⟩],
        nextUserViewId := db.nextUserViewId + 1,
        recipe_events := db.recipe_events ++ [⟨db.nextEventId, some rid, u, EType.view, now⟩],
        nextEventId := db.nextEventId + 1 } := by
      simp only [Database.increment_view, huv, Database.log_recipe_event]
      split
      · split
        · rfl
        · next hcon =>
          exact absurd (by simp only [recipeExists]
                           rw [recipeExists_map_views]
                           exact hex) hcon
      · next hcon =>
        exact absurd (by simp only [recipeExists]
                         rw [recipeExists_map_views]
                         exact hex) hcon
    have hfind2 : ((db.user_recipe_views ++ [(⟨db.nextUserViewId, u, rid, 1, now⟩ : UserViewRow)]).find?
        (fun v => mysqlCiEq v.username u ∧ v.recipe_id = rid)) =
        some ⟨db.nextUserViewId, u, rid, 1, now⟩ := by
      rw [List.find?_append, huv]
      simp [List.find?, mysqlCiEq_refl]
    have hstB : Database.increment_view (Database.increment_view db rid u now) rid u now2 =
        { db with
          recipes := (db.recipes.map (fun x => if x.id = rid then { x with views := x.views + 1 } else x)).map
            (fun x => if x.id = rid then { x with views := x.views + 1 } else x),
          user_recipe_views :=
            ((db.user_recipe_views ++ [(⟨db.nextUserViewId, u, rid, 1, now⟩ : UserViewRow)]).map
              (fun v : UserViewRow => if mysqlCiEq v.username u ∧ v.recipe_id = rid then
                { v with view_count := v.view_count + 1, last_viewed := now2 } else v)),
          nextUserViewId := db.nextUserViewId + 1,
          recipe_events := (db.recipe_events ++ [⟨db.nextEventId, some rid, u, EType.view, now⟩])
            ++ [⟨db.nextEventId + 1, some rid, u, EType.view, now2⟩],
          nextEventId := db.nextEventId + 2 } := by
      rw [hstA]
      simp only [Database.increment_view, hfind2, Database.log_recipe_event]
      split
      · rfl
      · next hcon =>
        exact absurd (by simp only [recipeExists]
                         rw [recipeExists_map_views, recipeExists_map_views]
                         exact hex) hcon
    refine ⟨by rw [hstA], by rw [hstA], ?_, fun _ => by rw [hstA], fun _ => ⟨?_, ?_, ?_⟩⟩
    · intro w' hw'
      simp only [findUserView, huv] at hw'
      exact Option.noConfusion hw'
    · simp only [findRecipeRow, hstB]
      rw [find?_id_map_views, find?_id_map_views, hr]
      simp [hrid]
    · simp only [findUserView, hstB]
      rw [find?_userview_map, hfind2]
      simp [mysqlCiEq_refl]
    · rw [hstB]
      simp
  · have hstA : Database.increment_view db rid u now = { db with
        recipes := db.recipes.map (fun x => if x.id = rid then { x with views := x.views + 1 } else x),
        user_recipe_views := db.user_recipe_views.map
          (fun x => if mysqlCiEq x.username u ∧ x.recipe_id = rid then
            { x with view_count := x.view_count + 1, last_viewed := now } else x),
        recipe_events := db.recipe_events ++ [⟨db.nextEventId, some rid, u, EType.view, now⟩],
        nextEventId := db.nextEventId + 1 } := by
      simp only [Database.increment_view, huv, Database.log_recipe_event]
      split
      · rfl
      · next hcon =>
        exact absurd (by simp only [recipeExists]
                         rw [recipeExists_map_views]
                         exact hex) hcon
    refine ⟨by rw [hstA], by rw [hstA], fun w' hw' => by rw [hstA], ?_, ?_⟩
    · intro hnone
      simp only [findUserView, huv] at hnone
      exact Option.noConfusion hnone
    · intro hnone
      simp only [findUserView, huv] at hnone
      exact Option.noConfusion hnone

/-- Witness for C8: "alice" views recipe 1 of `fixRec` twice; a later view
by "Alice" matches the same per-user row case-insensitively and takes the
update branch. -/
theorem c8_increment_view_witness :
    ((Database.increment_view fixRec 1 "alice" 3).recipe_events =
      fixRec.recipe_events ++ [⟨fixRec.nextEventId, some 1, "alice", EType.view, 3⟩]) ∧
    findRecipeRow (Database.increment_view (Database.increment_view fixRec 1 "alice" 3) 1 "alice" 4) 1 =
      some { fixRecRow with views := fixRecRow.views + 2 } ∧
    findUserView (Database.increment_view (Database.increment_view fixRec 1 "alice" 3) 1 "alice" 4) "alice" 1 =
      some ⟨fixRec.nextUserViewId, "alice", 1, 2, 4⟩ ∧
    (Database.increment_view (Database.increment_view fixRec 1 "alice" 3) 1 "Alice" 5).user_recipe_views =
      (Database.increment_view fixRec 1 "alice" 3).user_recipe_views.map
        (fun x => if mysqlCiEq x.username "Alice" ∧ x.recipe_id = 1 then
          { x with view_count := x.view_count + 1, last_viewed := 5 } else x) := by
  have H := c8_increment_view fixRec 1 "alice" 3 4 fixRecRow (by decide)
  have H5 := H.2.2.2.2 (by decide)
  have Hci := (c8_increment_view (Database.increment_view fixRec 1 "alice" 3) 1 "Alice" 5 6
    ⟨1, "Cake", "Mix well", 1, 45, "bobby", 1, none, .active⟩ (by decide)).2.2.1
    ⟨1, "alice", 1, 1, 3⟩ (by decide)
  exact ⟨H.2.1, H5.1, H5.2.1, Hci⟩

theorem updateCatStep_events1 (rid : Nat) (d : DB) (cid : Nat) :
    (updateCatStep rid d cid).recipe_events = d.recipe_events := by
  unfold updateCatStep
  split
  · split
    · split
      · rfl
      · rfl
    · rfl
  · rfl

theorem updateCatStep_nextEventId (rid : Nat) (d : DB) (cid : Nat) :
    (updateCatStep rid d cid).nextEventId = d.nextEventId := by
  unfold updateCatStep
  split
  · split
    · split
      · rfl
      · rfl
    · rfl
  · rfl

theorem updateIngStep_events1 (rid : Nat) (d : DB) (iq : String × String) :
    (updateIngStep rid d iq).recipe_events = d.recipe_events := by
  unfold updateIngStep
  split
  · split
    · rfl
    · rfl
  · rfl

theorem updateIngStep_nextEventId (rid : Nat) (d : DB) (iq : String × String) :
    (updateIngStep rid d iq).nextEventId = d.nextEventId := by
  unfold updateIngStep
  split
  · split
    · rfl
    · rfl
  · rfl

theorem recipeExists_map_upd (l : List RecipeRow) (tv iv : String) (pv : Int)
    (now : Nat) (rid rid2 : Nat) :
    ((l.map fun r => if r.id = rid then
        { r with title := tv, instructions := iv, prep_time := pv, updated_at := some now }
      else r).any fun r => r.id = rid2) = (l.any fun r => r.id = rid2) := by
  apply any_map_congr
  intro x
  split <;> rfl

/-- C10 (amended): `update_recipe` performs no existence or status check on
the target id: with valid title, instructions and prep time it returns
`True` for every id, existing, deleted or absent.  An `edit` event is
appended when a recipe row with the id exists (soft-deleted rows included);
for a wholly nonexistent id the event insert fails on its `recipe_id`
foreign key and is silently skipped, so no event is appended. -/
theorem c10_update_no_existence_check (db : DB) (rid : Nat)
    (title instructions : String) (cids : Option (List Nat))
    (ings : Option (List (String × String))) (pt : Int) (now : Nat)
    (t i : String) (pv : Int)
    (ht : Validator.validate_recipe_title title = .ok t)
    (hi : Validator.validate_instructions instructions = .ok i)
    (hp : Database.prepOf pt = .ok pv) :
    (Database.update_recipe db rid title instructions cids ings pt now).1 = true ∧
    (db.recipes.find? (fun x => x.id = rid) = none →
      (Database.update_recipe db rid title instructions cids ings pt now).2.recipe_events =
        db.recipe_events) ∧
    (∀ r, db.recipes.find? (fun x => x.id = rid) = some r →
      (Database.update_recipe db rid title instructions cids ings pt now).2.recipe_events =
        db.recipe_events ++ [⟨db.nextEventId, some rid, "user", EType.edit, now⟩]) := by
  rcases cids with _ | cl <;> rcases ings with _ | il
  all_goals
    simp only [Database.update_recipe, ht, hi, hp]
  all_goals
    refine ⟨by trivial, fun hnone => ?_, fun r hr => ?_⟩
  all_goals
    simp only [Database.log_recipe_event, recipeExists,
      foldl_preserve _ DB.recipes (updateCatStep_recipes rid),
      foldl_preserve _ DB.recipes (updateIngStep_recipes rid),
      foldl_preserve _ DB.recipe_events (updateCatStep_events1 rid),
      foldl_preserve _ DB.recipe_events (updateIngStep_events1 rid),
      foldl_preserve _ DB.nextEventId (updateCatStep_nextEventId rid),
      foldl_preserve _ DB.nextEventId (updateIngStep_nextEventId rid),
      recipeExists_map_upd]
  all_goals
    first
    | (rw [any_eq_false_of_find?_eq_none hnone]
       simp [foldl_preserve _ DB.recipe_events (updateCatStep_events1 rid),
             foldl_preserve _ DB.recipe_events (updateIngStep_events1 rid),
             foldl_preserve _ DB.nextEventId (updateCatStep_nextEventId rid),
             foldl_preserve _ DB.nextEventId (updateIngStep_nextEventId rid)])
    | (rw [any_eq_true_of_find?_eq_some hr]
       simp [foldl_preserve _ DB.recipe_events (updateCatStep_events1 rid),
             foldl_preserve _ DB.recipe_events (updateIngStep_events1 rid),
             foldl_preserve _ DB.nextEventId (updateCatStep_nextEventId rid),
             foldl_preserve _ DB.nextEventId (updateIngStep_nextEventId rid)])

/-- Witness for C10: updating deleted recipe 1 (of `fixRec` after soft
delete) succeeds and logs an edit event; updating the absent id 7 on the
empty store succeeds and logs nothing. -/
theorem c10_update_no_existence_check_witness :
    (Database.update_recipe (Database.delete_recipe fixRec 1 "bobby" 2).2 1
      "Tart" "Stir" none none 30 5).1 = true ∧
    (Database.update_recipe (Database.delete_recipe fixRec 1 "bobby" 2).2 1
      "Tart" "Stir" none none 30 5).2.recipe_events =
      (Database.delete_recipe fixRec 1 "bobby" 2).2.recipe_events ++
        [⟨(Database.delete_recipe fixRec 1 "bobby" 2).2.nextEventId, some 1, "user",
          EType.edit, 5⟩] ∧
    (Database.update_recipe emptyDb 7 "Tart" "Stir" none none 30 5).1 = true ∧
    (Database.update_recipe emptyDb 7 "Tart" "Stir" none none 30 5).2.recipe_events =
      emptyDb.recipe_events := by
  have H1 := c10_update_no_existence_check (Database.delete_recipe fixRec 1 "bobby" 2).2 1
    "Tart" "Stir" none none 30 5 "Tart" "Stir" 30 (by decide) (by decide) (by decide)
  have H2 := c10_update_no_existence_check emptyDb 7 "Tart" "Stir" none none 30 5
    "Tart" "Stir" 30 (by decide) (by decide) (by decide)
  exact ⟨H1.1, H1.2.2 { fixRecRow with status := RStatus.deleted } (by decide),
    H2.1, H2.2.1 (by decide)⟩

theorem addRecipeCatStep_of_exists {d : DB} {rid cid : Nat}
    (h : (d.categories.any fun c => c.id = cid) = true)
    (hnotp : (d.recipe_categories.any fun p => p.1 = rid ∧ p.2 = cid) = false) :
    addRecipeCatStep rid d cid =
      { d with
        recipe_categories := d.recipe_categories ++ [(rid, cid)],
        categories := d.categories.map fun c =>
          if c.id = cid then { c with recipe_count := c.recipe_count + 1 } else c } := by
  unfold addRecipeCatStep categoryExists
  rw [if_pos h, if_neg (by rw [hnotp]; exact fun hh => Bool.noConfusion hh)]

theorem addRecipeCatStep_of_missing {d : DB} {rid cid : Nat}
    (h : (d.categories.any fun c => c.id = cid) = false) :
    addRecipeCatStep rid d cid = d := by
  unfold addRecipeCatStep categoryExists
  rw [if_neg (by simp [h])]

theorem addRecipeIngStep_of_ok {d : DB} {rid : Nat} {iq : String × String}
    {gi gq : String} (h : Validator.validate_ingredient iq.1 iq.2 = .ok (gi, gq)) :
    addRecipeIngStep rid d iq =
      { d with
        recipe_ingredients := d.recipe_ingredients ++ [⟨d.nextIngredientId, rid, gi, gq⟩],
        nextIngredientId := d.nextIngredientId + 1 } := by
  simp only [addRecipeIngStep, h]

theorem addRecipeIngStep_of_err {d : DB} {rid : Nat} {iq : String × String}
    {e : Err} (h : Validator.validate_ingredient iq.1 iq.2 = .error e) :
    addRecipeIngStep rid d iq = d := by
  simp only [addRecipeIngStep, h]

theorem categoryExists_map_bump (l : List CategoryRow) (cid cid2 : Nat) :
    ((l.map fun c => if c.id = cid then { c with recipe_count := c.recipe_count + 1 } else c).any
      fun c => c.id = cid2) = (l.any fun c => c.id = cid2) := by
  apply any_map_congr
  intro x
  split <;> rfl

theorem c4_folds (d : DB) {rid c_ok c_bad : Nat} {cl : List Nat}
    {g b : String × String} {il : List (String × String)} {gi gq : String} {e : Err}
    (hok : (d.categories.any fun c => c.id = c_ok) = true)
    (hbad : (d.categories.any fun c => c.id = c_bad) = false)
    (hnotp : (d.recipe_categories.any fun p => p.1 = rid ∧ p.2 = c_ok) = false)
    (hg : Validator.validate_ingredient g.1 g.2 = .ok (gi, gq))
    (hb : Validator.validate_ingredient b.1 b.2 = .error e)
    (hcl : cl = [c_ok, c_bad] ∨ cl = [c_bad, c_ok])
    (hil : il = [g, b] ∨ il = [b, g]) :
    List.foldl (addRecipeIngStep rid) (List.foldl (addRecipeCatStep rid) d cl) il =
      { d with
        recipe_categories := d.recipe_categories ++ [(rid, c_ok)],
        categories := d.categories.map fun c =>
          if c.id = c_ok then { c with recipe_count := c.recipe_count + 1 } else c,
        recipe_ingredients := d.recipe_ingredients ++ [⟨d.nextIngredientId, rid, gi, gq⟩],
        nextIngredientId := d.nextIngredientId + 1 } := by
  have hbad1 : ((d.categories.map fun c =>
      if c.id = c_ok then { c with recipe_count := c.recipe_count + 1 } else c).any
        fun c => c.id = c_bad) = false := by
    rw [categoryExists_map_bump]
    exact hbad
  rcases hcl with rfl | rfl <;> rcases hil with rfl | rfl <;>
    simp only [List.foldl_cons, List.foldl_nil]
  · rw [addRecipeCatStep_of_exists hok hnotp, addRecipeCatStep_of_missing hbad1,
        addRecipeIngStep_of_ok hg, addRecipeIngStep_of_err hb]
  · rw [addRecipeCatStep_of_exists hok hnotp, addRecipeCatStep_of_missing hbad1,
        addRecipeIngStep_of_err hb, addRecipeIngStep_of_ok hg]
  · rw [addRecipeCatStep_of_missing hbad, addRecipeCatStep_of_exists hok hnotp,
        addRecipeIngStep_of_ok hg, addRecipeIngStep_of_err hb]
  · rw [addRecipeCatStep_of_missing hbad, addRecipeCatStep_of_exists hok hnotp,
        addRecipeIngStep_of_err hb, addRecipeIngStep_of_ok hg]

theorem add_recipe_ok (db : DB) (title instructions created_by : String)
    (cl : List Nat) (il : List (String × String)) (pt : Int) (now : Nat)
    (t i : String) (pv : Int)
    (ht : Validator.validate_recipe_title title = .ok t)
    (hi : Validator.validate_instructions instructions = .ok i)
    (hp : Database.prepOf pt = .ok pv) :
    Database.add_recipe db title instructions created_by cl il pt now =
      .ok (db.nextRecipeId,
        List.foldl (addRecipeIngStep db.nextRecipeId)
          (List.foldl (addRecipeCatStep db.nextRecipeId)
            { db with
              recipes := db.recipes ++
                [⟨db.nextRecipeId, t, i, 0, pv, created_by, now, none, RStatus.active⟩],
              nextRecipeId := db.nextRecipeId + 1,
              users := db.users.map fun u =>
                if u.username = created_by then { u with recipe_count := u.recipe_count + 1 }
                else u,
              recipe_events := db.recipe_events ++
                [⟨db.nextEventId, some db.nextRecipeId, created_by, EType.create, now⟩],
              nextEventId := db.nextEventId + 1 } cl) il) := by
  simp only [Database.add_recipe, ht, hi, hp, Database.log_recipe_event]
  split
  · rfl
  · next hcon =>
    exact absurd (by simp [recipeExists, List.any_append]) hcon

/-- C4: `add_recipe` with category ids containing one existing and one
non-existent id (in either order), and one valid and one invalid ingredient
pair (in either order), creates the recipe and returns its id; exactly one
junction row and one count increment exist, both for the existing category;
the non-existent id gets no junction row; and exactly the valid ingredient
is stored — the failing sub-items are skipped without aborting the
operation. -/
theorem c4_create_partial_success (db : DB) (title instructions created_by : String)
    (pt : Int) (now : Nat) (t i : String) (pv : Int)
    (c_ok c_bad : Nat) (cidsv : List Nat)
    (g b : String × String) (ingsv : List (String × String))
    (gi gq : String) (e : Err)
    (ht : Validator.validate_recipe_title title = .ok t)
    (hi : Validator.validate_instructions instructions = .ok i)
    (hp : Database.prepOf pt = .ok pv)
    (hok : categoryExists db c_ok = true)
    (hbad : categoryExists db c_bad = false)
    (hg : Validator.validate_ingredient g.1 g.2 = .ok (gi, gq))
    (hb : Validator.validate_ingredient b.1 b.2 = .error e)
    (hcids : cidsv = [c_ok, c_bad] ∨ cidsv = [c_bad, c_ok])
    (hings : ingsv = [g, b] ∨ ingsv = [b, g])
    (hfresh : ∀ pr ∈ db.recipe_categories, pr.1 ≠ db.nextRecipeId) :
    ∃ db', Database.add_recipe db title instructions created_by cidsv ingsv pt now =
        .ok (db.nextRecipeId, db') ∧
      db'.recipes = db.recipes ++
        [⟨db.nextRecipeId, t, i, 0, pv, created_by, now, none, RStatus.active⟩] ∧
      db'.recipe_categories = db.recipe_categories ++ [(db.nextRecipeId, c_ok)] ∧
      db'.categories = db.categories.map (fun c => if c.id = c_ok then
        { c with recipe_count := c.recipe_count + 1 } else c) ∧
      db'.recipe_ingredients = db.recipe_ingredients ++
        [⟨db.nextIngredientId, db.nextRecipeId, gi, gq⟩] := by
  have hnotp : (db.recipe_categories.any fun p =>
      p.1 = db.nextRecipeId ∧ p.2 = c_ok) = false := by
    rw [List.any_eq_false]
    intro x hx hpx
    exact hfresh x hx (of_decide_eq_true hpx).1
  have hokc : (db.categories.any fun c => c.id = c_ok) = true := hok
  have hbadc : (db.categories.any fun c => c.id = c_bad) = false := hbad
  rw [add_recipe_ok db title instructions created_by cidsv ingsv pt now t i pv ht hi hp,
      c4_folds
        { db with
          recipes := db.recipes ++
            [⟨db.nextRecipeId, t, i, 0, pv, created_by, now, none, RStatus.active⟩],
          nextRecipeId := db.nextRecipeId + 1,
          users := db.users.map fun u =>
            if u.username = created_by then { u with recipe_count := u.recipe_count + 1 }
            else u,
          recipe_events := db.recipe_events ++
            [⟨db.nextEventId, some db.nextRecipeId, created_by, EType.create, now⟩],
          nextEventId := db.nextEventId + 1 }
        hokc hbadc hnotp hg hb hcids hings]
  exact ⟨_, rfl, rfl, rfl, rfl, rfl⟩

/-- Witness for C4: on `fixRec` (category 1 exists, 5 does not), create
"Pie" with categories [1, 5] and ingredients [("sugar","1 cup"), ("","")]. -/
theorem c4_create_partial_success_witness :
    ∃ db', Database.add_recipe fixRec "Pie" "Bake it" "bobby" [1, 5]
        [("sugar", "1 cup"), ("", "")] 30 7 = .ok (fixRec.nextRecipeId, db') ∧
      db'.recipes = fixRec.recipes ++
        [⟨fixRec.nextRecipeId, "Pie", "Bake it", 0, 30, "bobby", 7, none, RStatus.active⟩] ∧
      db'.recipe_categories = fixRec.recipe_categories ++ [(fixRec.nextRecipeId, 1)] ∧
      db'.categories = fixRec.categories.map (fun c => if c.id = 1 then
        { c with recipe_count := c.recipe_count + 1 } else c) ∧
      db'.recipe_ingredients = fixRec.recipe_ingredients ++
        [⟨fixRec.nextIngredientId, fixRec.nextRecipeId, "sugar", "1 cup"⟩] :=
  c4_create_partial_success fixRec "Pie" "Bake it" "bobby" 30 7 "Pie" "Bake it" 30
    1 5 [1, 5] ("sugar", "1 cup") ("", "") [("sugar", "1 cup"), ("", "")]
    "sugar" "1 cup" (.validation "Ingredient name cannot be empty")
    (by decide) (by decide) (by decide) (by decide) (by decide) (by decide) (by decide)
    (Or.inl rfl) (Or.inl rfl) (by decide)
